import Mathlib

/-! Blog API: authentication, authorization and comment handlers.

A shallow embedding of the Express handlers under `api/` (controllers
`Autenticazione.js`, `controllerUtente.js`, `controllerPost.js`,
`controllerCommenti.js` and the guard `utils/verificaUtente.js`).

A handler is a function from the ambient environment, the document store and
the request data to an `Outcome`: the store afterwards together with the
ordered log of what the handler did (calls to `next`, store calls, hashing,
cookies, JSON responses).  A `return next(err)` ends the log; a `next(err)`
without `return` does not.

Conventions.
* Request fields that may be absent are `Option String` (`none` is JavaScript
  `undefined`).
* Identifiers (`_id`, `req.user.id`, path parameters) are strings and stand
  for well-formed object ids; the cast error the store raises on a malformed
  id is not modelled.
* The store is an in-memory list per collection; every document carries the
  `createdAt`/`updatedAt` stamps that `timestamps: true` makes the store keep.
  Store calls succeed unless schema validation or a unique index rejects them.
* `bcryptjs`, `jsonwebtoken`, the clock, the identifier generator and
  `Math.random` are external and come from `Env`.
* A string is its sequence of Unicode code points; a JavaScript string with
  an unpaired surrogate is not represented.  `length` counts UTF-16 code
  units and `toLowerCase` is the Unicode default lower-casing, with the case
  data of Unicode 14.0.
-/

namespace Blog

/-! ## Errors (`utils/error.js`) -/

/-- A JavaScript `Error` as the error middleware sees it: `statusCode` is
present only on errors built by `errorHandler`. -/
structure AppError where
  statusCode : Option Nat
  message : String
deriving DecidableEq, Repr

/-- Source `errorHandler(statusCode, message)`. -/
def errorHandler (statusCode : Nat) (message : String) : AppError :=
  { statusCode := some statusCode, message := message }

/-- An exception raised by a library call and caught by the handler's
`catch (error)`: it carries no `statusCode`. -/
def thrown (message : String) : AppError :=
  { statusCode := none, message := message }

/-! ## Documents -/

/-- A JSON scalar appearing in a document. -/
inductive Value where
  | str (s : String)
  | bool (b : Bool)
  | num (n : Int)
deriving DecidableEq, Repr

/-- A plain JavaScript object: keys with their values. -/
abbrev Doc := List (String × Value)

/-- The payload signed into the session token and attached as `req.user`. -/
structure TokenUser where
  id : String
  isAdmin : Bool
deriving DecidableEq, Repr

/-- Fields of `userSchema` (`models/Utente.js`) plus `_id`. -/
structure User where
  _id : String
  username : String
  email : String
  password : String
  profilePicture : String
  isAdmin : Bool
deriving DecidableEq, Repr

/-- Fields of `postSchema` (`models/Post.js`) plus `_id`. -/
structure Post where
  _id : String
  userId : String
  content : String
  title : String
  image : String
  category : String
  slug : String
deriving DecidableEq, Repr

/-- Fields of `commentSchema` (`models/Commento.js`) plus `_id`. -/
structure Comment where
  _id : String
  content : String
  postId : String
  userId : String
  likes : List String
  numberOfLikes : Int
deriving DecidableEq, Repr

/-- A stored document with the stamps kept by `timestamps: true`. -/
structure Stamped (α : Type) where
  doc : α
  createdAt : Nat
  updatedAt : Nat
deriving DecidableEq, Repr

/-- The three collections. -/
structure Store where
  users : List (Stamped User)
  posts : List (Stamped Post)
  comments : List (Stamped Comment)
deriving DecidableEq, Repr

/-! ## Store primitives (Mongoose model calls) -/

/-- First element satisfying `p` replaced by its image under `f`. -/
def modifyFirst {α : Type} (p : α → Bool) (f : α → α) : List α → List α
  | [] => []
  | x :: xs => if p x then f x :: xs else x :: modifyFirst p f xs

/-- Model call `findById(id)`: the document with that `_id`, if any. -/
def findById {α : Type} (key : α → String) (coll : List (Stamped α)) (id : String) :
    Option (Stamped α) :=
  coll.find? (fun d => key d.doc == id)

/-- Call `doc.save()` on a document fetched earlier and modified in memory:
the stored copy with the same `_id` is overwritten and `updatedAt` advances. -/
def saveExisting {α : Type} (key : α → String) (now : Nat) (coll : List (Stamped α)) (doc : α) :
    List (Stamped α) :=
  modifyFirst (fun d => key d.doc == key doc)
    (fun d => { d with doc := doc, updatedAt := now }) coll

/-- Call `doc.save()` on a freshly constructed document. -/
def insertNew {α : Type} (now : Nat) (coll : List (Stamped α)) (doc : α) : List (Stamped α) :=
  coll ++ [{ doc := doc, createdAt := now, updatedAt := now }]

/-- Model call `findByIdAndUpdate(id, update, { new: true })`: the collection
afterwards and the updated document (`null` when no document has that id). -/
def findByIdAndUpdate {α : Type} (key : α → String) (now : Nat) (coll : List (Stamped α))
    (id : String) (f : α → α) : List (Stamped α) × Option (Stamped α) :=
  let coll' := modifyFirst (fun d => key d.doc == id)
    (fun d => { d with doc := f d.doc, updatedAt := now }) coll
  (coll', (findById key coll id).map (fun d => { d with doc := f d.doc, updatedAt := now }))

/-- Model call `findByIdAndDelete(id)`. -/
def findByIdAndDelete {α : Type} (key : α → String) (coll : List (Stamped α)) (id : String) :
    List (Stamped α) :=
  coll.eraseP (fun d => key d.doc == id)

/-! ## Unicode case data

Data of the Unicode Character Database, version 14.0, which
`String.prototype.toLowerCase` follows: the simple lowercase mappings of
`UnicodeData.txt` and the properties `Cased` and `Case_Ignorable` of
`DerivedCoreProperties.txt`.  The two lowercase rules of `SpecialCasing.txt`
that hold in every language, for U+0130 and for `Final_Sigma`, are part of
`lowerOne` and `lowerFrom`. -/

/-- Simple lowercase mappings outside ASCII, in runs `(first, last, step,
target)`: the code points `first, first + step, ...` up to `last` map to
`target, target + step, ...`. -/
def lowerRuns : List (Nat × Nat × Nat × Nat) := [
  (192, 214, 1, 224), (216, 222, 1, 248), (256, 302, 2, 257), (306, 310, 2, 307),
  (313, 327, 2, 314), (330, 374, 2, 331), (376, 376, 1, 255), (377, 381, 2, 378),
  (385, 385, 1, 595), (386, 388, 2, 387), (390, 390, 1, 596), (391, 391, 1, 392),
  (393, 394, 1, 598), (395, 395, 1, 396), (398, 398, 1, 477), (399, 399, 1, 601),
  (400, 400, 1, 603), (401, 401, 1, 402), (403, 403, 1, 608), (404, 404, 1, 611),
  (406, 406, 1, 617), (407, 407, 1, 616), (408, 408, 1, 409), (412, 412, 1, 623),
  (413, 413, 1, 626), (415, 415, 1, 629), (416, 420, 2, 417), (422, 422, 1, 640),
  (423, 423, 1, 424), (425, 425, 1, 643), (428, 428, 1, 429), (430, 430, 1, 648),
  (431, 431, 1, 432), (433, 434, 1, 650), (435, 437, 2, 436), (439, 439, 1, 658),
  (440, 440, 1, 441), (444, 444, 1, 445), (452, 452, 1, 454), (453, 453, 1, 454),
  (455, 455, 1, 457), (456, 456, 1, 457), (458, 458, 1, 460), (459, 475, 2, 460),
  (478, 494, 2, 479), (497, 497, 1, 499), (498, 500, 2, 499), (502, 502, 1, 405),
  (503, 503, 1, 447), (504, 542, 2, 505), (544, 544, 1, 414), (546, 562, 2, 547),
  (570, 570, 1, 11365), (571, 571, 1, 572), (573, 573, 1, 410), (574, 574, 1, 11366),
  (577, 577, 1, 578), (579, 579, 1, 384), (580, 580, 1, 649), (581, 581, 1, 652),
  (582, 590, 2, 583), (880, 882, 2, 881), (886, 886, 1, 887), (895, 895, 1, 1011),
  (902, 902, 1, 940), (904, 906, 1, 941), (908, 908, 1, 972), (910, 911, 1, 973),
  (913, 929, 1, 945), (931, 939, 1, 963), (975, 975, 1, 983), (984, 1006, 2, 985),
  (1012, 1012, 1, 952), (1015, 1015, 1, 1016), (1017, 1017, 1, 1010), (1018, 1018, 1, 1019),
  (1021, 1023, 1, 891), (1024, 1039, 1, 1104), (1040, 1071, 1, 1072), (1120, 1152, 2, 1121),
  (1162, 1214, 2, 1163), (1216, 1216, 1, 1231), (1217, 1229, 2, 1218), (1232, 1326, 2, 1233),
  (1329, 1366, 1, 1377), (4256, 4293, 1, 11520), (4295, 4295, 1, 11559), (4301, 4301, 1, 11565),
  (5024, 5103, 1, 43888), (5104, 5109, 1, 5112), (7312, 7354, 1, 4304), (7357, 7359, 1, 4349),
  (7680, 7828, 2, 7681), (7838, 7838, 1, 223), (7840, 7934, 2, 7841), (7944, 7951, 1, 7936),
  (7960, 7965, 1, 7952), (7976, 7983, 1, 7968), (7992, 7999, 1, 7984), (8008, 8013, 1, 8000),
  (8025, 8031, 2, 8017), (8040, 8047, 1, 8032), (8072, 8079, 1, 8064), (8088, 8095, 1, 8080),
  (8104, 8111, 1, 8096), (8120, 8121, 1, 8112), (8122, 8123, 1, 8048), (8124, 8124, 1, 8115),
  (8136, 8139, 1, 8050), (8140, 8140, 1, 8131), (8152, 8153, 1, 8144), (8154, 8155, 1, 8054),
  (8168, 8169, 1, 8160), (8170, 8171, 1, 8058), (8172, 8172, 1, 8165), (8184, 8185, 1, 8056),
  (8186, 8187, 1, 8060), (8188, 8188, 1, 8179), (8486, 8486, 1, 969), (8490, 8490, 1, 107),
  (8491, 8491, 1, 229), (8498, 8498, 1, 8526), (8544, 8559, 1, 8560), (8579, 8579, 1, 8580),
  (9398, 9423, 1, 9424), (11264, 11311, 1, 11312), (11360, 11360, 1, 11361),
  (11362, 11362, 1, 619), (11363, 11363, 1, 7549), (11364, 11364, 1, 637),
  (11367, 11371, 2, 11368), (11373, 11373, 1, 593), (11374, 11374, 1, 625),
  (11375, 11375, 1, 592), (11376, 11376, 1, 594), (11378, 11378, 1, 11379),
  (11381, 11381, 1, 11382), (11390, 11391, 1, 575), (11392, 11490, 2, 11393),
  (11499, 11501, 2, 11500), (11506, 11506, 1, 11507), (42560, 42604, 2, 42561),
  (42624, 42650, 2, 42625), (42786, 42798, 2, 42787), (42802, 42862, 2, 42803),
  (42873, 42875, 2, 42874), (42877, 42877, 1, 7545), (42878, 42886, 2, 42879),
  (42891, 42891, 1, 42892), (42893, 42893, 1, 613), (42896, 42898, 2, 42897),
  (42902, 42920, 2, 42903), (42922, 42922, 1, 614), (42923, 42923, 1, 604),
  (42924, 42924, 1, 609), (42925, 42925, 1, 620), (42926, 42926, 1, 618), (42928, 42928, 1, 670),
  (42929, 42929, 1, 647), (42930, 42930, 1, 669), (42931, 42931, 1, 43859),
  (42932, 42946, 2, 42933), (42948, 42948, 1, 42900), (42949, 42949, 1, 642),
  (42950, 42950, 1, 7566), (42951, 42953, 2, 42952), (42960, 42960, 1, 42961),
  (42966, 42968, 2, 42967), (42997, 42997, 1, 42998), (65313, 65338, 1, 65345),
  (66560, 66599, 1, 66600), (66736, 66771, 1, 66776), (66928, 66938, 1, 66967),
  (66940, 66954, 1, 66979), (66956, 66962, 1, 66995), (66964, 66965, 1, 67003),
  (68736, 68786, 1, 68800), (71840, 71871, 1, 71872), (93760, 93791, 1, 93792),
  (125184, 125217, 1, 125218)]

/-- Code points with the property `Cased`, in ranges `(first, last)`. -/
def casedRanges : List (Nat × Nat) := [
  (65, 90), (97, 122), (170, 170), (181, 181), (186, 186), (192, 214), (216, 246), (248, 442),
  (444, 447), (452, 659), (661, 696), (704, 705), (736, 740), (837, 837), (880, 883), (886, 887),
  (890, 893), (895, 895), (902, 902), (904, 906), (908, 908), (910, 929), (931, 1013),
  (1015, 1153), (1162, 1327), (1329, 1366), (1376, 1416), (4256, 4293), (4295, 4295),
  (4301, 4301), (4304, 4346), (4349, 4351), (5024, 5109), (5112, 5117), (7296, 7304),
  (7312, 7354), (7357, 7359), (7424, 7615), (7680, 7957), (7960, 7965), (7968, 8005),
  (8008, 8013), (8016, 8023), (8025, 8025), (8027, 8027), (8029, 8029), (8031, 8061),
  (8064, 8116), (8118, 8124), (8126, 8126), (8130, 8132), (8134, 8140), (8144, 8147),
  (8150, 8155), (8160, 8172), (8178, 8180), (8182, 8188), (8305, 8305), (8319, 8319),
  (8336, 8348), (8450, 8450), (8455, 8455), (8458, 8467), (8469, 8469), (8473, 8477),
  (8484, 8484), (8486, 8486), (8488, 8488), (8490, 8493), (8495, 8500), (8505, 8505),
  (8508, 8511), (8517, 8521), (8526, 8526), (8544, 8575), (8579, 8580), (9398, 9449),
  (11264, 11492), (11499, 11502), (11506, 11507), (11520, 11557), (11559, 11559), (11565, 11565),
  (42560, 42605), (42624, 42653), (42786, 42887), (42891, 42894), (42896, 42954), (42960, 42961),
  (42963, 42963), (42965, 42969), (42997, 42998), (43000, 43002), (43824, 43866), (43868, 43880),
  (43888, 43967), (64256, 64262), (64275, 64279), (65313, 65338), (65345, 65370), (66560, 66639),
  (66736, 66771), (66776, 66811), (66928, 66938), (66940, 66954), (66956, 66962), (66964, 66965),
  (66967, 66977), (66979, 66993), (66995, 67001), (67003, 67004), (67456, 67456), (67459, 67461),
  (67463, 67504), (67506, 67514), (68736, 68786), (68800, 68850), (71840, 71903), (93760, 93823),
  (119808, 119892), (119894, 119964), (119966, 119967), (119970, 119970), (119973, 119974),
  (119977, 119980), (119982, 119993), (119995, 119995), (119997, 120003), (120005, 120069),
  (120071, 120074), (120077, 120084), (120086, 120092), (120094, 120121), (120123, 120126),
  (120128, 120132), (120134, 120134), (120138, 120144), (120146, 120485), (120488, 120512),
  (120514, 120538), (120540, 120570), (120572, 120596), (120598, 120628), (120630, 120654),
  (120656, 120686), (120688, 120712), (120714, 120744), (120746, 120770), (120772, 120779),
  (122624, 122633), (122635, 122654), (125184, 125251), (127280, 127305), (127312, 127337),
  (127344, 127369)]

/-- Code points with the property `Case_Ignorable`, in ranges `(first,
last)`. -/
def caseIgnorableRanges : List (Nat × Nat) := [
  (39, 39), (46, 46), (58, 58), (94, 94), (96, 96), (168, 168), (173, 173), (175, 175),
  (180, 180), (183, 184), (688, 879), (884, 885), (890, 890), (900, 901), (903, 903),
  (1155, 1161), (1369, 1369), (1375, 1375), (1425, 1469), (1471, 1471), (1473, 1474),
  (1476, 1477), (1479, 1479), (1524, 1524), (1536, 1541), (1552, 1562), (1564, 1564),
  (1600, 1600), (1611, 1631), (1648, 1648), (1750, 1757), (1759, 1768), (1770, 1773),
  (1807, 1807), (1809, 1809), (1840, 1866), (1958, 1968), (2027, 2037), (2042, 2042),
  (2045, 2045), (2070, 2093), (2137, 2139), (2184, 2184), (2192, 2193), (2200, 2207),
  (2249, 2306), (2362, 2362), (2364, 2364), (2369, 2376), (2381, 2381), (2385, 2391),
  (2402, 2403), (2417, 2417), (2433, 2433), (2492, 2492), (2497, 2500), (2509, 2509),
  (2530, 2531), (2558, 2558), (2561, 2562), (2620, 2620), (2625, 2626), (2631, 2632),
  (2635, 2637), (2641, 2641), (2672, 2673), (2677, 2677), (2689, 2690), (2748, 2748),
  (2753, 2757), (2759, 2760), (2765, 2765), (2786, 2787), (2810, 2815), (2817, 2817),
  (2876, 2876), (2879, 2879), (2881, 2884), (2893, 2893), (2901, 2902), (2914, 2915),
  (2946, 2946), (3008, 3008), (3021, 3021), (3072, 3072), (3076, 3076), (3132, 3132),
  (3134, 3136), (3142, 3144), (3146, 3149), (3157, 3158), (3170, 3171), (3201, 3201),
  (3260, 3260), (3263, 3263), (3270, 3270), (3276, 3277), (3298, 3299), (3328, 3329),
  (3387, 3388), (3393, 3396), (3405, 3405), (3426, 3427), (3457, 3457), (3530, 3530),
  (3538, 3540), (3542, 3542), (3633, 3633), (3636, 3642), (3654, 3662), (3761, 3761),
  (3764, 3772), (3782, 3782), (3784, 3789), (3864, 3865), (3893, 3893), (3895, 3895),
  (3897, 3897), (3953, 3966), (3968, 3972), (3974, 3975), (3981, 3991), (3993, 4028),
  (4038, 4038), (4141, 4144), (4146, 4151), (4153, 4154), (4157, 4158), (4184, 4185),
  (4190, 4192), (4209, 4212), (4226, 4226), (4229, 4230), (4237, 4237), (4253, 4253),
  (4348, 4348), (4957, 4959), (5906, 5908), (5938, 5939), (5970, 5971), (6002, 6003),
  (6068, 6069), (6071, 6077), (6086, 6086), (6089, 6099), (6103, 6103), (6109, 6109),
  (6155, 6159), (6211, 6211), (6277, 6278), (6313, 6313), (6432, 6434), (6439, 6440),
  (6450, 6450), (6457, 6459), (6679, 6680), (6683, 6683), (6742, 6742), (6744, 6750),
  (6752, 6752), (6754, 6754), (6757, 6764), (6771, 6780), (6783, 6783), (6823, 6823),
  (6832, 6862), (6912, 6915), (6964, 6964), (6966, 6970), (6972, 6972), (6978, 6978),
  (7019, 7027), (7040, 7041), (7074, 7077), (7080, 7081), (7083, 7085), (7142, 7142),
  (7144, 7145), (7149, 7149), (7151, 7153), (7212, 7219), (7222, 7223), (7288, 7293),
  (7376, 7378), (7380, 7392), (7394, 7400), (7405, 7405), (7412, 7412), (7416, 7417),
  (7468, 7530), (7544, 7544), (7579, 7679), (8125, 8125), (8127, 8129), (8141, 8143),
  (8157, 8159), (8173, 8175), (8189, 8190), (8203, 8207), (8216, 8217), (8228, 8228),
  (8231, 8231), (8234, 8238), (8288, 8292), (8294, 8303), (8305, 8305), (8319, 8319),
  (8336, 8348), (8400, 8432), (11388, 11389), (11503, 11505), (11631, 11631), (11647, 11647),
  (11744, 11775), (11823, 11823), (12293, 12293), (12330, 12333), (12337, 12341), (12347, 12347),
  (12441, 12446), (12540, 12542), (40981, 40981), (42232, 42237), (42508, 42508), (42607, 42610),
  (42612, 42621), (42623, 42623), (42652, 42655), (42736, 42737), (42752, 42785), (42864, 42864),
  (42888, 42890), (42994, 42996), (43000, 43001), (43010, 43010), (43014, 43014), (43019, 43019),
  (43045, 43046), (43052, 43052), (43204, 43205), (43232, 43249), (43263, 43263), (43302, 43309),
  (43335, 43345), (43392, 43394), (43443, 43443), (43446, 43449), (43452, 43453), (43471, 43471),
  (43493, 43494), (43561, 43566), (43569, 43570), (43573, 43574), (43587, 43587), (43596, 43596),
  (43632, 43632), (43644, 43644), (43696, 43696), (43698, 43700), (43703, 43704), (43710, 43711),
  (43713, 43713), (43741, 43741), (43756, 43757), (43763, 43764), (43766, 43766), (43867, 43871),
  (43881, 43883), (44005, 44005), (44008, 44008), (44013, 44013), (64286, 64286), (64434, 64450),
  (65024, 65039), (65043, 65043), (65056, 65071), (65106, 65106), (65109, 65109), (65279, 65279),
  (65287, 65287), (65294, 65294), (65306, 65306), (65342, 65342), (65344, 65344), (65392, 65392),
  (65438, 65439), (65507, 65507), (65529, 65531), (66045, 66045), (66272, 66272), (66422, 66426),
  (67456, 67461), (67463, 67504), (67506, 67514), (68097, 68099), (68101, 68102), (68108, 68111),
  (68152, 68154), (68159, 68159), (68325, 68326), (68900, 68903), (69291, 69292), (69446, 69456),
  (69506, 69509), (69633, 69633), (69688, 69702), (69744, 69744), (69747, 69748), (69759, 69761),
  (69811, 69814), (69817, 69818), (69821, 69821), (69826, 69826), (69837, 69837), (69888, 69890),
  (69927, 69931), (69933, 69940), (70003, 70003), (70016, 70017), (70070, 70078), (70089, 70092),
  (70095, 70095), (70191, 70193), (70196, 70196), (70198, 70199), (70206, 70206), (70367, 70367),
  (70371, 70378), (70400, 70401), (70459, 70460), (70464, 70464), (70502, 70508), (70512, 70516),
  (70712, 70719), (70722, 70724), (70726, 70726), (70750, 70750), (70835, 70840), (70842, 70842),
  (70847, 70848), (70850, 70851), (71090, 71093), (71100, 71101), (71103, 71104), (71132, 71133),
  (71219, 71226), (71229, 71229), (71231, 71232), (71339, 71339), (71341, 71341), (71344, 71349),
  (71351, 71351), (71453, 71455), (71458, 71461), (71463, 71467), (71727, 71735), (71737, 71738),
  (71995, 71996), (71998, 71998), (72003, 72003), (72148, 72151), (72154, 72155), (72160, 72160),
  (72193, 72202), (72243, 72248), (72251, 72254), (72263, 72263), (72273, 72278), (72281, 72283),
  (72330, 72342), (72344, 72345), (72752, 72758), (72760, 72765), (72767, 72767), (72850, 72871),
  (72874, 72880), (72882, 72883), (72885, 72886), (73009, 73014), (73018, 73018), (73020, 73021),
  (73023, 73029), (73031, 73031), (73104, 73105), (73109, 73109), (73111, 73111), (73459, 73460),
  (78896, 78904), (92912, 92916), (92976, 92982), (92992, 92995), (94031, 94031), (94095, 94111),
  (94176, 94177), (94179, 94180), (110576, 110579), (110581, 110587), (110589, 110590),
  (113821, 113822), (113824, 113827), (118528, 118573), (118576, 118598), (119143, 119145),
  (119155, 119170), (119173, 119179), (119210, 119213), (119362, 119364), (121344, 121398),
  (121403, 121452), (121461, 121461), (121476, 121476), (121499, 121503), (121505, 121519),
  (122880, 122886), (122888, 122904), (122907, 122913), (122915, 122916), (122918, 122922),
  (123184, 123197), (123566, 123566), (123628, 123631), (125136, 125142), (125252, 125259),
  (127995, 127999), (917505, 917505), (917536, 917631), (917760, 917999)]

/-- Membership of a code point in a list of ranges. -/
def inRanges (ranges : List (Nat × Nat)) (n : Nat) : Bool :=
  ranges.any (fun r => decide (r.1 ≤ n) && decide (n ≤ r.2))

/-- Property `Cased` of a character. -/
def isCased (c : Char) : Bool :=
  inRanges casedRanges c.toNat

/-- Property `Case_Ignorable` of a character. -/
def isCaseIgnorable (c : Char) : Bool :=
  inRanges caseIgnorableRanges c.toNat

/-- Simple lowercase mapping of a code point outside ASCII. -/
def simpleLower (n : Nat) : Nat :=
  match lowerRuns.find?
      (fun r => decide (r.1 ≤ n) && decide (n ≤ r.2.1) && (n - r.1) % r.2.2.1 == 0) with
  | some r => r.2.2.2 + (n - r.1)
  | none => n

/-- Whether a cased letter comes first in `cs` once the case-ignorable
characters before it are skipped. -/
def casedAfterIgnorable : List Char → Bool
  | [] => false
  | c :: cs => if isCaseIgnorable c then casedAfterIgnorable cs else isCased c

/-- The lowercase form of one character.  Capital sigma (U+03A3) becomes the
final sigma (U+03C2) when `finalSigma` holds and the small sigma (U+03C3)
otherwise; capital I with dot above (U+0130) becomes `i` followed by the
combining dot above (U+0307); every other character has its simple lowercase
mapping, which on ASCII is that of `Char.toLower`. -/
def lowerOne (finalSigma : Bool) (c : Char) : List Char :=
  if c.toNat = 931 then [Char.ofNat (if finalSigma then 962 else 963)]
  else if c.toNat = 304 then ['i', Char.ofNat 775]
  else if c.toNat < 128 then [c.toLower]
  else [Char.ofNat (simpleLower c.toNat)]

/-- Lower-casing of the characters `cs` that follow the characters `before`
(nearest first).  A capital sigma stands in the `Final_Sigma` context when a
cased letter precedes it and none follows it, case-ignorable characters
skipped on both sides. -/
def lowerFrom (before : List Char) : List Char → List Char
  | [] => []
  | c :: cs =>
    lowerOne (casedAfterIgnorable before && !casedAfterIgnorable cs) c ++
      lowerFrom (c :: before) cs

/-! ## JavaScript helpers -/

/-- Truthiness of a possibly absent string: `undefined` and `""` are falsy. -/
def truthy : Option String → Bool
  | none => false
  | some s => s != ""

/-- Array method `indexOf`: position of the first occurrence, or `-1`. -/
def jsIndexOf (xs : List String) (x : String) : Int :=
  if x ∈ xs then (xs.indexOf x : Nat) else -1

/-- Array method `splice(start, 1)` as far as the array left behind goes. -/
def splice1 (xs : List String) (start : Int) : List String :=
  let k : Nat := if start < 0 then (xs.length + start).toNat else min start.toNat xs.length
  xs.eraseIdx k

/-- String method `toLowerCase`: the Unicode default lower-casing. -/
def toLowerCase (s : String) : String :=
  String.mk (lowerFrom [] s.data)

/-- Property `length` of a string: its number of UTF-16 code units, two for a
character beyond U+FFFF. -/
def utf16Length (s : String) : Nat :=
  (s.data.map (fun c => if c.toNat < 65536 then 1 else 2)).sum

/-- String method `slice(-n)`: the last `n` characters. -/
def sliceLast (n : Nat) (s : String) : String :=
  String.mk (s.data.drop (s.data.length - n))

/-- Chain `split(" ").join("")`: every space removed. -/
def removeSpaces (s : String) : String :=
  String.mk (s.data.filter (fun c => c != ' '))

/-- Test `s.includes(" ")`. -/
def includesSpace (s : String) : Bool :=
  s.data.any (fun c => c == ' ')

/-- Test `s.match(/^[a-zA-Z0-9]+$/)` is not `null`. -/
def matchesAlnum (s : String) : Bool :=
  !s.data.isEmpty && s.data.all (fun c => c.isAlphanum)

/-! ## Environment, log and outcome -/

/-- Everything a handler reads from outside the request and the store. -/
structure Env where
  /-- Value of `process.env.JWT_SECRET`. -/
  JWT_SECRET : String
  /-- Call `jwt.sign(payload, secret)`. -/
  sign : TokenUser → String → String
  /-- Call `jwt.verify(token, secret, callback)`: the decoded payload, or
  `none` when the callback receives an error. -/
  verify : String → String → Option TokenUser
  /-- Call `bcryptjs.hashSync(plaintext, rounds)`. -/
  hashSync : String → Nat → String
  /-- Call `bcryptjs.compareSync(plaintext, hash)`. -/
  compareSync : String → String → Bool
  /-- Clock reading `Date.now()`, in milliseconds. -/
  now : Nat
  /-- The instant `new Date(y, m - 1, d)` built from the local year, month
  and day of `now`, in milliseconds; its calendar date is `oneMonthAgoOf`. -/
  oneMonthAgo : Nat
  /-- The `_id` the store gives to the next new document. -/
  newId : String
  /-- Successive results of `Math.random().toString(36)`. -/
  random36a : String
  random36b : String
  /-- Result of `Math.random().toString(9)`. -/
  random9 : String

/-- Options of `res.cookie(name, value, options)`.  `sameSite` is the option
Express reads; keys it does not know are kept in `other`. -/
structure CookieOptions where
  httpOnly : Bool
  sameSite : Option String
  secure : Bool
  expires : Nat
  other : List (String × String)
deriving DecidableEq, Repr

/-- A call to a Mongoose model. -/
inductive DbCall where
  | userFindOne (email : Option String)
  | userFindById (id : String)
  | userFind
  | userCount
  | userSave (u : User)
  | userFindByIdAndUpdate (id : String) (username email profilePicture password : Option String)
  | userFindByIdAndDelete (id : String)
  | postSave (p : Post)
  | postFindByIdAndUpdate (id : String) (title content category image : Option String)
  | postFindByIdAndDelete (id : String)
  | commentFindById (id : String)
  | commentFind
  | commentCount
  | commentSave (c : Comment)
  | commentFindByIdAndUpdate (id : String) (content : Option String)
  | commentFindByIdAndDelete (id : String)
deriving DecidableEq, Repr

/-- Whether the call asks the store to create, change or remove a document. -/
def DbCall.isWrite : DbCall → Bool
  | .userSave _ => true
  | .userFindByIdAndUpdate _ _ _ _ _ => true
  | .userFindByIdAndDelete _ => true
  | .postSave _ => true
  | .postFindByIdAndUpdate _ _ _ _ _ => true
  | .postFindByIdAndDelete _ => true
  | .commentSave _ => true
  | .commentFindByIdAndUpdate _ _ => true
  | .commentFindByIdAndDelete _ => true
  | _ => false

/-- A JSON response body. -/
inductive Body where
  | text (s : String)
  | object (d : Doc)
  | comment (c : Option (Stamped Comment))
  | comments (cs : List (Stamped Comment))
  | post (p : Option (Stamped Post))
  | userPage (users : List Doc) (totalUsers lastMonthUsers : Nat)
  | commentPage (comments : List (Stamped Comment)) (totalComments commentsInLastMonth : Nat)
deriving DecidableEq, Repr

/-- One observable step of a handler. -/
inductive Event where
  | next (err : Option AppError)
  | db (call : DbCall)
  | hashSync (plaintext : String) (rounds : Nat)
  | compareSync (plaintext hash : String)
  | cookie (name value : String) (options : CookieOptions)
  | json (status : Nat) (body : Body)
  | uncaught (err : AppError)
deriving DecidableEq, Repr

/-- Result of running a handler. -/
structure Outcome where
  store : Store
  log : List Event
deriving DecidableEq, Repr

/-- The handler stopped with `return next(errorHandler(status, message))`
before touching the store. -/
def Outcome.failed (s : Store) (status : Nat) (message : String) : Outcome :=
  { store := s, log := [.next (some (errorHandler status message))] }

/-- Arguments of the calls to `next`, in order. -/
def nextCalls : List Event → List (Option AppError)
  | [] => []
  | .next e :: rest => e :: nextCalls rest
  | _ :: rest => nextCalls rest

/-- Store calls made, in order. -/
def dbCalls : List Event → List DbCall
  | [] => []
  | .db c :: rest => c :: dbCalls rest
  | _ :: rest => dbCalls rest

/-- Cookies set on the response, in order. -/
def cookiesSet : List Event → List (String × String)
  | [] => []
  | .cookie name value _ :: rest => (name, value) :: cookiesSet rest
  | _ :: rest => cookiesSet rest

/-- JSON responses sent, in order. -/
def responses : List Event → List (Nat × Body)
  | [] => []
  | .json status body :: rest => (status, body) :: responses rest
  | _ :: rest => responses rest

/-- Password comparisons made, in order. -/
def comparisons : List Event → List (String × String)
  | [] => []
  | .compareSync p h :: rest => (p, h) :: comparisons rest
  | _ :: rest => comparisons rest

/-! ## Comment handlers (`controllers/controllerCommenti.js`) -/

/-- Schema validation of a new comment: the three `required` strings must be
present and non-empty. -/
def validComment (content postId userId : Option String) : Bool :=
  truthy content && truthy postId && truthy userId

/-- Source `creaCommento`. -/
def creaCommento (env : Env) (s : Store) (user : TokenUser)
    (content postId userId : Option String) : Outcome :=
  if userId ≠ some user.id then
    Outcome.failed s 403 "...Non sei autorizzato a commentare..."
  else
    let newComment : Comment :=
      { _id := env.newId, content := content.getD "", postId := postId.getD "",
        userId := userId.getD "", likes := [], numberOfLikes := 0 }
    if !validComment content postId userId then
      { store := s, log := [.db (.commentSave newComment),
          .next (some (thrown "Comment validation failed"))] }
    else if (findById Comment._id s.comments env.newId).isSome then
      { store := s, log := [.db (.commentSave newComment),
          .next (some (thrown "E11000 duplicate key error"))] }
    else
      let saved : Stamped Comment :=
        { doc := newComment, createdAt := env.now, updatedAt := env.now }
      { store := { s with comments := insertNew env.now s.comments newComment },
        log := [.db (.commentSave newComment), .json 200 (.comment (some saved))] }

/-- The in-memory update `likeCommento` makes to the fetched comment. -/
def toggleLike (comment : Comment) (callerId : String) : Comment :=
  let userIndex := jsIndexOf comment.likes callerId
  if userIndex = -1 then
    { comment with numberOfLikes := comment.numberOfLikes + 1,
                   likes := comment.likes ++ [callerId] }
  else
    { comment with numberOfLikes := comment.numberOfLikes - 1,
                   likes := splice1 comment.likes userIndex }

/-- Source `likeCommento`. -/
def likeCommento (env : Env) (s : Store) (user : TokenUser) (commentId : String) : Outcome :=
  match findById Comment._id s.comments commentId with
  | none =>
    { store := s, log := [.db (.commentFindById commentId),
        .next (some (errorHandler 404 "...Commento non trovato..."))] }
  | some stored =>
    let comment := toggleLike stored.doc user.id
    { store := { s with comments := saveExisting Comment._id env.now s.comments comment },
      log := [.db (.commentFindById commentId), .db (.commentSave comment),
        .json 200 (.comment (some { stored with doc := comment, updatedAt := env.now }))] }

/-- Source `modificaCommento`.  An `undefined` content is left out of the
update by the store driver. -/
def modificaCommento (env : Env) (s : Store) (user : TokenUser) (commentId : String)
    (content : Option String) : Outcome :=
  match findById Comment._id s.comments commentId with
  | none =>
    { store := s, log := [.db (.commentFindById commentId),
        .next (some (errorHandler 404 "...Commento non trovato..."))] }
  | some comment =>
    if comment.doc.userId ≠ user.id && !user.isAdmin then
      { store := s, log := [.db (.commentFindById commentId),
          .next (some (errorHandler 403
            "...Non sei autorizzato a modificare questo commento..."))] }
    else
      let r := findByIdAndUpdate Comment._id env.now s.comments commentId
        (fun c => match content with
          | some v => { c with content := v }
          | none => c)
      { store := { s with comments := r.1 },
        log := [.db (.commentFindById commentId),
          .db (.commentFindByIdAndUpdate commentId content),
          .json 200 (.comment r.2)] }

/-- Source `eliminaCommento`. -/
def eliminaCommento (s : Store) (user : TokenUser) (commentId : String) : Outcome :=
  match findById Comment._id s.comments commentId with
  | none =>
    { store := s, log := [.db (.commentFindById commentId),
        .next (some (errorHandler 404 "...Commento non trovato..."))] }
  | some comment =>
    if comment.doc.userId ≠ user.id && !user.isAdmin then
      { store := s, log := [.db (.commentFindById commentId),
          .next (some (errorHandler 403
            "...Non sei autorizzato ad eliminare questo commento..."))] }
    else
      { store := { s with comments := findByIdAndDelete Comment._id s.comments commentId },
        log := [.db (.commentFindById commentId), .db (.commentFindByIdAndDelete commentId),
          .json 200 (.text "...Commento eliminato...")] }

/-! ## Access guard (`utils/verificaUtente.js`) -/

/-- What the guard leaves behind: `req.user` and its calls to `next`. -/
structure GuardResult where
  user : Option TokenUser
  log : List Event
deriving DecidableEq, Repr

/-- Source `verificaUtente`; `cookies` is `req.cookies` as parsed by
`cookie-parser`. -/
def verificaUtente (env : Env) (cookies : List (String × String)) : GuardResult :=
  match cookies.lookup "access_token" with
  | none =>
    { user := none, log := [.next (some (errorHandler 401 "...Non autorizzato..."))] }
  | some token =>
    if token = "" then
      { user := none, log := [.next (some (errorHandler 401 "...Non autorizzato..."))] }
    else
      match env.verify token env.JWT_SECRET with
      | none =>
        { user := none, log := [.next (some (errorHandler 401 "...Non autorizzato..."))] }
      | some user => { user := some user, log := [.next none] }

/-! ## Authentication handlers (`controllers/Autenticazione.js`) -/

/-- Value of `profilePicture` when the schema default applies. -/
def defaultProfilePicture : String :=
  "https://cdn.pixabay.com/photo/2015/10/05/22/37/blank-profile-picture-973460_960_720.png"

/-- The `_doc` object of a stored user. -/
def userDoc (u : Stamped User) : Doc :=
  [("_id", .str u.doc._id), ("username", .str u.doc.username), ("email", .str u.doc.email),
   ("password", .str u.doc.password), ("profilePicture", .str u.doc.profilePicture),
   ("isAdmin", .bool u.doc.isAdmin), ("createdAt", .num u.createdAt),
   ("updatedAt", .num u.updatedAt), ("__v", .num 0)]

/-- Destructuring `const { password, ...rest } = doc`: the value of `rest`. -/
def withoutPassword (d : Doc) : Doc :=
  d.filter (fun kv => kv.1 != "password")

/-- Query `User.findOne({ email })`.  An absent email matches no stored user. -/
def findOneByEmail (users : List (Stamped User)) (email : Option String) :
    Option (Stamped User) :=
  match email with
  | none => none
  | some e => users.find? (fun u => u.doc.email == e)

/-- Options object passed to `res.cookie` by `login` and `google`. -/
def sessionCookieOptions (env : Env) : CookieOptions :=
  { httpOnly := true, sameSite := none, secure := false,
    expires := env.now + 1000 * 60 * 60 * 12, other := [("SameSite", "strict")] }

/-- Token signed for a stored user. -/
def tokenFor (env : Env) (u : Stamped User) : String :=
  env.sign { id := u.doc._id, isAdmin := u.doc.isAdmin } env.JWT_SECRET

/-- Source `login`.  The first `next(...)` is not followed by `return`, so the
lookup runs in every case.  When that first `next` has fired, the error
middleware has already answered and `res.cookie` raises
`ERR_HTTP_HEADERS_SENT`, which the `catch` forwards to `next`. -/
def login (env : Env) (s : Store) (email password : Option String) : Outcome :=
  let rejected : Bool :=
    !truthy email || !truthy password || email == some "" || password == some ""
  let early : List Event :=
    if rejected then [.next (some (errorHandler 400 "...Sono richiesti tutti i campi..."))]
    else []
  let rest : List Event :=
    match findOneByEmail s.users email with
    | none =>
      [.db (.userFindOne email), .next (some (errorHandler 404 "...Utente non trovato..."))]
    | some validUser =>
      match password with
      | none =>
        [.db (.userFindOne email), .next (some (thrown "Illegal arguments: undefined, string"))]
      | some pw =>
        if !env.compareSync pw validUser.doc.password then
          [.db (.userFindOne email), .compareSync pw validUser.doc.password,
           .next (some (errorHandler 400 "Invalid pasword!"))]
        else if rejected then
          [.db (.userFindOne email), .compareSync pw validUser.doc.password,
           .next (some (thrown "ERR_HTTP_HEADERS_SENT"))]
        else
          [.db (.userFindOne email), .compareSync pw validUser.doc.password,
           .cookie "jwt-token" (tokenFor env validUser) (sessionCookieOptions env),
           .json 200 (.object (withoutPassword (userDoc validUser)))]
  { store := s, log := early ++ rest }

/-- Call `newUser.save()`: schema validation (`required` strings non-empty),
then the unique indexes on `_id`, `username` and `email`. -/
def saveNewUser (env : Env) (s : Store) (u : User) : Except AppError Store :=
  if u.username == "" || u.email == "" || u.password == "" then
    .error (thrown "User validation failed")
  else if s.users.any (fun x =>
      x.doc._id == u._id || x.doc.username == u.username || x.doc.email == u.email) then
    .error (thrown "E11000 duplicate key error")
  else
    .ok { s with users := insertNew env.now s.users u }

/-- Source `google`. -/
def google (env : Env) (s : Store) (name email googlePhotoUrl : Option String) : Outcome :=
  match findOneByEmail s.users email with
  | some user =>
    { store := s,
      log := [.db (.userFindOne email),
        .cookie "access_token" (tokenFor env user) (sessionCookieOptions env),
        .json 200 (.object (withoutPassword (userDoc user)))] }
  | none =>
    let generatedPassword := sliceLast 8 env.random36a ++ sliceLast 8 env.random36b
    let passwordCriptata := env.hashSync generatedPassword 10
    match name with
    | none =>
      { store := s,
        log := [.db (.userFindOne email), .hashSync generatedPassword 10,
          .next (some (thrown "Cannot read properties of undefined (reading toLowerCase)"))] }
    | some n =>
      let newUser : User :=
        { _id := env.newId,
          username := removeSpaces (toLowerCase n) ++ sliceLast 4 env.random9,
          email := email.getD "",
          password := passwordCriptata,
          profilePicture := googlePhotoUrl.getD defaultProfilePicture,
          isAdmin := false }
      match saveNewUser env s newUser with
      | .error e =>
        { store := s,
          log := [.db (.userFindOne email), .hashSync generatedPassword 10,
            .db (.userSave newUser), .next (some e)] }
      | .ok s' =>
        let saved : Stamped User :=
          { doc := newUser, createdAt := env.now, updatedAt := env.now }
        { store := s',
          log := [.db (.userFindOne email), .hashSync generatedPassword 10,
            .db (.userSave newUser),
            .cookie "access_token" (tokenFor env saved) (sessionCookieOptions env),
            .json 200 (.object (withoutPassword (userDoc saved)))] }

/-- Source `registrazione`.  The `next(...)` of the field check is not followed
by `return`; hashing happens outside the `try`, so the exception `hashSync`
raises on an absent password is caught by nobody. -/
def registrazione (env : Env) (s : Store) (username email password : Option String) :
    Outcome :=
  let rejected : Bool :=
    !truthy username || !truthy email || !truthy password ||
      username == some "" || email == some "" || password == some ""
  let early : List Event :=
    if rejected then [.next (some (errorHandler 400 "...Sono richiesti tutti i campi..."))]
    else []
  match password with
  | none =>
    { store := s, log := early ++ [.uncaught (thrown "Illegal arguments: undefined, number")] }
  | some pw =>
    let passwordCriptata := env.hashSync pw 10
    let newUser : User :=
      { _id := env.newId, username := username.getD "", email := email.getD "",
        password := passwordCriptata, profilePicture := defaultProfilePicture,
        isAdmin := false }
    match saveNewUser env s newUser with
    | .error e =>
      { store := s,
        log := early ++ [.hashSync pw 10, .db (.userSave newUser), .next (some e)] }
    | .ok s' =>
      { store := s',
        log := early ++ [.hashSync pw 10, .db (.userSave newUser),
          if rejected then .next (some (thrown "ERR_HTTP_HEADERS_SENT"))
          else .json 200 (.text "...Registrazione effettuata con successo...")] }

/-! ## User handlers (`controllers/controllerUtente.js`) -/

/-- Source `getUser`. -/
def getUser (s : Store) (userId : String) : Outcome :=
  match findById User._id s.users userId with
  | none =>
    { store := s,
      log := [.db (.userFindById userId),
        .next (some (errorHandler 404 "...Utente non trovato..."))] }
  | some user =>
    { store := s,
      log := [.db (.userFindById userId),
        .json 200 (.object (withoutPassword (userDoc user)))] }

/-- Expression `parseInt(q) || d`, given the result of `parseInt` (`none` is
`NaN`). -/
def parseOr (parsed : Option Int) (d : Int) : Int :=
  match parsed with
  | none => d
  | some n => if n = 0 then d else n

/-- Query `find().sort({ createdAt: dir }).skip(k).limit(n)` for `k ≥ 0`; a
negative limit is read by the store as its absolute value. -/
def findPage {α : Type} (coll : List (Stamped α)) (dir : Int) (k : Nat) (n : Int) :
    List (Stamped α) :=
  let sorted :=
    if dir = 1 then coll.insertionSort (fun a b => a.createdAt ≤ b.createdAt)
    else coll.insertionSort (fun a b => b.createdAt ≤ a.createdAt)
  (sorted.drop k).take n.natAbs

/-- Source `getUsers`; `startIndex` and `limit` are the results of `parseInt`
on the query strings, `sort` is `req.query.sort`. -/
def getUsers (env : Env) (s : Store) (user : TokenUser) (startIndex limit : Option Int)
    (sort : Option String) : Outcome :=
  if !user.isAdmin then
    Outcome.failed s 403 "...Non autorizzato..."
  else
    let startIndex := parseOr startIndex 0
    let limit := parseOr limit 9
    let sortDirection : Int := if sort = some "asc" then 1 else -1
    if startIndex < 0 then
      { store := s, log := [.db .userFind, .next (some (thrown "Skip value must be non-negative"))] }
    else
      let users := findPage s.users sortDirection startIndex.toNat limit
      let usersWithoutPassword := users.map (fun u => withoutPassword (userDoc u))
      let totalUsers := s.users.length
      let lastMonthUsers := s.users.countP (fun u => decide (env.oneMonthAgo ≤ u.createdAt))
      { store := s,
        log := [.db .userFind, .db .userCount, .db .userCount,
          .json 200 (.userPage usersWithoutPassword totalUsers lastMonthUsers)] }

/-- Source `getComments` (`controllers/controllerCommenti.js`); the query
parameters are given as for `getUsers`. -/
def getComments (env : Env) (s : Store) (user : TokenUser) (startIndex limit : Option Int)
    (sort : Option String) : Outcome :=
  if !user.isAdmin then
    Outcome.failed s 403 "...Non sei autorizzato..."
  else
    let startIndex := parseOr startIndex 0
    let limit := parseOr limit 9
    let sortDirection : Int := if sort = some "desc" then -1 else 1
    if startIndex < 0 then
      { store := s,
        log := [.db .commentFind, .next (some (thrown "Skip value must be non-negative"))] }
    else
      let comments := findPage s.comments sortDirection startIndex.toNat limit
      let totalComments := s.comments.length
      let commentsInLastMonth :=
        s.comments.countP (fun c => decide (env.oneMonthAgo ≤ c.createdAt))
      { store := s,
        log := [.db .commentFind, .db .commentCount, .db .commentCount,
          .json 200 (.commentPage comments totalComments commentsInLastMonth)] }

/-- Source `eliminaUtente`; `userId` is the path parameter. -/
def eliminaUtente (s : Store) (user : TokenUser) (userId : String) : Outcome :=
  if !user.isAdmin && user.id ≠ userId then
    Outcome.failed s 403 "...Non autorizzato..."
  else
    { store := { s with users := findByIdAndDelete User._id s.users userId },
      log := [.db (.userFindByIdAndDelete userId), .json 200 (.text "...Utente eliminato...")] }

/-- The `$set` of `aggiornaUtente` applied to a stored user; a key whose value
is `undefined` is left out of the update by the store driver. -/
def patchUser (username email profilePicture password : Option String) (u : User) : User :=
  { u with username := username.getD u.username,
           email := email.getD u.email,
           profilePicture := profilePicture.getD u.profilePicture,
           password := password.getD u.password }

/-- Source `aggiornaUtente`. -/
def aggiornaUtente (env : Env) (s : Store) (user : TokenUser) (userId : String)
    (username email profilePicture password : Option String) : Outcome :=
  if user.id ≠ userId then
    Outcome.failed s 401 "...Non autorizzato..."
  else if truthy password && utf16Length (password.getD "") < 6 then
    Outcome.failed s 400 "...La password deve essere lunga almeno 6 caratteri..."
  else if truthy username &&
      (utf16Length (username.getD "") < 6 || utf16Length (username.getD "") > 18) then
    Outcome.failed s 400 "...L'username deve essere lungo tra i 6 e 18 caratteri..."
  else if truthy username && includesSpace (username.getD "") then
    Outcome.failed s 400 "...L'username non deve contenere spazi..."
  else if truthy username && username.getD "" != toLowerCase (username.getD "") then
    Outcome.failed s 400 "...L'username deve essere tutto minuscolo..."
  else if truthy username && !matchesAlnum (username.getD "") then
    Outcome.failed s 400 "...L'username deve contenere solo lettere e numeri..."
  else
    let call := DbCall.userFindByIdAndUpdate userId username email profilePicture password
    match findById User._id s.users userId with
    | none =>
      { store := s,
        log := [.db call,
          .next (some (thrown "Cannot read properties of null (reading _doc)"))] }
    | some target =>
      let updated := patchUser username email profilePicture password target.doc
      if s.users.any (fun x => x.doc._id != userId &&
          (x.doc.username == updated.username || x.doc.email == updated.email)) then
        { store := s, log := [.db call, .next (some (thrown "E11000 duplicate key error"))] }
      else
        let r := findByIdAndUpdate User._id env.now s.users userId
          (patchUser username email profilePicture password)
        { store := { s with users := r.1 },
          log := [.db call,
            match r.2 with
            | some updatedUser => .json 200 (.object (withoutPassword (userDoc updatedUser)))
            | none => .next (some (thrown "Cannot read properties of null (reading _doc)"))] }

/-! ## Post handlers (`controllers/controllerPost.js`) -/

/-- String method `split(" ")` on the characters of a string: the segments
between the spaces (one more than there are spaces). -/
def splitSpace : List Char → List (List Char)
  | [] => [[]]
  | c :: cs =>
    if c = ' ' then [] :: splitSpace cs
    else
      match splitSpace cs with
      | [] => [[c]]
      | seg :: segs => (c :: seg) :: segs

/-- Array method `join("-")`. -/
def joinDash : List (List Char) → List Char
  | [] => []
  | [seg] => seg
  | seg :: segs => seg ++ '-' :: joinDash segs

/-- Membership in the class `[a-zA-Z0-9-]`. -/
def isSlugChar (c : Char) : Bool :=
  c.isAlphanum || c == '-'

/-- The slug `creaPost` derives from the title:
`title.split(" ").join("-").toLowerCase().replace(/[^a-zA-Z0-9-]/g, "")`. -/
def slugOf (title : String) : String :=
  String.mk ((toLowerCase (String.mk (joinDash (splitSpace title.data)))).data.filter isSlugChar)

/-- The slug as the specification words it: the title lowercased, each space
replaced by a hyphen, then every character outside `[a-zA-Z0-9-]` removed. -/
def specSlug (title : String) : String :=
  String.mk (((toLowerCase title).data.map (fun c => if c = ' ' then '-' else c)).filter
    isSlugChar)

/-- Value of `image` when the schema default applies. -/
def defaultPostImage : String :=
  "https://www.salepepe.it/files/2017/06/scritta-di-sale-Too-much-salt.jpg"

/-- The fields of `req.body` that reach the post built by `creaPost`. -/
structure PostBody where
  title : Option String
  content : Option String
  category : Option String
  image : Option String
  slug : Option String
  userId : Option String
deriving DecidableEq, Repr

/-- The document `new Post({ ...req.body, slug, userId: req.user.id })`: the
derived slug and the caller id override what the body carries under those
keys, and the schema defaults fill an absent image or category. -/
def newPostOf (env : Env) (user : TokenUser) (body : PostBody) : Post :=
  { _id := env.newId,
    userId := user.id,
    content := body.content.getD "",
    title := body.title.getD "",
    image := body.image.getD defaultPostImage,
    category := body.category.getD "uncategorized",
    slug := slugOf (body.title.getD "") }

/-- Call `newPost.save()`: schema validation (`required` strings non-empty),
then the unique indexes on `_id` and `slug`. -/
def saveNewPost (env : Env) (s : Store) (p : Post) : Except AppError Store :=
  if p.userId == "" || p.content == "" || p.title == "" || p.slug == "" then
    .error (thrown "Post validation failed")
  else if s.posts.any (fun x => x.doc._id == p._id || x.doc.slug == p.slug) then
    .error (thrown "E11000 duplicate key error")
  else
    .ok { s with posts := insertNew env.now s.posts p }

/-- Source `creaPost`. -/
def creaPost (env : Env) (s : Store) (user : TokenUser) (body : PostBody) : Outcome :=
  if !user.isAdmin then
    Outcome.failed s 403 "...Non sei autorizzato a creare un post..."
  else if !truthy body.title || !truthy body.content then
    Outcome.failed s 400 "...Titolo e contenuto sono richiesti..."
  else
    let newPost := newPostOf env user body
    match saveNewPost env s newPost with
    | .error e => { store := s, log := [.db (.postSave newPost), .next (some e)] }
    | .ok s' =>
      let savedPost : Stamped Post :=
        { doc := newPost, createdAt := env.now, updatedAt := env.now }
      { store := s', log := [.db (.postSave newPost), .json 201 (.post (some savedPost))] }

/-- The `$set` of `aggiornaPost` applied to a stored post; a key whose value is
`undefined` is left out of the update by the store driver. -/
def patchPost (title content category image : Option String) (p : Post) : Post :=
  { p with title := title.getD p.title,
           content := content.getD p.content,
           category := category.getD p.category,
           image := image.getD p.image }

/-- Source `eliminaPost`; `userId` and `postId` are the path parameters. -/
def eliminaPost (s : Store) (user : TokenUser) (postId userId : String) : Outcome :=
  if !user.isAdmin || user.id ≠ userId then
    Outcome.failed s 403 "...Non sei autorizzato a eliminare il post..."
  else
    { store := { s with posts := findByIdAndDelete Post._id s.posts postId },
      log := [.db (.postFindByIdAndDelete postId),
        .json 200 (.text "...Post eliminato correttamente...")] }

/-- Source `aggiornaPost`; `userId` and `postId` are the path parameters. -/
def aggiornaPost (env : Env) (s : Store) (user : TokenUser) (postId userId : String)
    (title content category image : Option String) : Outcome :=
  if !user.isAdmin || user.id ≠ userId then
    Outcome.failed s 403 "...Non sei autorizzato ad aggiornare il post..."
  else
    let r := findByIdAndUpdate Post._id env.now s.posts postId
      (patchPost title content category image)
    { store := { s with posts := r.1 },
      log := [.db (.postFindByIdAndUpdate postId title content category image),
        .json 200 (.post r.2)] }

/-- Source `aggiornaPost` on a whole request body: the handler reads its
title, content, category and image and no other key. -/
def aggiornaPostBody (env : Env) (s : Store) (user : TokenUser) (postId userId : String)
    (body : PostBody) : Outcome :=
  aggiornaPost env s user postId userId body.title body.content body.category body.image

/-! ## Error middleware (`index.js`) -/

/-- What the error middleware sends: the HTTP status and the JSON body
`success, statusCode, message`. -/
structure ErrorResponse where
  status : Nat
  success : Bool
  statusCode : Nat
  message : String
deriving DecidableEq, Repr

/-- The error-handling middleware registered last in `index.js`:
`statusCode = err.statusCode || 500`, `message = err.message || "Internal
Server Error"`. -/
def errorMiddleware (err : AppError) : ErrorResponse :=
  let statusCode : Nat :=
    match err.statusCode with
    | none => 500
    | some n => if n = 0 then 500 else n
  let message : String := if err.message = "" then "Internal Server Error" else err.message
  { status := statusCode, success := false, statusCode := statusCode, message := message }

/-! ## The last-month cutoff (`getUsers`, `getComments`, `getPosts`) -/

/-- A local calendar date as `getFullYear()`, `getMonth()` (0 is January, 11
is December) and `getDate()` (1 to 31) read it. -/
structure CalendarDate where
  year : Int
  month : Nat
  day : Nat
deriving DecidableEq, Repr

/-- Gregorian leap years. -/
def isLeapYear (y : Int) : Bool :=
  (y % 4 == 0 && y % 100 != 0) || y % 400 == 0

/-- Number of days of month `m` (0 to 11) in year `y`. -/
def daysInMonth (y : Int) (m : Nat) : Nat :=
  if m = 1 then (if isLeapYear y then 29 else 28)
  else if m = 3 ∨ m = 5 ∨ m = 8 ∨ m = 10 then 30
  else 31

/-- Day overflow of the `Date` constructor: a day past the end of the month
counts on into the following months. -/
def rollDays : Nat → Int → Nat → Nat → CalendarDate
  | 0, y, m, d => { year := y, month := m, day := d }
  | fuel + 1, y, m, d =>
    if d ≤ daysInMonth y m then { year := y, month := m, day := d }
    else rollDays fuel (if m = 11 then y + 1 else y) (if m = 11 then 0 else m + 1)
      (d - daysInMonth y m)

/-- The local date of `new Date(year, monthIndex, day)` for `day ≥ 1`: the
month index is brought into 0..11 by carrying whole years, then the day is
counted from the first of that month. -/
def makeDate (year : Int) (monthIndex : Int) (day : Nat) : CalendarDate :=
  rollDays day (year + monthIndex / 12) (monthIndex % 12).toNat day

/-- The cutoff of the three listings:
`new Date(now.getFullYear(), now.getMonth() - 1, now.getDate())`. -/
def oneMonthAgoOf (now : CalendarDate) : CalendarDate :=
  makeDate now.year ((now.month : Int) - 1) now.day

/-- The calendar month before the month of `d`, as year and month index. -/
def precedingMonth (d : CalendarDate) : Int × Nat :=
  if d.month = 0 then (d.year - 1, 11) else (d.year, d.month - 1)

/-! ## Properties and sample data -/

/-- A comment is well formed when no user id occurs twice in `likes` and
`numberOfLikes` is the length of `likes`. -/
def Comment.WellFormed (c : Comment) : Prop :=
  c.likes.Nodup ∧ c.numberOfLikes = c.likes.length

instance (c : Comment) : Decidable c.WellFormed :=
  inferInstanceAs (Decidable (c.likes.Nodup ∧ c.numberOfLikes = c.likes.length))

/-- Keys of a JSON object. -/
def keys (d : Doc) : List String :=
  d.map (fun kv => kv.1)

/-- User objects contained in a response body. -/
def userObjects : Body → List Doc
  | .object d => [d]
  | .userPage users _ _ => users
  | _ => []

/-- A body in which no user object has a `password` key. -/
def Body.NoPassword (b : Body) : Prop :=
  ∀ d ∈ userObjects b, "password" ∉ keys d

/-- The username rule of the data model: 6 to 18 characters, each a
lowercase letter or a digit. -/
def conformingUsername (u : String) : Bool :=
  decide (6 ≤ u.data.length) && decide (u.data.length ≤ 18) &&
    u.data.all (fun c => c.isLower || c.isDigit)

/-- Plaintexts handed to `hashSync`, in order. -/
def hashings : List Event → List String
  | [] => []
  | .hashSync p _ :: rest => p :: hashings rest
  | _ :: rest => hashings rest

/-- Exceptions that no `catch` received, in order. -/
def uncaughtErrors : List Event → List AppError
  | [] => []
  | .uncaught e :: rest => e :: uncaughtErrors rest
  | _ :: rest => uncaughtErrors rest

/-- A stand-in for the external libraries, to run handlers on sample requests:
the token is the secret followed by a role letter and the user id, and a hash
is the plaintext behind a bcrypt-style header. -/
def sampleEnv : Env :=
  { JWT_SECRET := "k",
    sign := fun u secret => secret ++ (if u.isAdmin then "A" else "U") ++ u.id,
    verify := fun t secret =>
      if t.data.take secret.data.length = secret.data then
        match t.data.drop secret.data.length with
        | 'A' :: id => some { id := String.mk id, isAdmin := true }
        | 'U' :: id => some { id := String.mk id, isAdmin := false }
        | _ => none
      else none,
    hashSync := fun p _ => "$2a$10$" ++ p,
    compareSync := fun p h => h == "$2a$10$" ++ p,
    now := 1000,
    oneMonthAgo := 500,
    newId := "n1",
    random36a := "0.4fzyo82mvyr",
    random36b := "0.kx3v0q9d1ta",
    random9 := "0.5238147206" }

/-- Sample user: alice, not an administrator. -/
def alice : Stamped User :=
  { doc := { _id := "u1", username := "alice01", email := "a@x.com",
             password := "$2a$10$secret1", profilePicture := defaultProfilePicture,
             isAdmin := false },
    createdAt := 10, updatedAt := 10 }

/-- Sample user: an administrator. -/
def root : Stamped User :=
  { doc := { _id := "u2", username := "rootadmin", email := "r@x.com",
             password := "$2a$10$hunter22", profilePicture := defaultProfilePicture,
             isAdmin := true },
    createdAt := 20, updatedAt := 20 }

/-- Sample post owned by the administrator. -/
def post1 : Stamped Post :=
  { doc := { _id := "p1", userId := "u2", content := "<p>ciao</p>", title := "Ciao Mondo",
             image := "img", category := "uncategorized", slug := "ciao-mondo" },
    createdAt := 30, updatedAt := 30 }

/-- Sample comment by alice, liked by nobody. -/
def comment1 : Stamped Comment :=
  { doc := { _id := "c1", content := "bello", postId := "p1", userId := "u1",
             likes := [], numberOfLikes := 0 },
    createdAt := 40, updatedAt := 40 }

/-- Sample comment by alice, liked by both users. -/
def comment2 : Stamped Comment :=
  { doc := { _id := "c2", content := "grazie", postId := "p1", userId := "u1",
             likes := ["u2", "u1"], numberOfLikes := 2 },
    createdAt := 50, updatedAt := 50 }

/-- Sample store. -/
def sampleStore : Store :=
  { users := [alice, root], posts := [post1], comments := [comment1, comment2] }

/-- Payload of alice's session. -/
def aliceSession : TokenUser := { id := "u1", isAdmin := false }

/-- Payload of the administrator's session. -/
def rootSession : TokenUser := { id := "u2", isAdmin := true }

/-- Payload of a third, non-administrator session. -/
def guestSession : TokenUser := { id := "u3", isAdmin := false }

/-- Payload of an administrator session under an id of its own. -/
def otherAdminSession : TokenUser := { id := "u9", isAdmin := true }

/-- Options of the cookies set on the response, in order. -/
def cookieOptionsSet : List Event → List CookieOptions
  | [] => []
  | .cookie _ _ options :: rest => options :: cookieOptionsSet rest
  | _ :: rest => cookieOptionsSet rest

/-- Number of stored users with the given email. -/
def usersWithEmail (s : Store) (e : String) : Nat :=
  s.users.countP (fun u => u.doc.email == e)

/-- Sample user whose username is the one `google` synthesizes for the name
`Bob Rossi` under `sampleEnv`. -/
def bob : Stamped User :=
  { doc := { _id := "u4", username := "bobrossi7206", email := "bob@y.org",
             password := "$2a$10$qwerty12", profilePicture := defaultProfilePicture,
             isAdmin := false },
    createdAt := 60, updatedAt := 60 }

/-- Sample store that also holds `bob`. -/
def collisionStore : Store :=
  { sampleStore with users := [alice, root, bob] }

/-- Sample store in which the sample post belongs to alice. -/
def otherOwnerStore : Store :=
  { sampleStore with posts := [{ post1 with doc := { post1.doc with userId := "u1" } }] }

/-- Sample store without posts. -/
def noPostStore : Store :=
  { sampleStore with posts := [] }

/-! ## Lemmas on the store primitives -/


theorem findById_key {α : Type} {key : α → String} {coll : List (Stamped α)} {id : String}
    {d : Stamped α} (h : findById key coll id = some d) : key d.doc = id := by
  unfold findById at h
  have := List.find?_some h
  simpa using this

theorem findById_mem {α : Type} {key : α → String} {coll : List (Stamped α)} {id : String}
    {d : Stamped α} (h : findById key coll id = some d) : d ∈ coll := by
  unfold findById at h
  exact List.mem_of_find?_eq_some h

theorem findById_modifyFirst {α : Type} (key : α → String) (f : Stamped α → Stamped α)
    (id : String) (hf : ∀ d, key d.doc = id → key (f d).doc = id)
    (coll : List (Stamped α)) (k : String) :
    findById key (modifyFirst (fun d => key d.doc == id) f coll) k =
      if k = id then (findById key coll k).map f else findById key coll k := by
  induction coll with
  | nil => simp [modifyFirst, findById]
  | cons x xs ih =>
    unfold findById at ih ⊢
    by_cases hx : key x.doc = id
    · have hfx := hf x hx
      by_cases hk : k = id
      · subst hk
        simp [modifyFirst, hx, hfx, List.find?_cons]
      · have h1 : ¬ id = k := fun h => hk h.symm
        simp [modifyFirst, hx, hfx, hk, h1, List.find?_cons]
    · by_cases hk : k = id
      · subst hk
        have hb : (key x.doc == k) = false := by simpa using hx
        simp only [if_true] at ih
        simp only [modifyFirst, hb, List.find?_cons, if_true, Bool.false_eq_true, if_false]
        exact ih
      · by_cases hxk : key x.doc = k
        · simp [modifyFirst, hx, hk, hxk, List.find?_cons]
        · have hb : (key x.doc == k) = false := by simpa using hxk
          have hb2 : (key x.doc == id) = false := by simpa using hx
          simp only [hk, if_false] at ih
          simp only [modifyFirst, hb, hb2, List.find?_cons, hk, Bool.false_eq_true, if_false]
          exact ih

theorem modifyFirst_eq_self_of_find_none {α : Type} (p : α → Bool) (f : α → α) (xs : List α)
    (h : xs.find? p = none) : modifyFirst p f xs = xs := by
  induction xs with
  | nil => rfl
  | cons x xs ih =>
    by_cases hp : p x = true
    · simp [List.find?_cons, hp] at h
    · simp only [List.find?_cons, hp] at h
      simp [modifyFirst, hp, ih h]

theorem eraseP_eq_erase_of_find {α : Type} [DecidableEq α] (p : α → Bool) (xs : List α) (d : α)
    (h : xs.find? p = some d) : xs.eraseP p = xs.erase d := by
  induction xs with
  | nil => simp at h
  | cons x xs ih =>
    by_cases hp : p x = true
    · simp only [List.find?_cons, hp, Option.some.injEq] at h
      subst h
      simp [List.eraseP_cons, hp]
    · simp only [List.find?_cons, hp] at h
      have hne : x ≠ d := by
        intro hxd
        have := List.find?_some h
        rw [← hxd] at this
        exact hp this
      simp [List.eraseP_cons, hp, ih h, List.erase_cons, hne]

/-! ## Lemmas on the like toggle -/

theorem jsIndexOf_eq_neg_one_iff (xs : List String) (x : String) :
    jsIndexOf xs x = -1 ↔ x ∉ xs := by
  unfold jsIndexOf
  by_cases h : x ∈ xs
  · simp only [h, if_true, not_true_eq_false, iff_false]
    omega
  · simp [h]

theorem splice1_jsIndexOf {xs : List String} {x : String} (h : x ∈ xs) :
    splice1 xs (jsIndexOf xs x) = xs.erase x := by
  have hlt : List.indexOf x xs < xs.length := List.indexOf_lt_length.mpr h
  unfold splice1 jsIndexOf
  simp only [h, if_true]
  have h0 : ¬ ((List.indexOf x xs : Nat) : Int) < 0 := by omega
  simp only [h0, if_false, Int.toNat_ofNat]
  rw [Nat.min_eq_left (Nat.le_of_lt hlt)]
  exact List.eraseIdx_indexOf_eq_erase x xs

theorem toggleLike_of_not_mem {c : Comment} {u : String} (h : u ∉ c.likes) :
    toggleLike c u =
      { c with numberOfLikes := c.numberOfLikes + 1, likes := c.likes ++ [u] } := by
  unfold toggleLike
  simp [(jsIndexOf_eq_neg_one_iff c.likes u).mpr h]

theorem toggleLike_of_mem {c : Comment} {u : String} (h : u ∈ c.likes) :
    toggleLike c u =
      { c with numberOfLikes := c.numberOfLikes - 1, likes := c.likes.erase u } := by
  unfold toggleLike
  have hne : ¬ jsIndexOf c.likes u = -1 := by
    rw [jsIndexOf_eq_neg_one_iff]; exact not_not.mpr h
  simp [hne, splice1_jsIndexOf h]

theorem toggleLike_id (c : Comment) (u : String) : (toggleLike c u)._id = c._id := by
  by_cases hu : u ∈ c.likes
  · rw [toggleLike_of_mem hu]
  · rw [toggleLike_of_not_mem hu]

theorem toggleLike_wellFormed {c : Comment} (u : String) (h : c.WellFormed) :
    (toggleLike c u).WellFormed := by
  obtain ⟨hnd, hlen⟩ := h
  by_cases hu : u ∈ c.likes
  · rw [toggleLike_of_mem hu]
    refine ⟨hnd.erase u, ?_⟩
    have hpos : 0 < c.likes.length := List.length_pos_of_mem hu
    simp only [List.length_erase_of_mem hu, hlen]
    omega
  · rw [toggleLike_of_not_mem hu]
    refine ⟨?_, ?_⟩
    · simp only
      rw [List.nodup_append]
      exact ⟨hnd, List.nodup_singleton u, by simpa using hu⟩
    · simp [hlen]

theorem toggleLike_twice {c : Comment} (u : String) (h : c.likes.Nodup) :
    (toggleLike (toggleLike c u) u).likes.Perm c.likes ∧
    (toggleLike (toggleLike c u) u).numberOfLikes = c.numberOfLikes ∧
    (toggleLike (toggleLike c u) u)._id = c._id ∧
    (toggleLike (toggleLike c u) u).content = c.content ∧
    (toggleLike (toggleLike c u) u).postId = c.postId ∧
    (toggleLike (toggleLike c u) u).userId = c.userId := by
  by_cases hu : u ∈ c.likes
  · rw [toggleLike_of_mem hu]
    have hnot : u ∉ c.likes.erase u := fun hm => (List.Nodup.mem_erase_iff h).mp hm |>.1 rfl
    rw [toggleLike_of_not_mem (by simp [hnot])]
    refine ⟨?_, by simp, rfl, rfl, rfl, rfl⟩
    simp only
    have h1 : (c.likes.erase u ++ [u]).Perm (u :: c.likes.erase u) :=
      (List.perm_append_comm : (c.likes.erase u ++ [u]).Perm ([u] ++ c.likes.erase u))
    exact h1.trans (List.perm_cons_erase hu).symm
  · rw [toggleLike_of_not_mem hu]
    have hmem : u ∈ c.likes ++ [u] := by simp
    rw [toggleLike_of_mem (by simp)]
    refine ⟨?_, by simp, rfl, rfl, rfl, rfl⟩
    simp only
    rw [List.erase_append_right _ hu]
    simp

theorem filter_ne_erase (xs : List String) (u : String) :
    (xs.erase u).filter (fun x => x != u) = xs.filter (fun x => x != u) := by
  induction xs with
  | nil => rfl
  | cons x xs ih =>
    by_cases hx : x = u
    · subst hx
      simp
    · have hb : (x == u) = false := by simpa using hx
      simp [List.erase_cons, hb, ih, hx]

/-- Store after `likeCommento` on an existing comment: only the targeted
comment changes, by `toggleLike`. -/
theorem likeCommento_found (env : Env) (s : Store) (user : TokenUser) (commentId : String)
    (c : Stamped Comment) (hc : findById Comment._id s.comments commentId = some c) :
    (∀ k, findById Comment._id (likeCommento env s user commentId).store.comments k =
      if k = commentId then
        some { c with doc := toggleLike c.doc user.id, updatedAt := env.now }
      else findById Comment._id s.comments k) ∧
    (likeCommento env s user commentId).store.users = s.users ∧
    (likeCommento env s user commentId).store.posts = s.posts ∧
    nextCalls (likeCommento env s user commentId).log = [] ∧
    responses (likeCommento env s user commentId).log =
      [(200, .comment (some { c with doc := toggleLike c.doc user.id, updatedAt := env.now }))] := by
  have hid : c.doc._id = commentId := findById_key hc
  unfold likeCommento
  simp only [hc]
  refine ⟨?_, trivial, trivial, rfl, rfl⟩
  intro k
  unfold saveExisting
  rw [toggleLike_id, hid]
  rw [findById_modifyFirst Comment._id _ commentId
    (fun d _ => by simp [toggleLike_id, hid])]
  by_cases hk : k = commentId
  · subst hk
    simp [hc]
  · simp [hk]

/-- Store after an authorized `modificaCommento`. -/
theorem modificaCommento_store (env : Env) (s : Store) (user : TokenUser) (commentId : String)
    (content : Option String) (k : String) :
    findById Comment._id (modificaCommento env s user commentId content).store.comments k =
      findById Comment._id s.comments k ∨
    ∃ c, findById Comment._id s.comments k = some c ∧
      findById Comment._id (modificaCommento env s user commentId content).store.comments k =
        some { c with doc := { c.doc with content := content.getD c.doc.content },
                      updatedAt := env.now } := by
  unfold modificaCommento
  cases hc : findById Comment._id s.comments commentId with
  | none => left; rfl
  | some c =>
    simp only
    split
    · left; rfl
    · simp only [findByIdAndUpdate]
      rw [findById_modifyFirst Comment._id _ commentId
        (fun d hd => by cases content <;> simpa using hd)]
      by_cases hk : k = commentId
      · subst hk
        right
        refine ⟨c, hc, ?_⟩
        cases content <;> simp [hc]
      · left; simp [hk]

/-! ## Comment interaction -/


/-- C1. Comment well-formedness is preserved by the comment operations: a
comment that `creaCommento` adds to the store or returns has `likes = []` and
`numberOfLikes = 0`; and a stored comment whose `likes` has no duplicates and
whose `numberOfLikes` is the length of `likes` is, after `likeCommento` (by
any caller, on any comment id) or `modificaCommento`, still stored and still
has a duplicate-free `likes` with `numberOfLikes` equal to its length. -/
theorem comment_wellFormed_invariant (env : Env) (s : Store) (user : TokenUser) :
    (∀ content postId userId c,
      c ∈ (creaCommento env s user content postId userId).store.comments →
        c ∈ s.comments ∨ (c.doc.likes = [] ∧ c.doc.numberOfLikes = 0)) ∧
    (∀ content postId userId status c,
      (status, Body.comment (some c)) ∈
          responses (creaCommento env s user content postId userId).log →
        c.doc.likes = [] ∧ c.doc.numberOfLikes = 0) ∧
    (∀ commentId k c, findById Comment._id s.comments k = some c → c.doc.WellFormed →
      ∃ c', findById Comment._id (likeCommento env s user commentId).store.comments k = some c' ∧
        c'.doc.WellFormed) ∧
    (∀ commentId content k c, findById Comment._id s.comments k = some c → c.doc.WellFormed →
      ∃ c', findById Comment._id
          (modificaCommento env s user commentId content).store.comments k = some c' ∧
        c'.doc.WellFormed) := by
  refine ⟨?_, ?_, ?_, ?_⟩
  · intro content postId userId c hmem
    unfold creaCommento at hmem
    split at hmem
    · exact Or.inl hmem
    · simp only at hmem
      split at hmem
      · exact Or.inl hmem
      · split at hmem
        · exact Or.inl hmem
        · simp only [insertNew, List.mem_append, List.mem_singleton] at hmem
          rcases hmem with h | h
          · exact Or.inl h
          · right; subst h; exact ⟨rfl, rfl⟩
  · intro content postId userId status c hmem
    unfold creaCommento at hmem
    split at hmem
    · simp [Outcome.failed, responses] at hmem
    · simp only at hmem
      split at hmem
      · simp [responses] at hmem
      · split at hmem
        · simp [responses] at hmem
        · simp only [responses, List.mem_singleton, Prod.mk.injEq, Body.comment.injEq,
            Option.some.injEq] at hmem
          obtain ⟨_, h⟩ := hmem
          subst h
          exact ⟨rfl, rfl⟩
  · intro commentId k c hk hwf
    cases hc : findById Comment._id s.comments commentId with
    | none =>
      refine ⟨c, ?_, hwf⟩
      unfold likeCommento
      simp only [hc]
      exact hk
    | some target =>
      have h := (likeCommento_found env s user commentId target hc).1 k
      by_cases hkc : k = commentId
      · subst hkc
        rw [hk] at hc
        cases hc
        simp only [if_true] at h
        exact ⟨_, h, toggleLike_wellFormed user.id hwf⟩
      · refine ⟨c, ?_, hwf⟩
        rw [h]
        simp [hkc, hk]
  · intro commentId content k c hk hwf
    rcases modificaCommento_store env s user commentId content k with h | ⟨c0, h0, h⟩
    · exact ⟨c, by rw [h, hk], hwf⟩
    · rw [hk] at h0
      cases h0
      exact ⟨_, h, hwf⟩

/-- Witness for C1: toggling and editing the doubly liked sample comment. -/
theorem comment_wellFormed_invariant_witness :
    (∃ c', findById Comment._id
        (likeCommento sampleEnv sampleStore aliceSession "c2").store.comments "c2" = some c' ∧
      c'.doc.WellFormed) ∧
    (∃ c', findById Comment._id
        (modificaCommento sampleEnv sampleStore aliceSession "c2" (some "ciao")).store.comments
          "c2" = some c' ∧
      c'.doc.WellFormed) :=
  ⟨(comment_wellFormed_invariant sampleEnv sampleStore aliceSession).2.2.1 "c2" "c2" comment2
      (by decide) (by decide),
   (comment_wellFormed_invariant sampleEnv sampleStore aliceSession).2.2.2 "c2" (some "ciao")
      "c2" comment2 (by decide) (by decide)⟩

/-- C2. `likeCommento` is an involution: on a stored comment with a
duplicate-free `likes`, two calls by the same caller leave the comment with
its original set of likers (the same ids, each once) and its original
`numberOfLikes`. -/
theorem likeCommento_involution (env₁ env₂ : Env) (s : Store) (user : TokenUser)
    (commentId : String) (c : Stamped Comment)
    (hc : findById Comment._id s.comments commentId = some c) (hnd : c.doc.likes.Nodup) :
    ∃ final, findById Comment._id
        (likeCommento env₂ (likeCommento env₁ s user commentId).store user commentId).store.comments
        commentId = some final ∧
      final.doc.likes.Perm c.doc.likes ∧
      (∀ x, x ∈ final.doc.likes ↔ x ∈ c.doc.likes) ∧
      final.doc.likes.Nodup ∧
      final.doc.numberOfLikes = c.doc.numberOfLikes := by
  have h1 := (likeCommento_found env₁ s user commentId c hc).1 commentId
  simp only [if_true] at h1
  have h2 := (likeCommento_found env₂ _ user commentId _ h1).1 commentId
  simp only [if_true] at h2
  obtain ⟨hperm, hnum, _⟩ := toggleLike_twice user.id hnd
  exact ⟨_, h2, hperm, fun x => hperm.mem_iff, hperm.nodup_iff.mpr hnd, hnum⟩

/-- Witness for C2: alice toggles twice on the doubly liked sample comment. -/
theorem likeCommento_involution_witness :
    ∃ final, findById Comment._id
        (likeCommento sampleEnv (likeCommento sampleEnv sampleStore aliceSession "c2").store
          aliceSession "c2").store.comments "c2" = some final ∧
      final.doc.likes.Perm comment2.doc.likes ∧
      (∀ x, x ∈ final.doc.likes ↔ x ∈ comment2.doc.likes) ∧
      final.doc.likes.Nodup ∧
      final.doc.numberOfLikes = comment2.doc.numberOfLikes :=
  likeCommento_involution sampleEnv sampleEnv sampleStore aliceSession "c2" comment2
    (by decide) (by decide)


/-- C3. `likeCommento` on an existing comment: a caller id not in `likes` is
appended and `numberOfLikes` grows by exactly 1; a caller id in `likes` has
its first occurrence removed and `numberOfLikes` drops by exactly 1; in both
cases the other liker ids (in their order), the other fields of the comment,
every other comment, the users and the posts are unchanged.  When no comment
has the id, the only outcome is a 404 error and no write reaches the store. -/
theorem likeCommento_spec (env : Env) (s : Store) (user : TokenUser) (commentId : String) :
    (∀ c, findById Comment._id s.comments commentId = some c → user.id ∉ c.doc.likes →
      ∃ c', findById Comment._id (likeCommento env s user commentId).store.comments commentId
          = some c' ∧
        c'.doc = { c.doc with likes := c.doc.likes ++ [user.id],
                              numberOfLikes := c.doc.numberOfLikes + 1 } ∧
        c'.createdAt = c.createdAt) ∧
    (∀ c, findById Comment._id s.comments commentId = some c → user.id ∈ c.doc.likes →
      ∃ c', findById Comment._id (likeCommento env s user commentId).store.comments commentId
          = some c' ∧
        c'.doc = { c.doc with likes := c.doc.likes.erase user.id,
                              numberOfLikes := c.doc.numberOfLikes - 1 } ∧
        c'.createdAt = c.createdAt) ∧
    (∀ c c', findById Comment._id s.comments commentId = some c →
      findById Comment._id (likeCommento env s user commentId).store.comments commentId
          = some c' →
        c'.doc.likes.filter (fun x => x != user.id) =
          c.doc.likes.filter (fun x => x != user.id)) ∧
    (∀ k, k ≠ commentId →
      findById Comment._id (likeCommento env s user commentId).store.comments k =
        findById Comment._id s.comments k) ∧
    (likeCommento env s user commentId).store.users = s.users ∧
    (likeCommento env s user commentId).store.posts = s.posts ∧
    (findById Comment._id s.comments commentId = none →
      (likeCommento env s user commentId).store = s ∧
      nextCalls (likeCommento env s user commentId).log =
        [some (errorHandler 404 "...Commento non trovato...")] ∧
      responses (likeCommento env s user commentId).log = [] ∧
      ∀ call ∈ dbCalls (likeCommento env s user commentId).log, call.isWrite = false) := by
  refine ⟨?_, ?_, ?_, ?_, ?_, ?_, ?_⟩
  · intro c hc hu
    have h := (likeCommento_found env s user commentId c hc).1 commentId
    simp only [if_true] at h
    exact ⟨_, h, toggleLike_of_not_mem hu, rfl⟩
  · intro c hc hu
    have h := (likeCommento_found env s user commentId c hc).1 commentId
    simp only [if_true] at h
    exact ⟨_, h, toggleLike_of_mem hu, rfl⟩
  · intro c c' hc hc'
    have h := (likeCommento_found env s user commentId c hc).1 commentId
    simp only [if_true] at h
    rw [h] at hc'
    cases hc'
    by_cases hu : user.id ∈ c.doc.likes
    · simp only [toggleLike_of_mem hu]
      exact filter_ne_erase _ _
    · simp [toggleLike_of_not_mem hu]
  · intro k hk
    cases hc : findById Comment._id s.comments commentId with
    | none =>
      unfold likeCommento
      simp only [hc]
    | some c =>
      rw [(likeCommento_found env s user commentId c hc).1 k]
      simp [hk]
  · unfold likeCommento
    split <;> rfl
  · unfold likeCommento
    split <;> rfl
  · intro hc
    unfold likeCommento
    simp only [hc]
    refine ⟨trivial, rfl, rfl, ?_⟩
    intro call hcall
    simp only [dbCalls, List.mem_singleton] at hcall
    subst hcall
    rfl

/-- Witness for C3: a first like, an unlike, and an unknown comment id. -/
theorem likeCommento_spec_witness :
    (∃ c', findById Comment._id
        (likeCommento sampleEnv sampleStore aliceSession "c1").store.comments "c1" = some c' ∧
      c'.doc = { comment1.doc with likes := comment1.doc.likes ++ [aliceSession.id],
                                   numberOfLikes := comment1.doc.numberOfLikes + 1 } ∧
      c'.createdAt = comment1.createdAt) ∧
    (∃ c', findById Comment._id
        (likeCommento sampleEnv sampleStore aliceSession "c2").store.comments "c2" = some c' ∧
      c'.doc = { comment2.doc with likes := comment2.doc.likes.erase aliceSession.id,
                                   numberOfLikes := comment2.doc.numberOfLikes - 1 } ∧
      c'.createdAt = comment2.createdAt) ∧
    ((likeCommento sampleEnv sampleStore aliceSession "c9").store = sampleStore ∧
      nextCalls (likeCommento sampleEnv sampleStore aliceSession "c9").log =
        [some (errorHandler 404 "...Commento non trovato...")] ∧
      responses (likeCommento sampleEnv sampleStore aliceSession "c9").log = [] ∧
      ∀ call ∈ dbCalls (likeCommento sampleEnv sampleStore aliceSession "c9").log,
        call.isWrite = false) :=
  ⟨(likeCommento_spec sampleEnv sampleStore aliceSession "c1").1 comment1 (by decide)
      (by decide),
   (likeCommento_spec sampleEnv sampleStore aliceSession "c2").2.1 comment2 (by decide)
      (by decide),
   (likeCommento_spec sampleEnv sampleStore aliceSession "c9").2.2.2.2.2.2 (by decide)⟩

/-- C7. `modificaCommento` and `eliminaCommento`: a 404 error when no comment
has the id; otherwise a 403 error when the caller is neither the author nor an
administrator; in both cases the store is unchanged and nothing else happens.
In the remaining case the comment is modified (its content replaced, every
other comment untouched), respectively removed, and a 200 response is sent. -/
theorem comment_edit_delete_authorization (env : Env) (s : Store) (user : TokenUser)
    (commentId : String) (content : Option String) :
    (findById Comment._id s.comments commentId = none →
      modificaCommento env s user commentId content =
        { store := s, log := [.db (.commentFindById commentId),
            .next (some (errorHandler 404 "...Commento non trovato..."))] } ∧
      eliminaCommento s user commentId =
        { store := s, log := [.db (.commentFindById commentId),
            .next (some (errorHandler 404 "...Commento non trovato..."))] }) ∧
    (∀ c, findById Comment._id s.comments commentId = some c →
      c.doc.userId ≠ user.id → user.isAdmin = false →
      modificaCommento env s user commentId content =
        { store := s, log := [.db (.commentFindById commentId),
            .next (some (errorHandler 403
              "...Non sei autorizzato a modificare questo commento..."))] } ∧
      eliminaCommento s user commentId =
        { store := s, log := [.db (.commentFindById commentId),
            .next (some (errorHandler 403
              "...Non sei autorizzato ad eliminare questo commento..."))] }) ∧
    (∀ c, findById Comment._id s.comments commentId = some c →
      (c.doc.userId = user.id ∨ user.isAdmin = true) →
      (findById Comment._id (modificaCommento env s user commentId content).store.comments
          commentId =
        some { c with doc := { c.doc with content := content.getD c.doc.content },
                      updatedAt := env.now } ∧
       (∀ k, k ≠ commentId →
          findById Comment._id (modificaCommento env s user commentId content).store.comments k =
            findById Comment._id s.comments k) ∧
       nextCalls (modificaCommento env s user commentId content).log = [] ∧
       responses (modificaCommento env s user commentId content).log =
        [(200, .comment (some { c with
            doc := { c.doc with content := content.getD c.doc.content },
            updatedAt := env.now }))]) ∧
      ((eliminaCommento s user commentId).store =
          { s with comments := s.comments.erase c } ∧
       nextCalls (eliminaCommento s user commentId).log = [] ∧
       responses (eliminaCommento s user commentId).log =
        [(200, .text "...Commento eliminato...")])) := by
  refine ⟨?_, ?_, ?_⟩
  · intro hc
    unfold modificaCommento eliminaCommento
    simp only [hc, and_self]
  · intro c hc hne hadm
    unfold modificaCommento eliminaCommento
    simp [hc, hne, hadm]
  · intro c hc hauth
    have hcond : (decide (c.doc.userId ≠ user.id) && !user.isAdmin) = false := by
      rcases hauth with h | h <;> simp [h]
    have hid : c.doc._id = commentId := findById_key hc
    refine ⟨?_, ?_⟩
    · unfold modificaCommento
      simp only [hc, hcond, findByIdAndUpdate, Bool.false_eq_true, if_false]
      refine ⟨?_, ?_, rfl, ?_⟩
      · rw [findById_modifyFirst Comment._id _ commentId
          (fun d hd => by cases content <;> simpa using hd)]
        cases content <;> simp [hc]
      · intro k hk
        rw [findById_modifyFirst Comment._id _ commentId
          (fun d hd => by cases content <;> simpa using hd)]
        simp [hk]
      · cases content <;> simp [responses]
    · unfold eliminaCommento
      simp only [hc, hcond, findByIdAndDelete, Bool.false_eq_true, if_false]
      refine ⟨?_, rfl, rfl⟩
      have := eraseP_eq_erase_of_find (fun d : Stamped Comment => d.doc._id == commentId)
        s.comments c hc
      rw [this]

/-- Witness for C7: an unknown id, a stranger, the author and an administrator
on the sample store. -/
theorem comment_edit_delete_authorization_witness :
    (modificaCommento sampleEnv sampleStore aliceSession "c9" (some "x") =
        { store := sampleStore, log := [.db (.commentFindById "c9"),
            .next (some (errorHandler 404 "...Commento non trovato..."))] } ∧
      eliminaCommento sampleStore aliceSession "c9" =
        { store := sampleStore, log := [.db (.commentFindById "c9"),
            .next (some (errorHandler 404 "...Commento non trovato..."))] }) ∧
    (modificaCommento sampleEnv sampleStore guestSession "c1" (some "x") =
        { store := sampleStore, log := [.db (.commentFindById "c1"),
            .next (some (errorHandler 403
              "...Non sei autorizzato a modificare questo commento..."))] } ∧
      eliminaCommento sampleStore guestSession "c1" =
        { store := sampleStore, log := [.db (.commentFindById "c1"),
            .next (some (errorHandler 403
              "...Non sei autorizzato ad eliminare questo commento..."))] }) ∧
    (eliminaCommento sampleStore aliceSession "c1").store =
      { sampleStore with comments := sampleStore.comments.erase comment1 } ∧
    (eliminaCommento sampleStore rootSession "c1").store =
      { sampleStore with comments := sampleStore.comments.erase comment1 } :=
  ⟨(comment_edit_delete_authorization sampleEnv sampleStore aliceSession "c9" (some "x")).1
      (by decide),
   (comment_edit_delete_authorization sampleEnv sampleStore guestSession "c1" (some "x")).2.1
      comment1 (by decide) (by decide) (by decide),
   ((comment_edit_delete_authorization sampleEnv sampleStore aliceSession "c1" (some "x")).2.2
      comment1 (by decide) (Or.inl (by decide))).2.1,
   ((comment_edit_delete_authorization sampleEnv sampleStore rootSession "c1" (some "x")).2.2
      comment1 (by decide) (Or.inr (by decide))).2.1⟩

/-! ## Access guard and post mutations -/


/-- C5. `verificaUtente` fails closed: it calls `next` exactly once and does
nothing else; the argument is the 401 error exactly when the `access_token`
cookie is missing or empty or the token does not verify, and then no user is
attached; otherwise `req.user` is the verified payload and `next` gets no
error.  No exception escapes. -/
theorem verificaUtente_fails_closed (env : Env) (cookies : List (String × String)) :
    (nextCalls (verificaUtente env cookies).log).length = 1 ∧
    (verificaUtente env cookies).log.length = 1 ∧
    (nextCalls (verificaUtente env cookies).log =
        [some (errorHandler 401 "...Non autorizzato...")] ↔
      (truthy (cookies.lookup "access_token") = false ∨
        ∃ t, cookies.lookup "access_token" = some t ∧ env.verify t env.JWT_SECRET = none)) ∧
    (nextCalls (verificaUtente env cookies).log =
        [some (errorHandler 401 "...Non autorizzato...")] →
      (verificaUtente env cookies).user = none) ∧
    (∀ t payload, cookies.lookup "access_token" = some t → t ≠ "" →
      env.verify t env.JWT_SECRET = some payload →
        verificaUtente env cookies = { user := some payload, log := [.next none] }) ∧
    (∀ err, Event.uncaught err ∉ (verificaUtente env cookies).log) := by
  cases hl : cookies.lookup "access_token" with
  | none =>
    have hres : verificaUtente env cookies =
        { user := none, log := [.next (some (errorHandler 401 "...Non autorizzato..."))] } := by
      unfold verificaUtente; rw [hl]
    rw [hres]
    refine ⟨rfl, rfl, ?_, fun _ => rfl, ?_, by simp⟩
    · simp [nextCalls, truthy]
    · intro t payload h1; cases h1
  | some t =>
    by_cases ht : t = ""
    · have hres : verificaUtente env cookies =
          { user := none, log := [.next (some (errorHandler 401 "...Non autorizzato..."))] } := by
        unfold verificaUtente; rw [hl]; simp only [ht, if_true]
      rw [hres]
      refine ⟨rfl, rfl, ?_, fun _ => rfl, ?_, by simp⟩
      · simp [nextCalls, truthy, ht]
      · intro t' payload h1 h2
        cases h1
        exact absurd ht h2
    · cases hv : env.verify t env.JWT_SECRET with
      | none =>
        have hres : verificaUtente env cookies =
            { user := none, log := [.next (some (errorHandler 401 "...Non autorizzato..."))] } := by
          unfold verificaUtente; rw [hl]; simp only [ht, if_false, hv]
        rw [hres]
        refine ⟨rfl, rfl, ?_, fun _ => rfl, ?_, by simp⟩
        · simp [nextCalls, hv]
        · intro t' payload h1 _ h3
          cases h1
          rw [hv] at h3
          cases h3
      | some p =>
        have hres : verificaUtente env cookies =
            { user := some p, log := [.next none] } := by
          unfold verificaUtente; rw [hl]; simp only [ht, if_false, hv]
        rw [hres]
        refine ⟨rfl, rfl, ?_, ?_, ?_, by simp⟩
        · simp [nextCalls, truthy, ht, hv]
        · simp [nextCalls]
        · intro t' payload h1 _ h3
          cases h1
          rw [hv] at h3
          cases h3
          rfl

/-- Witness for C5: a request carrying alice's token, and one without cookie. -/
theorem verificaUtente_fails_closed_witness :
    verificaUtente sampleEnv [("access_token", "kUu1")] =
        { user := some aliceSession, log := [.next none] } ∧
    (verificaUtente sampleEnv []).user = none :=
  ⟨(verificaUtente_fails_closed sampleEnv [("access_token", "kUu1")]).2.2.2.2.1
      "kUu1" aliceSession (by decide) (by decide) (by decide),
   (verificaUtente_fails_closed sampleEnv []).2.2.2.1 (by decide)⟩

/-- C6. Post mutation compound rule: `aggiornaPost` and `eliminaPost` issue
their store update or delete exactly when the caller is an administrator and
the caller id equals the path parameter `userId`; then the targeted post is
patched, respectively removed.  In every other case, an administrator whose
id differs from the path `userId` included, the only outcome is a 403 error
and the store is unchanged. -/
theorem post_mutation_compound_rule (env : Env) (s : Store) (user : TokenUser)
    (postId userId : String) (title content category image : Option String) :
    ((∃ call ∈ dbCalls (aggiornaPost env s user postId userId title content category image).log,
        call.isWrite = true) ↔ (user.isAdmin = true ∧ user.id = userId)) ∧
    ((∃ call ∈ dbCalls (eliminaPost s user postId userId).log, call.isWrite = true) ↔
      (user.isAdmin = true ∧ user.id = userId)) ∧
    (¬ (user.isAdmin = true ∧ user.id = userId) →
      aggiornaPost env s user postId userId title content category image =
        { store := s, log := [.next (some (errorHandler 403
            "...Non sei autorizzato ad aggiornare il post..."))] } ∧
      eliminaPost s user postId userId =
        { store := s, log := [.next (some (errorHandler 403
            "...Non sei autorizzato a eliminare il post..."))] }) ∧
    (user.isAdmin = true ∧ user.id = userId →
      dbCalls (aggiornaPost env s user postId userId title content category image).log =
        [.postFindByIdAndUpdate postId title content category image] ∧
      nextCalls (aggiornaPost env s user postId userId title content category image).log = [] ∧
      findById Post._id
          (aggiornaPost env s user postId userId title content category image).store.posts postId =
        (findById Post._id s.posts postId).map (fun p =>
          { p with doc := patchPost title content category image p.doc, updatedAt := env.now }) ∧
      dbCalls (eliminaPost s user postId userId).log = [.postFindByIdAndDelete postId] ∧
      nextCalls (eliminaPost s user postId userId).log = [] ∧
      (eliminaPost s user postId userId).store.posts =
        match findById Post._id s.posts postId with
        | some p => s.posts.erase p
        | none => s.posts) := by
  by_cases hauth : user.isAdmin = true ∧ user.id = userId
  · obtain ⟨ha, hi⟩ := hauth
    have hcond : (!user.isAdmin || decide (user.id ≠ userId)) = false := by simp [ha, hi]
    have hU : aggiornaPost env s user postId userId title content category image =
        { store := { s with posts := (findByIdAndUpdate Post._id env.now s.posts postId
            (patchPost title content category image)).1 },
          log := [.db (.postFindByIdAndUpdate postId title content category image),
            .json 200 (.post (findByIdAndUpdate Post._id env.now s.posts postId
              (patchPost title content category image)).2)] } := by
      unfold aggiornaPost
      simp only [hcond, Bool.false_eq_true, if_false]
    have hD : eliminaPost s user postId userId =
        { store := { s with posts := findByIdAndDelete Post._id s.posts postId },
          log := [.db (.postFindByIdAndDelete postId),
            .json 200 (.text "...Post eliminato correttamente...")] } := by
      unfold eliminaPost
      simp only [hcond, Bool.false_eq_true, if_false]
    rw [hU, hD]
    refine ⟨?_, ?_, ?_, ?_⟩
    · simp [dbCalls, DbCall.isWrite, ha, hi]
    · simp [dbCalls, DbCall.isWrite, ha, hi]
    · intro h; exact absurd ⟨ha, hi⟩ h
    · intro _
      refine ⟨rfl, rfl, ?_, rfl, rfl, ?_⟩
      · simp only [findByIdAndUpdate]
        rw [findById_modifyFirst Post._id _ postId (fun d hd => by simpa [patchPost] using hd)]
        simp
      · simp only [findByIdAndDelete]
        cases hp : findById Post._id s.posts postId with
        | none =>
          simp only
          unfold findById at hp
          rw [List.find?_eq_none] at hp
          exact List.eraseP_of_forall_not (fun a ha => by simpa using hp a ha)
        | some p =>
          exact eraseP_eq_erase_of_find (fun d : Stamped Post => d.doc._id == postId) s.posts p hp
  · have hcond : (!user.isAdmin || decide (user.id ≠ userId)) = true := by
      by_cases ha : user.isAdmin = true
      · have hi : user.id ≠ userId := fun h => hauth ⟨ha, h⟩
        simp [ha, hi]
      · simp [ha]
    have hU : aggiornaPost env s user postId userId title content category image =
        { store := s, log := [.next (some (errorHandler 403
            "...Non sei autorizzato ad aggiornare il post..."))] } := by
      unfold aggiornaPost
      simp only [hcond, if_true, Outcome.failed]
    have hD : eliminaPost s user postId userId =
        { store := s, log := [.next (some (errorHandler 403
            "...Non sei autorizzato a eliminare il post..."))] } := by
      unfold eliminaPost
      simp only [hcond, if_true, Outcome.failed]
    rw [hU, hD]
    refine ⟨?_, ?_, ?_, ?_⟩
    · simp [dbCalls, hauth]
    · simp [dbCalls, hauth]
    · intro _; exact ⟨rfl, rfl⟩
    · intro h; exact absurd h hauth

/-- Witness for C6: an administrator acting under another id is refused, the
administrator acting under the own id deletes the post. -/
theorem post_mutation_compound_rule_witness :
    (aggiornaPost sampleEnv sampleStore otherAdminSession "p1" "u2" (some "Nuovo") none none none =
        { store := sampleStore, log := [.next (some (errorHandler 403
            "...Non sei autorizzato ad aggiornare il post..."))] } ∧
      eliminaPost sampleStore otherAdminSession "p1" "u2" =
        { store := sampleStore, log := [.next (some (errorHandler 403
            "...Non sei autorizzato a eliminare il post..."))] }) ∧
    dbCalls (eliminaPost sampleStore rootSession "p1" "u2").log = [.postFindByIdAndDelete "p1"] :=
  ⟨(post_mutation_compound_rule sampleEnv sampleStore otherAdminSession "p1" "u2" (some "Nuovo")
      none none none).2.2.1 (by decide),
   ((post_mutation_compound_rule sampleEnv sampleStore rootSession "p1" "u2" (some "Nuovo")
      none none none).2.2.2 (by decide)).2.2.2.1⟩

/-! ## Outward representation of users -/


theorem password_not_in_withoutPassword (d : Doc) : "password" ∉ keys (withoutPassword d) := by
  unfold keys withoutPassword
  intro h
  rw [List.mem_map] at h
  obtain ⟨kv, hkv, hk⟩ := h
  rw [List.mem_filter] at hkv
  simp [hk] at hkv

theorem responses_append (xs ys : List Event) :
    responses (xs ++ ys) = responses xs ++ responses ys := by
  induction xs with
  | nil => rfl
  | cons x xs ih => cases x <;> simp [responses, ih]

theorem noPassword_object (d : Doc) : (Body.object (withoutPassword d)).NoPassword := by
  intro d' hd'
  simp only [userObjects, List.mem_singleton] at hd'
  subst hd'
  exact password_not_in_withoutPassword d

theorem login_responses (env : Env) (s : Store) (email password : Option String) :
    ∀ r ∈ responses (login env s email password).log, r.2.NoPassword := by
  intro r hr
  unfold login at hr
  simp only [responses_append] at hr
  rw [List.mem_append] at hr
  rcases hr with hr | hr
  · split at hr <;> simp [responses] at hr
  · split at hr
    · simp [responses] at hr
    · split at hr
      · simp [responses] at hr
      · split at hr
        · simp [responses] at hr
        · split at hr
          · simp [responses] at hr
          · simp only [responses, List.mem_singleton] at hr
            subst hr
            exact noPassword_object _

theorem google_responses (env : Env) (s : Store) (name email photo : Option String) :
    ∀ r ∈ responses (google env s name email photo).log, r.2.NoPassword := by
  intro r hr
  unfold google at hr
  split at hr
  · simp only [responses, List.mem_singleton] at hr
    subst hr
    exact noPassword_object _
  · simp only at hr
    split at hr
    · simp [responses] at hr
    · split at hr
      · simp [responses] at hr
      · simp only [responses, List.mem_singleton] at hr
        subst hr
        exact noPassword_object _

theorem getUser_responses (s : Store) (userId : String) :
    ∀ r ∈ responses (getUser s userId).log, r.2.NoPassword := by
  intro r hr
  unfold getUser at hr
  split at hr
  · simp [responses] at hr
  · simp only [responses, List.mem_singleton] at hr
    subst hr
    exact noPassword_object _

theorem getUsers_responses (env : Env) (s : Store) (user : TokenUser)
    (startIndex limit : Option Int) (sort : Option String) :
    ∀ r ∈ responses (getUsers env s user startIndex limit sort).log, r.2.NoPassword := by
  intro r hr
  unfold getUsers at hr
  split at hr
  · simp [Outcome.failed, responses] at hr
  · simp only at hr
    split at hr
    · simp [responses] at hr
    · simp only [responses, List.mem_singleton] at hr
      subst hr
      intro d hd
      simp only [userObjects, List.mem_map] at hd
      obtain ⟨u, _, hu⟩ := hd
      subst hu
      exact password_not_in_withoutPassword _

theorem aggiornaUtente_responses (env : Env) (s : Store) (user : TokenUser) (userId : String)
    (username email profilePicture password : Option String) :
    ∀ r ∈ responses
        (aggiornaUtente env s user userId username email profilePicture password).log,
      r.2.NoPassword := by
  intro r hr
  unfold aggiornaUtente at hr
  repeat' (split at hr; · simp [Outcome.failed, responses] at hr)
  simp only at hr
  split at hr
  · simp [responses] at hr
  · simp only [responses] at hr
    split at hr
    · simp only [responses, List.mem_singleton] at hr
      subst hr
      exact noPassword_object _
    · simp [responses] at hr

/-- C8. No endpoint that returns user data exposes the password: every JSON
body sent by `login`, `google` (existing and new user), `getUser`, `getUsers`
and `aggiornaUtente` contains only user objects without a `password` key,
whatever the store holds. -/
theorem user_responses_omit_password (env : Env) (s : Store) :
    (∀ email password, ∀ r ∈ responses (login env s email password).log,
      ∀ d ∈ userObjects r.2, "password" ∉ keys d) ∧
    (∀ name email photo, ∀ r ∈ responses (google env s name email photo).log,
      ∀ d ∈ userObjects r.2, "password" ∉ keys d) ∧
    (∀ userId, ∀ r ∈ responses (getUser s userId).log,
      ∀ d ∈ userObjects r.2, "password" ∉ keys d) ∧
    (∀ user startIndex limit sort,
      ∀ r ∈ responses (getUsers env s user startIndex limit sort).log,
        ∀ d ∈ userObjects r.2, "password" ∉ keys d) ∧
    (∀ user userId username email profilePicture password,
      ∀ r ∈ responses
          (aggiornaUtente env s user userId username email profilePicture password).log,
        ∀ d ∈ userObjects r.2, "password" ∉ keys d) :=
  ⟨fun email password => login_responses env s email password,
   fun name email photo => google_responses env s name email photo,
   fun userId => getUser_responses s userId,
   fun user startIndex limit sort => getUsers_responses env s user startIndex limit sort,
   fun user userId username email profilePicture password =>
     aggiornaUtente_responses env s user userId username email profilePicture password⟩

/-- Witness for C8: the bodies sent by `login` for alice, by a first `google`
sign-in, by `getUsers` for an administrator (its second entry), by
`aggiornaUtente` for alice and by `getUser` for the administrator. -/
theorem user_responses_omit_password_witness :
    "password" ∉ keys (withoutPassword (userDoc alice)) ∧
    "password" ∉ keys (withoutPassword (userDoc
      { doc := { _id := "n1", username := "bobrossi7206", email := "b@x.com",
                 password := "$2a$10$yo82mvyrv0q9d1ta",
                 profilePicture := defaultProfilePicture, isAdmin := false },
        createdAt := 1000, updatedAt := 1000 })) ∧
    "password" ∉ keys (withoutPassword (userDoc root)) ∧
    "password" ∉ keys (withoutPassword (userDoc
      { alice with updatedAt := 1000, doc := { alice.doc with email := "alice@x.com" } })) ∧
    (∀ d ∈ userObjects (Body.object (withoutPassword (userDoc root))), "password" ∉ keys d) :=
  ⟨(user_responses_omit_password sampleEnv sampleStore).1 (some "a@x.com") (some "secret1")
      (200, .object (withoutPassword (userDoc alice))) (by decide) _ (by decide),
   (user_responses_omit_password sampleEnv sampleStore).2.1 (some "Bob Rossi") (some "b@x.com")
      none (200, .object (withoutPassword (userDoc
        { doc := { _id := "n1", username := "bobrossi7206", email := "b@x.com",
                   password := "$2a$10$yo82mvyrv0q9d1ta",
                   profilePicture := defaultProfilePicture, isAdmin := false },
          createdAt := 1000, updatedAt := 1000 }))) (by decide) _ (by decide),
   (user_responses_omit_password sampleEnv sampleStore).2.2.2.1 rootSession none none none
      (200, .userPage [withoutPassword (userDoc root), withoutPassword (userDoc alice)] 2 0)
      (by decide) _ (by decide),
   (user_responses_omit_password sampleEnv sampleStore).2.2.2.2 aliceSession "u1" none
      (some "alice@x.com") none none (200, .object (withoutPassword (userDoc
        { alice with updatedAt := 1000, doc := { alice.doc with email := "alice@x.com" } })))
      (by decide) _ (by decide),
   (user_responses_omit_password sampleEnv sampleStore).2.2.1 "u2"
      (200, .object (withoutPassword (userDoc root))) (by decide)⟩

/-! ## Sessions, stored passwords and the login field check -/


theorem cookiesSet_append (xs ys : List Event) :
    cookiesSet (xs ++ ys) = cookiesSet xs ++ cookiesSet ys := by
  induction xs with
  | nil => rfl
  | cons x xs ih => cases x <;> simp [cookiesSet, ih]

/-- Every cookie `login` sets is named `jwt-token`. -/
theorem login_cookie_names (env : Env) (s : Store) (email password : Option String) :
    ∀ c ∈ cookiesSet (login env s email password).log, c.1 = "jwt-token" := by
  intro c hc
  unfold login at hc
  simp only [cookiesSet_append] at hc
  rw [List.mem_append] at hc
  rcases hc with hc | hc
  · split at hc <;> simp [cookiesSet] at hc
  · split at hc
    · simp [cookiesSet] at hc
    · split at hc
      · simp [cookiesSet] at hc
      · split at hc
        · simp [cookiesSet] at hc
        · split at hc
          · simp [cookiesSet] at hc
          · simp only [cookiesSet, List.mem_singleton] at hc
            subst hc
            rfl

theorem lookup_eq_none_of_keys {cs : List (String × String)} {k : String}
    (h : ∀ c ∈ cs, c.1 ≠ k) : cs.lookup k = none := by
  induction cs with
  | nil => rfl
  | cons c cs ih =>
    obtain ⟨a, b⟩ := c
    have hne : a ≠ k := h (a, b) (List.mem_cons_self _ _)
    have hb : (k == a) = false := by simpa using fun h' => hne h'.symm
    simp only [List.lookup, hb]
    exact ih (fun c hc => h c (List.mem_cons_of_mem _ hc))

/-- The sibling path: with a token library whose `verify` inverts `sign` and
signs no empty token, the cookie set by `google` passes the guard with the
payload of a stored user. -/
theorem google_session_accepted (env : Env) (s : Store) (name email photo : Option String)
    (hverify : ∀ p, env.verify (env.sign p env.JWT_SECRET) env.JWT_SECRET = some p)
    (hne : ∀ p, env.sign p env.JWT_SECRET ≠ "") :
    ∀ c ∈ cookiesSet (google env s name email photo).log,
      ∃ u ∈ (google env s name email photo).store.users,
        verificaUtente env [c] =
          { user := some { id := u.doc._id, isAdmin := u.doc.isAdmin }, log := [.next none] } := by
  have key : ∀ u : Stamped User, verificaUtente env [("access_token", tokenFor env u)] =
      { user := some { id := u.doc._id, isAdmin := u.doc.isAdmin }, log := [.next none] } := by
    intro u
    unfold verificaUtente
    simp [List.lookup, tokenFor, hne, hverify]
  intro c hc
  unfold google at hc ⊢
  split at hc
  · rename_i user hu
    simp only [cookiesSet, List.mem_singleton] at hc
    subst hc
    simp only [hu]
    refine ⟨user, ?_, key user⟩
    unfold findOneByEmail at hu
    split at hu
    · cases hu
    · exact List.mem_of_find?_eq_some hu
  · rename_i hu
    simp only at hc
    simp only [hu]
    split at hc
    · simp [cookiesSet] at hc
    · split at hc
      · simp [cookiesSet] at hc
      · rename_i n s' hs
        simp only [cookiesSet, List.mem_singleton] at hc
        subst hc
        simp only [hs]
        refine ⟨_, ?_, key _⟩
        unfold saveNewUser at hs
        split at hs
        · cases hs
        · split at hs
          · cases hs
          · cases hs
            simp [insertNew]

/-- C4, failing input.  Alice signs in with her password: `login` answers 200
and sets a cookie named `jwt-token` holding a token that verifies; the guard
reads the cookie `access_token`, so the request carrying exactly that cookie
gets the 401 error and no payload.  No cookie set by `login`, for any
environment, store and credentials, ever passes the guard. -/
theorem login_cookie_rejected_by_guard :
    responses (login sampleEnv sampleStore (some "a@x.com") (some "secret1")).log =
      [(200, .object (withoutPassword (userDoc alice)))] ∧
    cookiesSet (login sampleEnv sampleStore (some "a@x.com") (some "secret1")).log =
      [("jwt-token", "kUu1")] ∧
    sampleEnv.verify "kUu1" sampleEnv.JWT_SECRET = some { id := "u1", isAdmin := false } ∧
    verificaUtente sampleEnv
        (cookiesSet (login sampleEnv sampleStore (some "a@x.com") (some "secret1")).log) =
      { user := none, log := [.next (some (errorHandler 401 "...Non autorizzato..."))] } ∧
    (∀ (env : Env) (s : Store) (email password : Option String),
      verificaUtente env (cookiesSet (login env s email password).log) =
        { user := none, log := [.next (some (errorHandler 401 "...Non autorizzato..."))] }) := by
  refine ⟨by decide, by decide, by decide, by decide, ?_⟩
  intro env s email password
  have h := lookup_eq_none_of_keys (k := "access_token")
    (fun c hc => by rw [login_cookie_names env s email password c hc]; decide)
  unfold verificaUtente
  rw [h]

/-- C9, failing input.  Alice changes her password to `secret2` through
`aggiornaUtente`: no hash is computed, the store then holds the plaintext
`secret2` itself as her password (for every environment), and a `login` with
`secret2` is answered with the invalid-password error. -/
theorem aggiornaUtente_stores_plaintext :
    (∀ env : Env,
      (findById User._id
        (aggiornaUtente env sampleStore aliceSession "u1" none none none (some "secret2")).store.users
        "u1").map (fun u => u.doc.password) = some "secret2") ∧
    (∀ env : Env,
      (aggiornaUtente env sampleStore aliceSession "u1" none none none (some "secret2")).log =
        [.db (.userFindByIdAndUpdate "u1" none none none (some "secret2")),
         .json 200 (.object (withoutPassword (userDoc
           { alice with updatedAt := env.now,
                        doc := { alice.doc with password := "secret2" } })))]) ∧
    sampleEnv.hashSync "secret2" 10 ≠ "secret2" ∧
    (login sampleEnv
      (aggiornaUtente sampleEnv sampleStore aliceSession "u1" none none none
        (some "secret2")).store (some "a@x.com") (some "secret2")).log =
      [.db (.userFindOne (some "a@x.com")), .compareSync "secret2" "secret2",
       .next (some (errorHandler 400 "Invalid pasword!"))] := by
  refine ⟨fun env => by rfl, fun env => by rfl, by decide, by decide⟩

/-- C10, failing input.  A `login` request with an empty password for alice's
email: after the 400 error has gone to `next` the handler goes on, looks the
user up, compares the password and calls `next` a second time.  A request
with an empty email likewise performs the lookup and calls `next` twice. -/
theorem login_empty_field_continues :
    (login sampleEnv sampleStore (some "a@x.com") (some "")).log =
      [.next (some (errorHandler 400 "...Sono richiesti tutti i campi...")),
       .db (.userFindOne (some "a@x.com")),
       .compareSync "" "$2a$10$secret1",
       .next (some (errorHandler 400 "Invalid pasword!"))] ∧
    (login sampleEnv sampleStore (some "") (some "secret1")).log =
      [.next (some (errorHandler 400 "...Sono richiesti tutti i campi...")),
       .db (.userFindOne (some "")),
       .next (some (errorHandler 404 "...Utente non trovato..."))] ∧
    (nextCalls (login sampleEnv sampleStore (some "a@x.com") (some "")).log).length = 2 ∧
    dbCalls (login sampleEnv sampleStore (some "a@x.com") (some "")).log =
      [.userFindOne (some "a@x.com")] ∧
    comparisons (login sampleEnv sampleStore (some "a@x.com") (some "")).log =
      [("", "$2a$10$secret1")] := by
  refine ⟨by decide, by decide, by decide, by decide, by decide⟩

/-! ## Slug derivation -/

theorem char_lower_cases (c : Char) :
    (c.isUpper = false ∧ c.toLower = c) ∨ ∃ n, 65 ≤ n ∧ n ≤ 90 ∧ c = Char.ofNat n := by
  by_cases h : c.toNat ≥ 65 ∧ c.toNat ≤ 90
  · right
    exact ⟨c.toNat, h.1, h.2, (Char.ofNat_toNat c).symm⟩
  · left
    constructor
    · simp only [Char.isUpper, Char.toNat, ge_iff_le, UInt32.le_def] at h ⊢
      rw [Bool.and_eq_false_iff]
      simp only [decide_eq_false_iff_not]
      by_contra hc
      push_neg at hc
      exact h ⟨hc.1, hc.2⟩
    · simp only [Char.toLower, h, if_false]

theorem toLower_isUpper (c : Char) : c.toLower.isUpper = false := by
  rcases char_lower_cases c with ⟨h1, h2⟩ | ⟨n, h1, h2, rfl⟩
  · rw [h2]; exact h1
  · interval_cases n <;> decide

theorem splitSpace_ne_nil (cs : List Char) : splitSpace cs ≠ [] := by
  cases cs with
  | nil => simp [splitSpace]
  | cons c cs =>
    unfold splitSpace
    split
    · simp
    · split <;> simp

theorem joinDash_cons_cons (seg : List Char) (segs : List (List Char)) (h : segs ≠ []) :
    joinDash (seg :: segs) = seg ++ '-' :: joinDash segs := by
  cases segs with
  | nil => exact absurd rfl h
  | cons x xs => rfl

/-- Splitting on spaces and joining with hyphens replaces each space by a
hyphen. -/
theorem joinDash_splitSpace (cs : List Char) :
    joinDash (splitSpace cs) = cs.map (fun c => if c = ' ' then '-' else c) := by
  induction cs with
  | nil => rfl
  | cons c cs ih =>
    unfold splitSpace
    by_cases hc : c = ' '
    · simp only [hc, if_true, List.map_cons]
      rw [joinDash_cons_cons [] _ (splitSpace_ne_nil cs), ih]
      rfl
    · simp only [hc, if_false, List.map_cons]
      cases hs : splitSpace cs with
      | nil => exact absurd hs (splitSpace_ne_nil cs)
      | cons seg segs =>
        rw [hs] at ih
        simp only
        cases segs with
        | nil =>
          simp only [joinDash] at ih ⊢
          rw [ih]
        | cons x xs =>
          simp only [joinDash] at ih ⊢
          rw [← ih]
          rfl

/-! ### Lower-casing and the slug -/

theorem isUpper_iff (c : Char) : c.isUpper = true ↔ 65 ≤ c.toNat ∧ c.toNat ≤ 90 := by
  simp only [Char.isUpper, Char.toNat, ge_iff_le, UInt32.le_def, Bool.and_eq_true,
    decide_eq_true_eq, BitVec.le_def]
  rfl

theorem isLower_iff (c : Char) : c.isLower = true ↔ 97 ≤ c.toNat ∧ c.toNat ≤ 122 := by
  simp only [Char.isLower, Char.toNat, ge_iff_le, UInt32.le_def, Bool.and_eq_true,
    decide_eq_true_eq, BitVec.le_def]
  rfl

theorem isDigit_iff (c : Char) : c.isDigit = true ↔ 48 ≤ c.toNat ∧ c.toNat ≤ 57 := by
  simp only [Char.isDigit, Char.toNat, ge_iff_le, UInt32.le_def, Bool.and_eq_true,
    decide_eq_true_eq, BitVec.le_def]
  rfl

theorem char_eq_of_toNat {c d : Char} (h : c.toNat = d.toNat) : c = d := by
  rw [← Char.ofNat_toNat c, ← Char.ofNat_toNat d, h]

theorem isSlugChar_iff (c : Char) :
    isSlugChar c = true ↔
      (65 ≤ c.toNat ∧ c.toNat ≤ 90) ∨ (97 ≤ c.toNat ∧ c.toNat ≤ 122) ∨
      (48 ≤ c.toNat ∧ c.toNat ≤ 57) ∨ c.toNat = 45 := by
  have hd : c = '-' ↔ c.toNat = 45 :=
    ⟨fun h => by rw [h]; rfl, fun h => char_eq_of_toNat h⟩
  simp only [isSlugChar, Char.isAlphanum, Char.isAlpha, Bool.or_eq_true, isUpper_iff,
    isLower_iff, isDigit_iff, beq_iff_eq, hd]
  tauto

set_option maxRecDepth 100000 in
/-- Outside ASCII the only simple lowercase mapping with an ASCII value is that
of the Kelvin sign (U+212A), to `k`. -/
theorem lowerRuns_targets :
    ∀ r ∈ lowerRuns, 128 ≤ r.2.2.2 ∨ (r.1 = 8490 ∧ r.2.1 = 8490) := by
  decide

theorem simpleLower_ge {n : Nat} (h : 128 ≤ n) (hk : n ≠ 8490) : 128 ≤ simpleLower n := by
  unfold simpleLower
  split
  · rename_i r hr
    have hmem := List.mem_of_find?_eq_some hr
    have hp := List.find?_some hr
    simp only [Bool.and_eq_true, decide_eq_true_eq] at hp
    rcases lowerRuns_targets r hmem with ht | ⟨h1, h2⟩
    · omega
    · omega
  · exact h

theorem toNat_ofNat_of_lt {n : Nat} (h : n < 55296) : (Char.ofNat n).toNat = n := by
  unfold Char.ofNat
  rw [dif_pos (Or.inl h)]
  rfl

theorem toNat_ofNat (n : Nat) : (Char.ofNat n).toNat = n ∨ (Char.ofNat n).toNat = 0 := by
  by_cases hv : n.isValidChar
  · left
    unfold Char.ofNat
    rw [dif_pos hv]
    rfl
  · right
    unfold Char.ofNat
    rw [dif_neg hv]
    rfl

theorem toLower_toNat (c : Char) :
    c.toLower.toNat = if 65 ≤ c.toNat ∧ c.toNat ≤ 90 then c.toNat + 32 else c.toNat := by
  unfold Char.toLower
  simp only [ge_iff_le]
  split
  · rename_i h
    exact toNat_ofNat_of_lt (by omega)
  · rfl

theorem isSlugChar_toLower (c : Char) : isSlugChar c.toLower = isSlugChar c := by
  rw [Bool.eq_iff_iff, isSlugChar_iff, isSlugChar_iff, toLower_toNat]
  split <;> omega

theorem not_isSlugChar_ofNat {m : Nat} (h : 128 ≤ m) : isSlugChar (Char.ofNat m) = false := by
  rw [← Bool.not_eq_true, isSlugChar_iff]
  rcases toNat_ofNat m with h1 | h1 <;> rw [h1] <;> omega

theorem simpleLower_kelvin : simpleLower 8490 = 107 := by
  decide

/-- What the regular expression of the slug leaves of the lowercase form of
one character. -/
theorem lowerOne_filter (f : Bool) (c : Char) :
    (lowerOne f c).filter isSlugChar =
      if c.toNat = 304 then ['i'] else if c.toNat = 8490 then ['k']
      else if isSlugChar c = true then [c.toLower] else [] := by
  unfold lowerOne
  by_cases h1 : c.toNat = 931
  · have hs : ¬ isSlugChar c = true := by rw [isSlugChar_iff]; omega
    have ha : ¬ c.toNat = 304 := by omega
    have hb : ¬ c.toNat = 8490 := by omega
    rw [if_pos h1, if_neg ha, if_neg hb, if_neg hs]
    cases f <;> decide
  · rw [if_neg h1]
    by_cases h2 : c.toNat = 304
    · rw [if_pos h2, if_pos h2]
      decide
    · rw [if_neg h2, if_neg h2]
      by_cases h3 : c.toNat < 128
      · have hb : ¬ c.toNat = 8490 := by omega
        rw [if_pos h3, if_neg hb]
        simp only [List.filter_cons, List.filter_nil, isSlugChar_toLower]
      · rw [if_neg h3]
        have hs : ¬ isSlugChar c = true := by rw [isSlugChar_iff]; omega
        by_cases h4 : c.toNat = 8490
        · rw [if_pos h4, h4, simpleLower_kelvin]
          decide
        · rw [if_neg h4, if_neg hs]
          have hge : 128 ≤ c.toNat := by omega
          simp only [List.filter_cons, List.filter_nil,
            not_isSlugChar_ofNat (simpleLower_ge hge h4), Bool.false_eq_true, if_false]

theorem lowerOne_space (f : Bool) : lowerOne f ' ' = [' '] := by
  cases f <;> decide

theorem space_not_mem_lowerOne (f : Bool) {c : Char} (h : c ≠ ' ') : ' ' ∉ lowerOne f c := by
  have hn : c.toNat ≠ 32 := fun hc => h (char_eq_of_toNat hc)
  have key : ∀ d : Char, d.toNat ≠ 32 → ' ' ≠ d := by
    intro d hd he
    rw [← he] at hd
    exact hd rfl
  unfold lowerOne
  split
  · cases f <;> decide
  · split
    · decide
    · split
      · simp only [List.mem_singleton]
        apply key
        rw [toLower_toNat]
        split <;> omega
      · rename_i h1 h2 h3
        simp only [List.mem_singleton]
        apply key
        by_cases h4 : c.toNat = 8490
        · rw [h4, simpleLower_kelvin]
          decide
        · have := simpleLower_ge (n := c.toNat) (by omega) h4
          rcases toNat_ofNat (simpleLower c.toNat) with h5 | h5 <;> rw [h5] <;> omega

/-- The regular expression of the slug applied to a lower-cased string: the
context of a sigma plays no part. -/
theorem lowerFrom_filter (before l : List Char) :
    (lowerFrom before l).filter isSlugChar =
      l.flatMap (fun c => (lowerOne false c).filter isSlugChar) := by
  induction l generalizing before with
  | nil => rfl
  | cons c cs ih =>
    simp only [lowerFrom, List.filter_append, List.flatMap_cons, ih]
    rw [lowerOne_filter, lowerOne_filter]

theorem lowerOne_dash_filter (f : Bool) (c : Char) :
    ((lowerOne f c).map (fun c => if c = ' ' then '-' else c)).filter isSlugChar =
      (lowerOne false (if c = ' ' then '-' else c)).filter isSlugChar := by
  by_cases hc : c = ' '
  · subst hc
    rw [lowerOne_space]
    decide
  · rw [if_neg hc]
    have hid : (lowerOne f c).map (fun c => if c = ' ' then '-' else c) = lowerOne f c := by
      conv_rhs => rw [← List.map_id (lowerOne f c)]
      apply List.map_congr_left
      intro d hd
      have : d ≠ ' ' := fun h => space_not_mem_lowerOne f hc (h ▸ hd)
      simp [this]
    rw [hid, lowerOne_filter, lowerOne_filter]

theorem lowerFrom_dash_filter (before l : List Char) :
    ((lowerFrom before l).map (fun c => if c = ' ' then '-' else c)).filter isSlugChar =
      (l.map (fun c => if c = ' ' then '-' else c)).flatMap
        (fun c => (lowerOne false c).filter isSlugChar) := by
  induction l generalizing before with
  | nil => rfl
  | cons c cs ih =>
    simp only [lowerFrom, List.map_append, List.filter_append, List.map_cons, List.flatMap_cons,
      ih]
    rw [lowerOne_dash_filter]

/-- The slug, character by character: each space becomes a hyphen, and each
character contributes what the regular expression leaves of its lowercase
form. -/
theorem slugOf_data (t : String) :
    (slugOf t).data =
      (t.data.map (fun c => if c = ' ' then '-' else c)).flatMap
        (fun c => (lowerOne false c).filter isSlugChar) := by
  simp only [slugOf, toLowerCase, joinDash_splitSpace, lowerFrom_filter]

theorem specSlug_data (t : String) :
    (specSlug t).data =
      (t.data.map (fun c => if c = ' ' then '-' else c)).flatMap
        (fun c => (lowerOne false c).filter isSlugChar) := by
  simp only [specSlug, toLowerCase, lowerFrom_dash_filter]

theorem slugOf_chars (t : String) :
    ∀ c ∈ (slugOf t).data, (c.isLower || c.isDigit || c == '-') = true ∧
      c ≠ ' ' ∧ c.isUpper = false := by
  intro c hc
  rw [slugOf_data, List.mem_flatMap] at hc
  obtain ⟨d, _, hd⟩ := hc
  rw [lowerOne_filter] at hd
  have hnum : (97 ≤ c.toNat ∧ c.toNat ≤ 122) ∨ (48 ≤ c.toNat ∧ c.toNat ≤ 57) ∨ c.toNat = 45 := by
    split at hd
    · rw [List.mem_singleton.mp hd]; decide
    · split at hd
      · rw [List.mem_singleton.mp hd]; decide
      · split at hd
        · rename_i hs
          rw [List.mem_singleton.mp hd, toLower_toNat]
          rw [isSlugChar_iff] at hs
          split <;> omega
        · cases hd
  have hdash : (c == '-') = true ↔ c.toNat = 45 := by
    rw [beq_iff_eq]
    exact ⟨fun h => by rw [h]; rfl, fun h => char_eq_of_toNat h⟩
  refine ⟨?_, ?_, ?_⟩
  · simp only [Bool.or_eq_true, isLower_iff, isDigit_iff, hdash]
    omega
  · intro h
    rw [h] at hnum
    revert hnum
    decide
  · rw [← Bool.not_eq_true, isUpper_iff]
    omega

theorem flatMap_fixed (l : List Char)
    (h : ∀ c ∈ l, (c.isLower || c.isDigit || c == '-') = true) :
    (l.map (fun c => if c = ' ' then '-' else c)).flatMap
      (fun c => (lowerOne false c).filter isSlugChar) = l := by
  induction l with
  | nil => rfl
  | cons c cs ih =>
    have hc := h c (List.mem_cons_self _ _)
    have hdash : (c == '-') = true ↔ c.toNat = 45 := by
      rw [beq_iff_eq]
      exact ⟨fun h => by rw [h]; rfl, fun h => char_eq_of_toNat h⟩
    simp only [Bool.or_eq_true, isLower_iff, isDigit_iff, hdash] at hc
    have hsp : c ≠ ' ' := by
      intro hs
      rw [hs] at hc
      revert hc
      decide
    have hslug : isSlugChar c = true := by rw [isSlugChar_iff]; omega
    have hlow : c.toLower = c := by
      apply char_eq_of_toNat
      rw [toLower_toNat]
      split <;> omega
    have h1 : ¬ c.toNat = 304 := by omega
    have h2 : ¬ c.toNat = 8490 := by omega
    rw [List.map_cons, if_neg hsp, List.flatMap_cons,
      ih (fun d hd => h d (List.mem_cons_of_mem _ hd)), lowerOne_filter, if_neg h1, if_neg h2,
      if_pos hslug, hlow]
    rfl

set_option maxRecDepth 100000 in
/-- Lower-casing and slugs on text outside ASCII: capital I with dot above
(U+0130) and the Kelvin sign (U+212A) lower to the ASCII letters `i` and `k`,
which the slug keeps; a capital sigma lowers to the final sigma after a letter
at the end of a word. -/
theorem lowerCase_examples :
    slugOf "\u0130stanbul \u212Aelvin" = "istanbul-kelvin" ∧
    specSlug "\u0130stanbul \u212Aelvin" = "istanbul-kelvin" ∧
    slugOf "\u0130" = "i" ∧
    toLowerCase "\u0130" = "i\u0307" ∧
    toLowerCase "\u212A" = "k" ∧
    toLowerCase "\u00C9COLE" = "\u00E9cole" ∧
    toLowerCase "\u0391\u03A3" = "\u03B1\u03C2" ∧
    toLowerCase "\u0391\u03A3\u0391" = "\u03B1\u03C3\u03B1" ∧
    slugOf "Ciao  Mondo, 2024!" = "ciao--mondo-2024" := by
  refine ⟨by decide, by decide, by decide, by decide, by decide, by decide, by decide,
    by decide, by decide⟩

/-- C13. Slug derivation is deterministic and idempotent: the slug `creaPost`
stores is a function of the title alone (the same title always gives the same
slug, whatever the caller, the clock or the rest of the body), and deriving a
slug from a slug gives that slug again. -/
theorem slugOf_idempotent :
    (∀ t : String, slugOf (slugOf t) = slugOf t) ∧
    (∀ (env : Env) (user : TokenUser) (body : PostBody),
      (newPostOf env user body).slug = slugOf (body.title.getD "")) := by
  refine ⟨fun t => ?_, fun _ _ _ => rfl⟩
  apply String.ext
  rw [slugOf_data (slugOf t)]
  exact flatMap_fixed _ (fun c hc => (slugOf_chars t c hc).1)

/-- C14. The slug computed by `creaPost` (split on spaces, join with hyphens,
lowercase, strip what is outside `[a-zA-Z0-9-]`) equals the pipeline of the
specification (lowercase, spaces to hyphens, strip), and it consists of
lowercase letters, digits and hyphens only: no space, no uppercase letter. -/
theorem slugOf_refines_spec (t : String) :
    slugOf t = specSlug t ∧
    ∀ c ∈ (slugOf t).data,
      (c.isLower || c.isDigit || c == '-') = true ∧ c ≠ ' ' ∧ c.isUpper = false := by
  constructor
  · apply String.ext
    rw [slugOf_data, specSlug_data]
  · exact slugOf_chars t

/-- Witness for C14: the title `Istanbul Kelvin` written with capital I with
dot above (U+0130) and with the Kelvin sign (U+212A), and the letter `k` of its
slug `istanbul-kelvin`. -/
theorem slugOf_refines_spec_witness :
    slugOf "\u0130stanbul \u212Aelvin" = specSlug "\u0130stanbul \u212Aelvin" ∧
    ('k'.isLower || 'k'.isDigit || 'k' == '-') = true ∧ 'k' ≠ ' ' ∧ 'k'.isUpper = false :=
  ⟨(slugOf_refines_spec "\u0130stanbul \u212Aelvin").1,
   (slugOf_refines_spec "\u0130stanbul \u212Aelvin").2 'k' (by decide)⟩


/-! ## Login and registration decisions -/

theorem dbCalls_append (xs ys : List Event) : dbCalls (xs ++ ys) = dbCalls xs ++ dbCalls ys := by
  induction xs with
  | nil => rfl
  | cons x xs ih => cases x <;> simp [dbCalls, ih]

theorem findOneByEmail_eq_none_iff (users : List (Stamped User)) (e : String) :
    findOneByEmail users (some e) = none ↔ ∀ u ∈ users, u.doc.email ≠ e := by
  simp [findOneByEmail, List.find?_eq_none]

/-- The three outcomes of `login` on a non-empty email and password. -/
theorem login_wellFormed_cases (env : Env) (s : Store) (e p : String)
    (he : e ≠ "") (hp : p ≠ "") :
    (findOneByEmail s.users (some e) = none →
      login env s (some e) (some p) =
        { store := s, log := [.db (.userFindOne (some e)),
            .next (some (errorHandler 404 "...Utente non trovato..."))] }) ∧
    (∀ u, findOneByEmail s.users (some e) = some u →
      env.compareSync p u.doc.password = false →
      login env s (some e) (some p) =
        { store := s, log := [.db (.userFindOne (some e)), .compareSync p u.doc.password,
            .next (some (errorHandler 400 "Invalid pasword!"))] }) ∧
    (∀ u, findOneByEmail s.users (some e) = some u →
      env.compareSync p u.doc.password = true →
      login env s (some e) (some p) =
        { store := s, log := [.db (.userFindOne (some e)), .compareSync p u.doc.password,
            .cookie "jwt-token" (tokenFor env u) (sessionCookieOptions env),
            .json 200 (.object (withoutPassword (userDoc u)))] }) := by
  have hrej : (!truthy (some e) || !truthy (some p) || some e == some "" || some p == some "")
      = false := by
    simp [truthy, he, hp]
  refine ⟨?_, ?_, ?_⟩
  · intro h
    unfold login
    simp only [hrej, h, Bool.false_eq_true, if_false, List.nil_append]
  · intro u h hc
    unfold login
    simp only [hrej, h, hc, Bool.false_eq_true, if_false, List.nil_append, Bool.not_false,
      if_true]
  · intro u h hc
    unfold login
    simp only [hrej, h, hc, Bool.false_eq_true, if_false, List.nil_append, Bool.not_true]

/-- C12. Login decision for a non-empty email and password: the 404 error
exactly when no stored user has the email; the 400 invalid-credential error
exactly when such a user exists and the password does not verify against the
stored hash; otherwise a 200 response with a cookie holding the token signed
over the id and `isAdmin` of the user, and a body that is the user record
without its password field.  The store is never modified. -/
theorem login_decision (env : Env) (s : Store) (e p : String) (he : e ≠ "") (hp : p ≠ "") :
    (login env s (some e) (some p)).store = s ∧
    (∀ call ∈ dbCalls (login env s (some e) (some p)).log, call.isWrite = false) ∧
    (nextCalls (login env s (some e) (some p)).log =
        [some (errorHandler 404 "...Utente non trovato...")] ↔
      ∀ u ∈ s.users, u.doc.email ≠ e) ∧
    (nextCalls (login env s (some e) (some p)).log =
        [some (errorHandler 400 "Invalid pasword!")] ↔
      ∃ u, findOneByEmail s.users (some e) = some u ∧
        env.compareSync p u.doc.password = false) ∧
    (∀ u, findOneByEmail s.users (some e) = some u →
      env.compareSync p u.doc.password = true →
      (login env s (some e) (some p)).log =
        [.db (.userFindOne (some e)), .compareSync p u.doc.password,
         .cookie "jwt-token"
           (env.sign { id := u.doc._id, isAdmin := u.doc.isAdmin } env.JWT_SECRET)
           { httpOnly := true, sameSite := none, secure := false,
             expires := env.now + 1000 * 60 * 60 * 12, other := [("SameSite", "strict")] },
         .json 200 (.object
           [("_id", .str u.doc._id), ("username", .str u.doc.username),
            ("email", .str u.doc.email), ("profilePicture", .str u.doc.profilePicture),
            ("isAdmin", .bool u.doc.isAdmin), ("createdAt", .num u.createdAt),
            ("updatedAt", .num u.updatedAt), ("__v", .num 0)])]) := by
  obtain ⟨h404, h400, h200⟩ := login_wellFormed_cases env s e p he hp
  cases hf : findOneByEmail s.users (some e) with
  | none =>
    have hnone := (findOneByEmail_eq_none_iff s.users e).mp hf
    rw [h404 hf]
    refine ⟨rfl, ?_, ?_, ?_, ?_⟩
    · intro call hcall
      simp only [dbCalls, List.mem_singleton] at hcall
      subst hcall; rfl
    · simp only [nextCalls, true_iff]
      exact hnone
    · simp [nextCalls, errorHandler]
    · intro u hu; cases hu
  | some u =>
    have hex : ¬ ∀ v ∈ s.users, v.doc.email ≠ e := by
      intro hall
      rw [← findOneByEmail_eq_none_iff, hf] at hall
      cases hall
    cases hc : env.compareSync p u.doc.password with
    | false =>
      rw [h400 u hf hc]
      refine ⟨rfl, ?_, ?_, ?_, ?_⟩
      · intro call hcall
        simp only [dbCalls, List.mem_singleton] at hcall
        subst hcall; rfl
      · simp [nextCalls, errorHandler, hex]
      · simp [nextCalls, hc]
      · intro v hv hcv
        cases hv
        rw [hc] at hcv
        cases hcv
    | true =>
      rw [h200 u hf hc]
      refine ⟨rfl, ?_, ?_, ?_, ?_⟩
      · intro call hcall
        simp only [dbCalls, List.mem_singleton] at hcall
        subst hcall; rfl
      · simp [nextCalls, hex]
      · simp [nextCalls, hc]
      · intro v hv _
        cases hv
        rfl

/-- Witness for C12: alice signs in with her password. -/
theorem login_decision_witness :
    (login sampleEnv sampleStore (some "a@x.com") (some "secret1")).log =
      [.db (.userFindOne (some "a@x.com")), .compareSync "secret1" "$2a$10$secret1",
       .cookie "jwt-token" "kUu1"
         { httpOnly := true, sameSite := none, secure := false,
           expires := 1000 + 1000 * 60 * 60 * 12, other := [("SameSite", "strict")] },
       .json 200 (.object
         [("_id", .str "u1"), ("username", .str "alice01"), ("email", .str "a@x.com"),
          ("profilePicture", .str defaultProfilePicture), ("isAdmin", .bool false),
          ("createdAt", .num 10), ("updatedAt", .num 10), ("__v", .num 0)])] :=
  (login_decision sampleEnv sampleStore "a@x.com" "secret1" (by decide) (by decide)).2.2.2.2
    alice (by decide) (by decide)

/-- C11, failing input.  A registration with username and email but an empty
password: after the 400 error has gone to `next` the handler goes on, hashes
the empty password, saves the user (the store then holds a third user) and
calls `next` again.  With the password absent, `hashSync` raises outside the
`try` and nobody catches it; with the username empty, the hash is computed and
the save is attempted. -/
theorem registrazione_empty_field_continues :
    (registrazione sampleEnv sampleStore (some "bobby01") (some "b@x.com") (some "")).log =
      [.next (some (errorHandler 400 "...Sono richiesti tutti i campi...")),
       .hashSync "" 10,
       .db (.userSave { _id := "n1", username := "bobby01", email := "b@x.com",
                        password := "$2a$10$", profilePicture := defaultProfilePicture,
                        isAdmin := false }),
       .next (some (thrown "ERR_HTTP_HEADERS_SENT"))] ∧
    (registrazione sampleEnv sampleStore (some "bobby01") (some "b@x.com")
        (some "")).store.users.map (fun u => u.doc.username) =
      ["alice01", "rootadmin", "bobby01"] ∧
    (registrazione sampleEnv sampleStore (some "bobby01") (some "b@x.com") none).log =
      [.next (some (errorHandler 400 "...Sono richiesti tutti i campi...")),
       .uncaught (thrown "Illegal arguments: undefined, number")] ∧
    (registrazione sampleEnv sampleStore (some "") (some "b@x.com") (some "secret1")).log =
      [.next (some (errorHandler 400 "...Sono richiesti tutti i campi...")),
       .hashSync "secret1" 10,
       .db (.userSave { _id := "n1", username := "", email := "b@x.com",
                        password := "$2a$10$secret1", profilePicture := defaultProfilePicture,
                        isAdmin := false }),
       .next (some (thrown "User validation failed"))] := by
  refine ⟨by decide, by decide, by decide, by decide⟩

/-! ## Post and comment creation -/

/-- C15. `creaPost` decision: a caller who is not an administrator gets the
403 error whatever the body holds; an administrator gets the 400 error exactly
when title or content is missing or empty; in both cases the store is
unchanged and no store call is made; otherwise the handler makes exactly one
save attempt, for the post built from the body. -/
theorem creaPost_decision (env : Env) (s : Store) (user : TokenUser) (body : PostBody) :
    (user.isAdmin = false →
      creaPost env s user body =
        { store := s, log := [.next (some (errorHandler 403
            "...Non sei autorizzato a creare un post..."))] }) ∧
    (user.isAdmin = true →
      (nextCalls (creaPost env s user body).log =
          [some (errorHandler 400 "...Titolo e contenuto sono richiesti...")] ↔
        (truthy body.title = false ∨ truthy body.content = false))) ∧
    (user.isAdmin = true → (truthy body.title = false ∨ truthy body.content = false) →
      creaPost env s user body =
        { store := s, log := [.next (some (errorHandler 400
            "...Titolo e contenuto sono richiesti..."))] }) ∧
    (user.isAdmin = true → truthy body.title = true → truthy body.content = true →
      dbCalls (creaPost env s user body).log = [.postSave (newPostOf env user body)] ∧
      ((creaPost env s user body).store = s ∨
        (creaPost env s user body).store =
          { s with posts := s.posts ++ [{ doc := newPostOf env user body,
                                          createdAt := env.now, updatedAt := env.now }] })) := by
  have hvalid : user.isAdmin = true → truthy body.title = true → truthy body.content = true →
      creaPost env s user body =
        match saveNewPost env s (newPostOf env user body) with
        | .error e =>
          { store := s, log := [.db (.postSave (newPostOf env user body)), .next (some e)] }
        | .ok s' =>
          { store := s', log := [.db (.postSave (newPostOf env user body)),
              .json 201 (.post (some { doc := newPostOf env user body, createdAt := env.now,
                                       updatedAt := env.now }))] } := by
    intro ha ht hc
    unfold creaPost
    simp only [ha, ht, hc, Bool.not_true, Bool.false_eq_true, if_false, Bool.or_self]
  have hsave : ∀ e, saveNewPost env s (newPostOf env user body) = .error e →
      e.statusCode = none := by
    intro e he
    unfold saveNewPost at he
    split at he
    · cases he; rfl
    · split at he
      · cases he; rfl
      · cases he
  have hbad : user.isAdmin = true → (truthy body.title = false ∨ truthy body.content = false) →
      creaPost env s user body =
        { store := s, log := [.next (some (errorHandler 400
            "...Titolo e contenuto sono richiesti..."))] } := by
    intro ha hb
    unfold creaPost
    have : (!truthy body.title || !truthy body.content) = true := by
      rcases hb with h | h <;> simp [h]
    simp only [ha, this, Bool.not_true, Bool.false_eq_true, if_false, if_true, Outcome.failed]
  refine ⟨?_, ?_, hbad, ?_⟩
  · intro ha
    unfold creaPost
    simp only [ha, Bool.not_false, if_true, Outcome.failed]
  · intro ha
    constructor
    · intro hn
      by_contra hcon
      push_neg at hcon
      simp only [ne_eq, Bool.not_eq_false] at hcon
      rw [hvalid ha hcon.1 hcon.2] at hn
      cases hs : saveNewPost env s (newPostOf env user body) with
      | error e =>
        rw [hs] at hn
        simp only [nextCalls, List.cons.injEq, Option.some.injEq, and_true] at hn
        have := hsave e hs
        rw [hn] at this
        cases this
      | ok s' =>
        rw [hs] at hn
        simp [nextCalls] at hn
    · intro hb
      rw [hbad ha hb]
      rfl
  · intro ha ht hc
    rw [hvalid ha ht hc]
    cases hs : saveNewPost env s (newPostOf env user body) with
    | error e => exact ⟨rfl, Or.inl rfl⟩
    | ok s' =>
      refine ⟨rfl, Or.inr ?_⟩
      unfold saveNewPost at hs
      split at hs
      · cases hs
      · split at hs
        · cases hs
        · cases hs
          rfl

/-- Witness for C15: alice is refused, the administrator is refused without a
title, and the administrator's complete post is saved once. -/
theorem creaPost_decision_witness :
    creaPost sampleEnv sampleStore aliceSession
        { title := none, content := none, category := none, image := none, slug := none,
          userId := none } =
      { store := sampleStore, log := [.next (some (errorHandler 403
          "...Non sei autorizzato a creare un post..."))] } ∧
    creaPost sampleEnv sampleStore rootSession
        { title := some "", content := some "x", category := none, image := none,
          slug := none, userId := none } =
      { store := sampleStore, log := [.next (some (errorHandler 400
          "...Titolo e contenuto sono richiesti..."))] } ∧
    dbCalls (creaPost sampleEnv sampleStore rootSession
        { title := some "Nuovo Post", content := some "x", category := none, image := none,
          slug := some "forged", userId := some "u1" }).log =
      [.postSave { _id := "n1", userId := "u2", content := "x", title := "Nuovo Post",
                   image := defaultPostImage, category := "uncategorized",
                   slug := "nuovo-post" }] :=
  ⟨(creaPost_decision sampleEnv sampleStore aliceSession _).1 (by decide),
   (creaPost_decision sampleEnv sampleStore rootSession _).2.2.1 (by decide)
      (Or.inl (by decide)),
   ((creaPost_decision sampleEnv sampleStore rootSession
      { title := some "Nuovo Post", content := some "x", category := none, image := none,
        slug := some "forged", userId := some "u1" }).2.2.2 (by decide) (by decide)
      (by decide)).1⟩

/-- C16, counterexample.  Alice sends her own id as `userId` but no content
(or an empty one): the schema requires `content`, the save is refused, the
store is unchanged and `next` receives the validation error; no comment is
persisted. -/
theorem creaCommento_without_content :
    creaCommento sampleEnv sampleStore aliceSession none (some "p1") (some "u1") =
      { store := sampleStore,
        log := [.db (.commentSave { _id := "n1", content := "", postId := "p1", userId := "u1",
                                    likes := [], numberOfLikes := 0 }),
                .next (some (thrown "Comment validation failed"))] } ∧
    (creaCommento sampleEnv sampleStore aliceSession (some "") (some "p1")
      (some "u1")).store.comments = sampleStore.comments ∧
    responses (creaCommento sampleEnv sampleStore aliceSession (some "") (some "p1")
      (some "u1")).log = [] := by
  refine ⟨by decide, by decide, by decide⟩

/-- C16, amended.  `creaCommento`: a body `userId` different from the caller
id gives the 403 error and nothing is persisted.  Otherwise, with a non-empty
content and postId (the schema requires them) and a fresh `_id`, exactly one
comment is persisted, holding the given content, postId and userId with
`likes = []` and `numberOfLikes = 0`, and it is returned with status 200; with
content or postId missing or empty the save is refused and nothing is
persisted.  No other field of the body reaches the comment. -/
theorem creaCommento_spec (env : Env) (s : Store) (user : TokenUser)
    (content postId userId : Option String) :
    (userId ≠ some user.id →
      creaCommento env s user content postId userId =
        { store := s, log := [.next (some (errorHandler 403
            "...Non sei autorizzato a commentare..."))] }) ∧
    (userId = some user.id → user.id ≠ "" →
      truthy content = true → truthy postId = true →
      findById Comment._id s.comments env.newId = none →
      creaCommento env s user content postId userId =
        { store := { s with comments := s.comments ++
            [{ doc := { _id := env.newId, content := content.getD "",
                        postId := postId.getD "", userId := user.id, likes := [],
                        numberOfLikes := 0 },
               createdAt := env.now, updatedAt := env.now }] },
          log := [.db (.commentSave { _id := env.newId, content := content.getD "",
                                      postId := postId.getD "", userId := user.id,
                                      likes := [], numberOfLikes := 0 }),
                  .json 200 (.comment (some
                    { doc := { _id := env.newId, content := content.getD "",
                               postId := postId.getD "", userId := user.id, likes := [],
                               numberOfLikes := 0 },
                      createdAt := env.now, updatedAt := env.now }))] }) ∧
    (userId = some user.id → (truthy content = false ∨ truthy postId = false) →
      (creaCommento env s user content postId userId).store = s ∧
      nextCalls (creaCommento env s user content postId userId).log =
        [some (thrown "Comment validation failed")] ∧
      responses (creaCommento env s user content postId userId).log = []) := by
  refine ⟨?_, ?_, ?_⟩
  · intro h
    unfold creaCommento
    simp only [h, ne_eq, not_false_eq_true, if_true, Outcome.failed]
  · intro hu hid hc hp hfresh
    subst hu
    have hself : truthy (some user.id) = true := by
      simp [truthy, hid]
    have hv : validComment content postId (some user.id) = true := by
      simp only [validComment, hc, hp, hself, Bool.and_self]
    unfold creaCommento
    simp only [ne_eq, not_true_eq_false, if_false, hv, Bool.not_true, Bool.false_eq_true,
      hfresh, Option.isSome_none, insertNew, Option.getD_some]
  · intro hu hbad
    subst hu
    have hv : validComment content postId (some user.id) = false := by
      rcases hbad with h | h <;> simp [validComment, h]
    unfold creaCommento
    simp only [ne_eq, not_true_eq_false, if_false, hv, Bool.not_false, if_true]
    exact ⟨trivial, rfl, rfl⟩

/-- Witness for C16: a stranger's id is refused, alice's comment is stored. -/
theorem creaCommento_spec_witness :
    creaCommento sampleEnv sampleStore aliceSession (some "ciao") (some "p1") (some "u2") =
      { store := sampleStore, log := [.next (some (errorHandler 403
          "...Non sei autorizzato a commentare..."))] } ∧
    (creaCommento sampleEnv sampleStore aliceSession (some "ciao") (some "p1")
        (some "u1")).store.comments =
      [comment1, comment2,
       { doc := { _id := "n1", content := "ciao", postId := "p1", userId := "u1", likes := [],
                  numberOfLikes := 0 },
         createdAt := 1000, updatedAt := 1000 }] ∧
    (creaCommento sampleEnv sampleStore aliceSession none (some "p1") (some "u1")).store =
      sampleStore :=
  ⟨(creaCommento_spec sampleEnv sampleStore aliceSession (some "ciao") (some "p1")
      (some "u2")).1 (by decide),
   congrArg (fun o => o.store.comments)
     ((creaCommento_spec sampleEnv sampleStore aliceSession (some "ciao") (some "p1")
       (some "u1")).2.1 (by decide) (by decide) (by decide) (by decide) (by decide)),
   ((creaCommento_spec sampleEnv sampleStore aliceSession none (some "p1")
      (some "u1")).2.2 (by decide) (Or.inl (by decide))).1⟩

/-! ## Usernames and user administration -/

/-- C17, failing input.  `registrazione` with the username `Bob` stores a user
named `Bob` and answers with the success message; a first `google` sign-in
under the name `A` stores the username `a7206`, and under the name
`Jean-Luc Picard` the username `jean-lucpicard7206`.  None of the three
usernames has 6 to 18 lowercase letters or digits.  `aggiornaUtente` refuses
the username `Bob` with the 400 error. -/
theorem creation_stores_nonconforming_username :
    (registrazione sampleEnv sampleStore (some "Bob") (some "b@x.com")
        (some "secret1")).store.users.map (fun u => u.doc.username) =
      ["alice01", "rootadmin", "Bob"] ∧
    responses (registrazione sampleEnv sampleStore (some "Bob") (some "b@x.com")
        (some "secret1")).log =
      [(200, .text "...Registrazione effettuata con successo...")] ∧
    conformingUsername "Bob" = false ∧
    (google sampleEnv sampleStore (some "A") (some "b@x.com")
        none).store.users.map (fun u => u.doc.username) =
      ["alice01", "rootadmin", "a7206"] ∧
    conformingUsername "a7206" = false ∧
    (google sampleEnv sampleStore (some "Jean-Luc Picard") (some "b@x.com")
        none).store.users.map (fun u => u.doc.username) =
      ["alice01", "rootadmin", "jean-lucpicard7206"] ∧
    conformingUsername "jean-lucpicard7206" = false ∧
    aggiornaUtente sampleEnv sampleStore aliceSession "u1" (some "Bob") none none none =
      { store := sampleStore, log := [.next (some (errorHandler 400
          "...L'username deve essere lungo tra i 6 e 18 caratteri..."))] } := by
  refine ⟨by decide, by decide, by decide, by decide, by decide, by decide, by decide,
    by decide⟩

/-- C18. `aggiornaUtente` is self-only: a caller whose id differs from the
path `userId`, administrator or not, gets the authorization error (status
401) as the only outcome, whatever the body holds, valid or not; the store is
unchanged and no store call is made. -/
theorem aggiornaUtente_self_only (env : Env) (s : Store) (user : TokenUser) (userId : String)
    (username email profilePicture password : Option String) (h : user.id ≠ userId) :
    aggiornaUtente env s user userId username email profilePicture password =
      { store := s, log := [.next (some (errorHandler 401 "...Non autorizzato..."))] } := by
  unfold aggiornaUtente
  simp only [h, ne_eq, not_false_eq_true, if_true, Outcome.failed]

/-- Witness for C18: an administrator patching alice with an invalid username
and password. -/
theorem aggiornaUtente_self_only_witness :
    aggiornaUtente sampleEnv sampleStore otherAdminSession "u1" (some "X y") none none
        (some "abc") =
      { store := sampleStore,
        log := [.next (some (errorHandler 401 "...Non autorizzato..."))] } :=
  aggiornaUtente_self_only sampleEnv sampleStore otherAdminSession "u1" (some "X y") none none
    (some "abc") (by decide)

/-- C19. `eliminaUtente` follows the self-or-admin rule: the delete is issued,
and a stored user with the path `userId` is removed, exactly when the caller
id equals the path `userId` or the caller is an administrator; otherwise the
only outcome is the 403 error and the store is unchanged.  Posts and comments
are not touched. -/
theorem eliminaUtente_self_or_admin (s : Store) (user : TokenUser) (userId : String) :
    ((∃ call ∈ dbCalls (eliminaUtente s user userId).log, call.isWrite = true) ↔
      (user.id = userId ∨ user.isAdmin = true)) ∧
    (∀ u, findById User._id s.users userId = some u →
      ((eliminaUtente s user userId).store.users = s.users.erase u ↔
        (user.id = userId ∨ user.isAdmin = true))) ∧
    (¬ (user.id = userId ∨ user.isAdmin = true) →
      eliminaUtente s user userId =
        { store := s, log := [.next (some (errorHandler 403 "...Non autorizzato..."))] }) ∧
    ((user.id = userId ∨ user.isAdmin = true) →
      (eliminaUtente s user userId).log =
        [.db (.userFindByIdAndDelete userId), .json 200 (.text "...Utente eliminato...")] ∧
      (eliminaUtente s user userId).store.posts = s.posts ∧
      (eliminaUtente s user userId).store.comments = s.comments ∧
      (findById User._id s.users userId = none →
        (eliminaUtente s user userId).store.users = s.users)) := by
  by_cases hauth : user.id = userId ∨ user.isAdmin = true
  · have hcond : (!user.isAdmin && decide (user.id ≠ userId)) = false := by
      rcases hauth with h | h <;> simp [h]
    have hres : eliminaUtente s user userId =
        { store := { s with users := findByIdAndDelete User._id s.users userId },
          log := [.db (.userFindByIdAndDelete userId),
            .json 200 (.text "...Utente eliminato...")] } := by
      unfold eliminaUtente
      simp only [hcond, Bool.false_eq_true, if_false]
    rw [hres]
    refine ⟨?_, ?_, fun h => absurd hauth h, fun _ => ⟨rfl, rfl, rfl, ?_⟩⟩
    · simp [dbCalls, DbCall.isWrite, hauth]
    · intro u hu
      simp only [hauth, iff_true, findByIdAndDelete]
      exact eraseP_eq_erase_of_find (fun d : Stamped User => d.doc._id == userId) s.users u hu
    · intro hnone
      simp only [findByIdAndDelete]
      unfold findById at hnone
      rw [List.find?_eq_none] at hnone
      exact List.eraseP_of_forall_not (fun a ha => by simpa using hnone a ha)
  · have hcond : (!user.isAdmin && decide (user.id ≠ userId)) = true := by
      push_neg at hauth
      simp [hauth.1, hauth.2]
    have hres : eliminaUtente s user userId =
        { store := s, log := [.next (some (errorHandler 403 "...Non autorizzato..."))] } := by
      unfold eliminaUtente
      simp only [hcond, if_true, Outcome.failed]
    rw [hres]
    refine ⟨?_, ?_, fun _ => rfl, fun h => absurd h hauth⟩
    · simp [dbCalls, hauth]
    · intro u hu
      simp only [hauth, iff_false]
      intro heq
      have hmem : u ∈ s.users := findById_mem hu
      have hlen := List.length_erase_of_mem hmem
      rw [← heq] at hlen
      have hpos : 0 < s.users.length := List.length_pos_of_mem hmem
      omega

/-- Witness for C19: a stranger is refused; alice and the administrator each
delete alice. -/
theorem eliminaUtente_self_or_admin_witness :
    eliminaUtente sampleStore guestSession "u1" =
      { store := sampleStore,
        log := [.next (some (errorHandler 403 "...Non autorizzato..."))] } ∧
    (eliminaUtente sampleStore aliceSession "u1").store.users = sampleStore.users.erase alice ∧
    (eliminaUtente sampleStore rootSession "u1").store.users = sampleStore.users.erase alice :=
  ⟨(eliminaUtente_self_or_admin sampleStore guestSession "u1").2.2.1 (by decide),
   ((eliminaUtente_self_or_admin sampleStore aliceSession "u1").2.1 alice (by decide)).mpr
      (Or.inl (by decide)),
   ((eliminaUtente_self_or_admin sampleStore rootSession "u1").2.1 alice (by decide)).mpr
      (Or.inr (by decide))⟩

/-- C20, counterexample.  An administrator asks for the listings with the
start index -1: the store refuses the negative skip, `next` receives that
error and no page is returned. -/
theorem admin_listing_negative_start :
    (getUsers sampleEnv sampleStore rootSession (some (-1)) none none).log =
      [.db .userFind, .next (some (thrown "Skip value must be non-negative"))] ∧
    responses (getUsers sampleEnv sampleStore rootSession (some (-1)) none none).log = [] ∧
    (getComments sampleEnv sampleStore rootSession (some (-1)) none none).log =
      [.db .commentFind, .next (some (thrown "Skip value must be non-negative"))] ∧
    responses (getComments sampleEnv sampleStore rootSession (some (-1)) none none).log = [] := by
  refine ⟨by decide, by decide, by decide, by decide⟩

/-- C20, amended.  Admin-only listings: a caller who is not an administrator
gets the 403 error from `getUsers` and `getComments` and the store is not
read; an administrator asking with a non-negative start index gets a 200
response holding the requested page (users without their password), the total
count and the count of documents created since one calendar month ago. -/
theorem admin_only_listings (env : Env) (s : Store) (user : TokenUser)
    (startIndex limit : Option Int) (sort : Option String) :
    (user.isAdmin = false →
      getUsers env s user startIndex limit sort =
        { store := s, log := [.next (some (errorHandler 403 "...Non autorizzato..."))] } ∧
      getComments env s user startIndex limit sort =
        { store := s, log := [.next (some (errorHandler 403 "...Non sei autorizzato..."))] }) ∧
    (user.isAdmin = true → 0 ≤ parseOr startIndex 0 →
      getUsers env s user startIndex limit sort =
        { store := s,
          log := [.db .userFind, .db .userCount, .db .userCount,
            .json 200 (.userPage
              ((findPage s.users (if sort = some "asc" then 1 else -1)
                (parseOr startIndex 0).toNat (parseOr limit 9)).map
                  (fun u => withoutPassword (userDoc u)))
              s.users.length
              (s.users.countP (fun u => decide (env.oneMonthAgo ≤ u.createdAt))))] } ∧
      getComments env s user startIndex limit sort =
        { store := s,
          log := [.db .commentFind, .db .commentCount, .db .commentCount,
            .json 200 (.commentPage
              (findPage s.comments (if sort = some "desc" then -1 else 1)
                (parseOr startIndex 0).toNat (parseOr limit 9))
              s.comments.length
              (s.comments.countP (fun c => decide (env.oneMonthAgo ≤ c.createdAt))))] }) := by
  constructor
  · intro ha
    unfold getUsers getComments
    simp only [ha, Bool.not_false, if_true, Outcome.failed, and_self]
  · intro ha hstart
    have hneg : ¬ parseOr startIndex 0 < 0 := by omega
    unfold getUsers getComments
    simp only [ha, Bool.not_true, Bool.false_eq_true, if_false, hneg, and_self]

/-- Witness for C20: alice is refused, the administrator gets both pages. -/
theorem admin_only_listings_witness :
    (getUsers sampleEnv sampleStore aliceSession none none none =
        { store := sampleStore,
          log := [.next (some (errorHandler 403 "...Non autorizzato..."))] } ∧
      getComments sampleEnv sampleStore aliceSession none none none =
        { store := sampleStore,
          log := [.next (some (errorHandler 403 "...Non sei autorizzato..."))] }) ∧
    responses (getComments sampleEnv sampleStore rootSession none none none).log =
      [(200, .commentPage [comment1, comment2] 2 0)] :=
  ⟨(admin_only_listings sampleEnv sampleStore aliceSession none none none).1 (by decide),
   (congrArg (fun o => responses o.log)
     ((admin_only_listings sampleEnv sampleStore rootSession none none none).2 (by decide)
       (by decide)).2).trans (by decide)⟩

/-! ## Federated sign-in and duplicate registration -/

theorem google_existing (env : Env) (s : Store) (name photo : Option String) (e : String)
    (u : Stamped User) (h : findOneByEmail s.users (some e) = some u) :
    google env s name (some e) photo =
      { store := s,
        log := [.db (.userFindOne (some e)),
          .cookie "access_token" (tokenFor env u) (sessionCookieOptions env),
          .json 200 (.object (withoutPassword (userDoc u)))] } := by
  unfold google
  simp only [h]

theorem google_new (env : Env) (s : Store) (name photo : Option String) (e : String)
    (h : findOneByEmail s.users (some e) = none) :
    ((google env s name (some e) photo).store = s ∧
      responses (google env s name (some e) photo).log = []) ∨
    ∃ saved : Stamped User, saved.doc.email = e ∧ saved.doc._id = env.newId ∧
      (google env s name (some e) photo).store = { s with users := s.users ++ [saved] } ∧
      responses (google env s name (some e) photo).log =
        [(200, .object (withoutPassword (userDoc saved)))] ∧
      cookiesSet (google env s name (some e) photo).log =
        [("access_token", tokenFor env saved)] := by
  unfold google
  simp only [h]
  cases name with
  | none => left; exact ⟨rfl, rfl⟩
  | some n =>
    simp only
    split
    · left; exact ⟨rfl, rfl⟩
    · rename_i s' hs
      right
      unfold saveNewUser at hs
      split at hs
      · cases hs
      · split at hs
        · cases hs
        · cases hs
          exact ⟨_, rfl, rfl, rfl, rfl, rfl⟩

theorem usersWithEmail_pos_of_find {s : Store} {e : String} {u : Stamped User}
    (h : findOneByEmail s.users (some e) = some u) : 0 < usersWithEmail s e := by
  unfold usersWithEmail
  rw [List.countP_pos_iff]
  simp only [findOneByEmail] at h
  have hp : (u.doc.email == e) = true := by
    have := List.find?_some h
    simpa using this
  exact ⟨u, List.mem_of_find?_eq_some h, hp⟩

theorem usersWithEmail_zero_of_find {s : Store} {e : String}
    (h : findOneByEmail s.users (some e) = none) : usersWithEmail s e = 0 := by
  unfold usersWithEmail
  rw [List.countP_eq_zero]
  simp only [findOneByEmail, List.find?_eq_none] at h
  exact h

/-- C21, counterexample.  The store holds a user named `bobrossi7206` under
another email.  A first federated sign-in of `Bob Rossi` with a new email
synthesizes that same username: the unique index refuses the save, `next`
receives the error, no `_id` is returned, and after two such calls no user
with that email is stored. -/
theorem google_username_collision :
    (google sampleEnv collisionStore (some "Bob Rossi") (some "b@x.com") (some "ph")).log =
      [.db (.userFindOne (some "b@x.com")), .hashSync "yo82mvyrv0q9d1ta" 10,
       .db (.userSave { _id := "n1", username := "bobrossi7206", email := "b@x.com",
                        password := "$2a$10$yo82mvyrv0q9d1ta", profilePicture := "ph",
                        isAdmin := false }),
       .next (some (thrown "E11000 duplicate key error"))] ∧
    responses (google sampleEnv collisionStore (some "Bob Rossi") (some "b@x.com")
      (some "ph")).log = [] ∧
    responses (google sampleEnv
      (google sampleEnv collisionStore (some "Bob Rossi") (some "b@x.com") (some "ph")).store
      (some "Bob Rossi") (some "b@x.com") (some "ph")).log = [] ∧
    usersWithEmail (google sampleEnv
      (google sampleEnv collisionStore (some "Bob Rossi") (some "b@x.com") (some "ph")).store
      (some "Bob Rossi") (some "b@x.com") (some "ph")).store "b@x.com" = 0 := by
  refine ⟨by decide, by decide, by decide, by decide⟩

/-- C21, amended.  Federated sign-in never duplicates a user.  If a user with
the email exists, `google` leaves the store unchanged (the supplied name and
photo are not written) and sets a token for that user's id.  Of two
consecutive `google` calls with the same email on a store with at most one
user for it, when the first one answers, both answer with the same user
record (the same `_id`) and exactly one user with that email is stored; in
every case at most one is. -/
theorem google_never_duplicates (s : Store) (e : String) :
    (∀ env name photo u, findOneByEmail s.users (some e) = some u →
      google env s name (some e) photo =
        { store := s,
          log := [.db (.userFindOne (some e)),
            .cookie "access_token"
              (env.sign { id := u.doc._id, isAdmin := u.doc.isAdmin } env.JWT_SECRET)
              (sessionCookieOptions env),
            .json 200 (.object (withoutPassword (userDoc u)))] }) ∧
    (∀ env₁ env₂ name₁ name₂ photo₁ photo₂, usersWithEmail s e ≤ 1 →
      responses (google env₁ s name₁ (some e) photo₁).log ≠ [] →
      ∃ u : Stamped User,
        responses (google env₁ s name₁ (some e) photo₁).log =
          [(200, .object (withoutPassword (userDoc u)))] ∧
        responses (google env₂ (google env₁ s name₁ (some e) photo₁).store name₂ (some e)
            photo₂).log =
          [(200, .object (withoutPassword (userDoc u)))] ∧
        usersWithEmail (google env₂ (google env₁ s name₁ (some e) photo₁).store name₂
          (some e) photo₂).store e = 1) ∧
    (∀ env₁ env₂ name₁ name₂ photo₁ photo₂, usersWithEmail s e ≤ 1 →
      usersWithEmail (google env₂ (google env₁ s name₁ (some e) photo₁).store name₂
        (some e) photo₂).store e ≤ 1) := by
  have step : ∀ (env : Env) (t : Store) (name photo : Option String),
      usersWithEmail t e ≤ 1 → usersWithEmail (google env t name (some e) photo).store e ≤ 1 := by
    intro env t name photo ht
    cases hf : findOneByEmail t.users (some e) with
    | some u => rw [google_existing env t name photo e u hf]; exact ht
    | none =>
      rcases google_new env t name photo e hf with ⟨h1, _⟩ | ⟨saved, hem, _, hst, _, _⟩
      · rw [h1]; exact ht
      · rw [hst]
        have h0 := usersWithEmail_zero_of_find hf
        unfold usersWithEmail at h0 ⊢
        simp [List.countP_append, h0, hem]
  refine ⟨?_, ?_, ?_⟩
  · intro env name photo u hu
    exact google_existing env s name photo e u hu
  · intro env₁ env₂ name₁ name₂ photo₁ photo₂ hone hresp
    cases hf : findOneByEmail s.users (some e) with
    | some u =>
      have h1 := google_existing env₁ s name₁ photo₁ e u hf
      have h2 := google_existing env₂ s name₂ photo₂ e u hf
      have hpos := usersWithEmail_pos_of_find hf
      rw [h1]
      simp only
      rw [h2]
      exact ⟨u, rfl, rfl, by simp only; omega⟩
    | none =>
      rcases google_new env₁ s name₁ photo₁ e hf with ⟨_, h2⟩ | ⟨saved, hem, _, hst, hr, _⟩
      · exact absurd h2 hresp
      · have hf2 : findOneByEmail ({ s with users := s.users ++ [saved] } : Store).users
            (some e) = some saved := by
          simp only [findOneByEmail] at hf ⊢
          rw [List.find?_append, hf]
          simp [List.find?_cons, hem]
        have h2 := google_existing env₂ _ name₂ photo₂ e saved hf2
        refine ⟨saved, hr, ?_, ?_⟩
        · rw [hst, h2]
          rfl
        · rw [hst, h2]
          have h0 := usersWithEmail_zero_of_find hf
          unfold usersWithEmail at h0 ⊢
          simp [List.countP_append, h0, hem]
  · intro env₁ env₂ name₁ name₂ photo₁ photo₂ hone
    exact step env₂ _ name₂ photo₂ (step env₁ s name₁ photo₁ hone)

/-- Witness for C21: alice signs in through `google`, then a new user signs in
twice. -/
theorem google_never_duplicates_witness :
    google sampleEnv sampleStore (some "Mallory") (some "a@x.com") (some "ph") =
      { store := sampleStore,
        log := [.db (.userFindOne (some "a@x.com")),
          .cookie "access_token" "kUu1" (sessionCookieOptions sampleEnv),
          .json 200 (.object (withoutPassword (userDoc alice)))] } ∧
    (∃ u : Stamped User,
      responses (google sampleEnv sampleStore (some "Bob Rossi") (some "b@x.com")
          (some "ph")).log =
        [(200, .object (withoutPassword (userDoc u)))] ∧
      responses (google sampleEnv
          (google sampleEnv sampleStore (some "Bob Rossi") (some "b@x.com") (some "ph")).store
          (some "Robert") (some "b@x.com") (some "other")).log =
        [(200, .object (withoutPassword (userDoc u)))] ∧
      usersWithEmail (google sampleEnv
          (google sampleEnv sampleStore (some "Bob Rossi") (some "b@x.com") (some "ph")).store
          (some "Robert") (some "b@x.com") (some "other")).store "b@x.com" = 1) :=
  ⟨(google_never_duplicates sampleStore "a@x.com").1 sampleEnv (some "Mallory") (some "ph")
      alice (by decide),
   (google_never_duplicates sampleStore "b@x.com").2.1 sampleEnv sampleEnv (some "Bob Rossi")
      (some "Robert") (some "ph") (some "other") (by decide) (by decide)⟩

theorem nextCalls_append (xs ys : List Event) :
    nextCalls (xs ++ ys) = nextCalls xs ++ nextCalls ys := by
  induction xs with
  | nil => rfl
  | cons x xs ih => cases x <;> simp [nextCalls, ih]

theorem saveNewUser_duplicate_email (env : Env) (s : Store) (nu : User)
    (h : ∃ u ∈ s.users, u.doc.email = nu.email) :
    saveNewUser env s nu = .error (thrown "User validation failed") ∨
    saveNewUser env s nu = .error (thrown "E11000 duplicate key error") := by
  unfold saveNewUser
  split
  · left; rfl
  · right
    obtain ⟨u, hu, he⟩ := h
    have hany : (s.users.any fun x =>
        x.doc._id == nu._id || x.doc.username == nu.username || x.doc.email == nu.email)
        = true := by
      rw [List.any_eq_true]
      exact ⟨u, hu, by simp [he]⟩
    simp only [hany, if_true]

/-- C22, counterexample.  A second registration under alice's email, with all
fields present: the store refuses the save with its duplicate-key error, which
carries no `statusCode`, and the error middleware answers it with status 500
and the message of the store; the response is not a Conflict (409) nor a
validation failure (400). -/
theorem registrazione_duplicate_answers_500 :
    nextCalls (registrazione sampleEnv sampleStore (some "carla01") (some "a@x.com")
        (some "secret1")).log = [some (thrown "E11000 duplicate key error")] ∧
    (thrown "E11000 duplicate key error").statusCode = none ∧
    (errorMiddleware (thrown "E11000 duplicate key error")).status = 500 ∧
    (errorMiddleware (thrown "E11000 duplicate key error")).status ≠ 409 ∧
    (errorMiddleware (thrown "E11000 duplicate key error")).status ≠ 400 ∧
    (errorMiddleware (thrown "E11000 duplicate key error")).message =
      "E11000 duplicate key error" ∧
    (registrazione sampleEnv sampleStore (some "carla01") (some "a@x.com")
        (some "secret1")).store = sampleStore := by
  refine ⟨by decide, by decide, by decide, by decide, by decide, by decide, by decide⟩

/-- C22, amended.  Duplicate email registration: on a store that already holds
a user with email `e`, `registrazione` with email `e` never persists a second
user (the store is unchanged), sends no success response and passes an error
to `next`; every error it passes is answered by the error middleware with
status 400 or 500.  With a non-empty username and password the only error is
the store's duplicate-key (or validation) error, which carries no `statusCode`:
the error middleware answers it with status 500 and the message of the
store. -/
theorem registrazione_duplicate_email (env : Env) (s : Store) (username password : Option String)
    (e : String) (h : ∃ u ∈ s.users, u.doc.email = e) :
    (registrazione env s username (some e) password).store = s ∧
    responses (registrazione env s username (some e) password).log = [] ∧
    nextCalls (registrazione env s username (some e) password).log ≠ [] ∧
    (∀ x ∈ nextCalls (registrazione env s username (some e) password).log,
      ∃ err, x = some err ∧
        ((errorMiddleware err).status = 400 ∨ (errorMiddleware err).status = 500)) ∧
    (truthy username = true → truthy password = true → e ≠ "" →
      ∃ err, nextCalls (registrazione env s username (some e) password).log = [some err] ∧
        (err = thrown "E11000 duplicate key error" ∨ err = thrown "User validation failed") ∧
        err.statusCode = none ∧
        (errorMiddleware err).success = false ∧
        (errorMiddleware err).status = 500 ∧
        (errorMiddleware err).statusCode = 500 ∧
        (errorMiddleware err).message = err.message) := by
  cases password with
  | none =>
    have hres : registrazione env s username (some e) none =
        { store := s,
          log := [.next (some (errorHandler 400 "...Sono richiesti tutti i campi...")),
            .uncaught (thrown "Illegal arguments: undefined, number")] } := by
      unfold registrazione
      simp [truthy]
    rw [hres]
    refine ⟨rfl, rfl, by simp [nextCalls], ?_, ?_⟩
    · intro x hx
      simp only [nextCalls, List.mem_singleton] at hx
      exact ⟨_, hx, Or.inl (by decide)⟩
    · intro _ hp
      simp [truthy] at hp
  | some pw =>
    have hdup := saveNewUser_duplicate_email env s
      { _id := env.newId, username := username.getD "", email := e,
        password := env.hashSync pw 10, profilePicture := defaultProfilePicture,
        isAdmin := false } h
    have hmid : ∀ err, (err = thrown "E11000 duplicate key error" ∨
        err = thrown "User validation failed") →
        err.statusCode = none ∧ (errorMiddleware err).success = false ∧
        (errorMiddleware err).status = 500 ∧ (errorMiddleware err).statusCode = 500 ∧
        (errorMiddleware err).message = err.message := by
      intro err herr
      rcases herr with rfl | rfl <;> exact ⟨rfl, rfl, by decide, by decide, by decide⟩
    have hearly : ∀ x ∈ nextCalls (if (!truthy username || !truthy (some e) ||
        !truthy (some pw) || username == some "" || some e == some "" ||
        some pw == some "") = true
        then [Event.next (some (errorHandler 400 "...Sono richiesti tutti i campi..."))]
        else []),
        ∃ err, x = some err ∧
          ((errorMiddleware err).status = 400 ∨ (errorMiddleware err).status = 500) := by
      intro x hx
      split at hx
      · simp only [nextCalls, List.mem_singleton] at hx
        exact ⟨_, hx, Or.inl (by decide)⟩
      · simp [nextCalls] at hx
    have hall : ∀ err0, (err0 = thrown "E11000 duplicate key error" ∨
        err0 = thrown "User validation failed") →
        ∀ x ∈ nextCalls (if (!truthy username || !truthy (some e) ||
          !truthy (some pw) || username == some "" || some e == some "" ||
          some pw == some "") = true
          then [Event.next (some (errorHandler 400 "...Sono richiesti tutti i campi..."))]
          else []) ++
          nextCalls [Event.hashSync pw 10,
            Event.db (DbCall.userSave
              { _id := env.newId, username := username.getD "", email := e,
                password := env.hashSync pw 10, profilePicture := defaultProfilePicture,
                isAdmin := false }),
            Event.next (some err0)],
        ∃ err, x = some err ∧
          ((errorMiddleware err).status = 400 ∨ (errorMiddleware err).status = 500) := by
      intro err0 herr0 x hx
      rcases List.mem_append.mp hx with hx | hx
      · exact hearly x hx
      · simp only [nextCalls, List.mem_singleton] at hx
        exact ⟨err0, hx, Or.inr (hmid err0 herr0).2.2.1⟩
    unfold registrazione
    simp only [Option.getD_some]
    rcases hdup with hd | hd
    · rw [hd]
      simp only [responses_append, nextCalls_append]
      refine ⟨trivial, ?_, ?_, hall _ (Or.inr rfl), ?_⟩
      · split <;> simp [responses]
      · simp [nextCalls]
      · intro hu hp he
        have hrej : (!truthy username || !truthy (some e) || !truthy (some pw) ||
            username == some "" || some e == some "" || some pw == some "") = false := by
          simp only [truthy] at hp
          have hpw : pw ≠ "" := by simpa using hp
          cases username with
          | none => simp [truthy] at hu
          | some un =>
            have hun : un ≠ "" := by simpa [truthy] using hu
            simp [truthy, he, hpw, hun]
        simp only [hrej, Bool.false_eq_true, if_false, nextCalls, List.nil_append]
        exact ⟨_, rfl, Or.inr rfl, hmid _ (Or.inr rfl)⟩
    · rw [hd]
      simp only [responses_append, nextCalls_append]
      refine ⟨trivial, ?_, ?_, hall _ (Or.inl rfl), ?_⟩
      · split <;> simp [responses]
      · simp [nextCalls]
      · intro hu hp he
        have hrej : (!truthy username || !truthy (some e) || !truthy (some pw) ||
            username == some "" || some e == some "" || some pw == some "") = false := by
          simp only [truthy] at hp
          have hpw : pw ≠ "" := by simpa using hp
          cases username with
          | none => simp [truthy] at hu
          | some un =>
            have hun : un ≠ "" := by simpa [truthy] using hu
            simp [truthy, he, hpw, hun]
        simp only [hrej, Bool.false_eq_true, if_false, nextCalls, List.nil_append]
        exact ⟨_, rfl, Or.inl rfl, hmid _ (Or.inl rfl)⟩

/-- Witness for C22: a second registration under alice's email is answered
with status 500 and the duplicate-key message of the store. -/
theorem registrazione_duplicate_email_witness :
    (registrazione sampleEnv sampleStore (some "carla01") (some "a@x.com")
        (some "secret1")).store = sampleStore ∧
    responses (registrazione sampleEnv sampleStore (some "carla01") (some "a@x.com")
        (some "secret1")).log = [] ∧
    nextCalls (registrazione sampleEnv sampleStore (some "carla01") (some "a@x.com")
        (some "secret1")).log ≠ [] ∧
    (∃ err, nextCalls (registrazione sampleEnv sampleStore (some "carla01") (some "a@x.com")
        (some "secret1")).log = [some err] ∧
      (err = thrown "E11000 duplicate key error" ∨ err = thrown "User validation failed") ∧
      err.statusCode = none ∧
      (errorMiddleware err).success = false ∧
      (errorMiddleware err).status = 500 ∧
      (errorMiddleware err).statusCode = 500 ∧
      (errorMiddleware err).message = err.message) :=
  ⟨(registrazione_duplicate_email sampleEnv sampleStore (some "carla01") (some "secret1")
      "a@x.com" ⟨alice, by decide, by decide⟩).1,
   (registrazione_duplicate_email sampleEnv sampleStore (some "carla01") (some "secret1")
      "a@x.com" ⟨alice, by decide, by decide⟩).2.1,
   (registrazione_duplicate_email sampleEnv sampleStore (some "carla01") (some "secret1")
      "a@x.com" ⟨alice, by decide, by decide⟩).2.2.1,
   (registrazione_duplicate_email sampleEnv sampleStore (some "carla01") (some "secret1")
      "a@x.com" ⟨alice, by decide, by decide⟩).2.2.2.2 (by decide) (by decide) (by decide)⟩

/-! ## Error responses and session cookies -/

/-- C23, counterexample.  The duplicate-key error of the store carries no
`statusCode`: the middleware answers with status 500, and the message of the
body is the error's own message, not the generic one. -/
theorem errorMiddleware_forwards_message :
    errorMiddleware (thrown "E11000 duplicate key error") =
      { status := 500, success := false, statusCode := 500,
        message := "E11000 duplicate key error" } ∧
    (errorMiddleware (thrown "E11000 duplicate key error")).message ≠
      "Internal Server Error" ∧
    nextCalls (registrazione sampleEnv sampleStore (some "carla01") (some "a@x.com")
        (some "secret1")).log = [some (thrown "E11000 duplicate key error")] := by
  refine ⟨by decide, by decide, by decide⟩

/-- C23, amended.  Error responses: the body is `success: false, statusCode,
message` and the HTTP status equals the `statusCode` of the body; that status
is the `statusCode` of the error when it has a non-zero one and 500
otherwise; the message is the error's own message, and the generic
`Internal Server Error` only when the error has an empty message. -/
theorem errorMiddleware_spec (err : AppError) :
    (errorMiddleware err).success = false ∧
    (errorMiddleware err).status = (errorMiddleware err).statusCode ∧
    (∀ n, err.statusCode = some n → n ≠ 0 → (errorMiddleware err).status = n) ∧
    (err.statusCode = none → (errorMiddleware err).status = 500) ∧
    (err.message ≠ "" → (errorMiddleware err).message = err.message) ∧
    (err.message = "" → (errorMiddleware err).message = "Internal Server Error") := by
  unfold errorMiddleware
  refine ⟨rfl, rfl, ?_, ?_, ?_, ?_⟩
  · intro n hn h0
    simp [hn, h0]
  · intro hn
    simp [hn]
  · intro hm
    simp [hm]
  · intro hm
    simp [hm]

/-- Witness for C23: a 403 built by `errorHandler` and an error without
status or message. -/
theorem errorMiddleware_spec_witness :
    (errorMiddleware (errorHandler 403 "...Non autorizzato...")).status = 403 ∧
    (errorMiddleware (errorHandler 403 "...Non autorizzato...")).message =
      "...Non autorizzato..." ∧
    (errorMiddleware (thrown "")).status = 500 ∧
    (errorMiddleware (thrown "")).message = "Internal Server Error" :=
  ⟨(errorMiddleware_spec (errorHandler 403 "...Non autorizzato...")).2.2.1 403 rfl (by decide),
   (errorMiddleware_spec (errorHandler 403 "...Non autorizzato...")).2.2.2.2.1 (by decide),
   (errorMiddleware_spec (thrown "")).2.2.2.1 rfl,
   (errorMiddleware_spec (thrown "")).2.2.2.2.2 rfl⟩

/-- C24, failing input.  The cookie options of a successful `login` and of
`google` for an existing and for a new user: HTTP-only, not secure, expiry 12
hours after the clock reading, but no `sameSite` option: the source passes
the key `SameSite`, which the cookie serializer does not read.  The same holds
for every environment. -/
theorem session_cookie_without_sameSite :
    cookieOptionsSet (login sampleEnv sampleStore (some "a@x.com") (some "secret1")).log =
      [{ httpOnly := true, sameSite := none, secure := false, expires := 1000 + 43200000,
         other := [("SameSite", "strict")] }] ∧
    cookieOptionsSet (google sampleEnv sampleStore (some "Alice") (some "a@x.com") none).log =
      [{ httpOnly := true, sameSite := none, secure := false, expires := 1000 + 43200000,
         other := [("SameSite", "strict")] }] ∧
    cookieOptionsSet (google sampleEnv sampleStore (some "Bob Rossi") (some "b@x.com")
        none).log =
      [{ httpOnly := true, sameSite := none, secure := false, expires := 1000 + 43200000,
         other := [("SameSite", "strict")] }] ∧
    (∀ env : Env, sessionCookieOptions env =
      { httpOnly := true, sameSite := none, secure := false, expires := env.now + 43200000,
        other := [("SameSite", "strict")] }) ∧
    cookiesSet (google sampleEnv sampleStore (some "Alice") (some "a@x.com") none).log =
      [("access_token", sampleEnv.sign { id := "u1", isAdmin := false } sampleEnv.JWT_SECRET)] := by
  refine ⟨by decide, by decide, by decide, fun env => rfl, by decide⟩


/-! ## Frames of the comment edit and the post update -/

theorem modifyFirst_length {α : Type} (p : α → Bool) (f : α → α) (xs : List α) :
    (modifyFirst p f xs).length = xs.length := by
  induction xs with
  | nil => rfl
  | cons x xs ih =>
    unfold modifyFirst
    split <;> simp [ih]

theorem mem_modifyFirst_of_not {α : Type} (p : α → Bool) (f : α → α) (xs : List α) (d : α)
    (hd : d ∈ xs) (hp : p d = false) : d ∈ modifyFirst p f xs := by
  induction xs with
  | nil => cases hd
  | cons x xs ih =>
    unfold modifyFirst
    rcases List.mem_cons.mp hd with rfl | h
    · simp [hp]
    · split
      · exact List.mem_cons_of_mem _ h
      · exact List.mem_cons_of_mem _ (ih h)

/-- C25. Comment edit frame: after an authorized `modificaCommento` on an
existing comment with a supplied content, the stored comment has that content
and the same likes, `numberOfLikes`, userId and postId (and `_id` and creation
stamp) as before; every other comment is still stored unchanged, and users
and posts are untouched. -/
theorem modificaCommento_frame (env : Env) (s : Store) (user : TokenUser) (commentId : String)
    (c : Stamped Comment) (v : String)
    (hc : findById Comment._id s.comments commentId = some c)
    (hauth : c.doc.userId = user.id ∨ user.isAdmin = true) :
    (∃ c', findById Comment._id
        (modificaCommento env s user commentId (some v)).store.comments commentId = some c' ∧
      c'.doc.content = v ∧ c'.doc.likes = c.doc.likes ∧
      c'.doc.numberOfLikes = c.doc.numberOfLikes ∧ c'.doc.userId = c.doc.userId ∧
      c'.doc.postId = c.doc.postId ∧ c'.doc._id = c.doc._id ∧ c'.createdAt = c.createdAt) ∧
    (∀ k, k ≠ commentId →
      findById Comment._id (modificaCommento env s user commentId (some v)).store.comments k =
        findById Comment._id s.comments k) ∧
    (∀ d ∈ s.comments, d.doc._id ≠ commentId →
      d ∈ (modificaCommento env s user commentId (some v)).store.comments) ∧
    (modificaCommento env s user commentId (some v)).store.comments.length =
      s.comments.length ∧
    (modificaCommento env s user commentId (some v)).store.users = s.users ∧
    (modificaCommento env s user commentId (some v)).store.posts = s.posts := by
  have hcond : (decide (c.doc.userId ≠ user.id) && !user.isAdmin) = false := by
    rcases hauth with h | h <;> simp [h]
  have hcom : (modificaCommento env s user commentId (some v)).store.comments =
      modifyFirst (fun d => d.doc._id == commentId)
        (fun d => { d with doc := { d.doc with content := v }, updatedAt := env.now })
        s.comments := by
    unfold modificaCommento
    simp only [hc, hcond, findByIdAndUpdate, Bool.false_eq_true, if_false]
  have husers : (modificaCommento env s user commentId (some v)).store.users = s.users := by
    unfold modificaCommento
    simp only [hc, hcond, Bool.false_eq_true, if_false]
  have hposts : (modificaCommento env s user commentId (some v)).store.posts = s.posts := by
    unfold modificaCommento
    simp only [hc, hcond, Bool.false_eq_true, if_false]
  rw [hcom]
  refine ⟨?_, ?_, ?_, modifyFirst_length _ _ _, husers, hposts⟩
  · refine ⟨{ c with doc := { c.doc with content := v }, updatedAt := env.now }, ?_,
      rfl, rfl, rfl, rfl, rfl, rfl, rfl⟩
    rw [findById_modifyFirst Comment._id _ commentId (fun d hd => by simpa using hd)]
    simp [hc]
  · intro k hk
    rw [findById_modifyFirst Comment._id _ commentId (fun d hd => by simpa using hd)]
    simp [hk]
  · intro d hd hne
    exact mem_modifyFirst_of_not _ _ _ d hd (by simpa using hne)

/-- Witness for C25: alice edits her first comment. -/
theorem modificaCommento_frame_witness :
    (∃ c', findById Comment._id
        (modificaCommento sampleEnv sampleStore aliceSession "c2" (some "nuovo")).store.comments
          "c2" = some c' ∧
      c'.doc.content = "nuovo" ∧ c'.doc.likes = comment2.doc.likes ∧
      c'.doc.numberOfLikes = comment2.doc.numberOfLikes ∧ c'.doc.userId = comment2.doc.userId ∧
      c'.doc.postId = comment2.doc.postId ∧ c'.doc._id = comment2.doc._id ∧
      c'.createdAt = comment2.createdAt) :=
  (modificaCommento_frame sampleEnv sampleStore aliceSession "c2" comment2 "nuovo" (by decide)
    (Or.inl (by decide))).1

/-- C26. Post update frame: after an authorized `aggiornaPost`, whatever the
body carries (a slug or a userId of its own included), the targeted post
keeps its slug, userId, `_id` and creation stamp, and its title, content,
category and image are those of the body where the body has them; every
other post is still stored unchanged, and users and comments are untouched. -/
theorem aggiornaPost_frame (env : Env) (s : Store) (user : TokenUser) (postId userId : String)
    (body : PostBody) (hadmin : user.isAdmin = true) (hself : user.id = userId) :
    (∀ p, findById Post._id s.posts postId = some p →
      ∃ p', findById Post._id
          (aggiornaPostBody env s user postId userId body).store.posts postId = some p' ∧
        p'.doc.slug = p.doc.slug ∧ p'.doc.userId = p.doc.userId ∧ p'.doc._id = p.doc._id ∧
        p'.createdAt = p.createdAt ∧
        p'.doc.title = body.title.getD p.doc.title ∧
        p'.doc.content = body.content.getD p.doc.content ∧
        p'.doc.category = body.category.getD p.doc.category ∧
        p'.doc.image = body.image.getD p.doc.image) ∧
    (∀ k, k ≠ postId →
      findById Post._id (aggiornaPostBody env s user postId userId body).store.posts k =
        findById Post._id s.posts k) ∧
    (∀ d ∈ s.posts, d.doc._id ≠ postId →
      d ∈ (aggiornaPostBody env s user postId userId body).store.posts) ∧
    (aggiornaPostBody env s user postId userId body).store.posts.length = s.posts.length ∧
    (aggiornaPostBody env s user postId userId body).store.users = s.users ∧
    (aggiornaPostBody env s user postId userId body).store.comments = s.comments := by
  have hcond : (!user.isAdmin || decide (user.id ≠ userId)) = false := by
    simp [hadmin, hself]
  have hpo : (aggiornaPostBody env s user postId userId body).store.posts =
      modifyFirst (fun d => d.doc._id == postId)
        (fun d => { d with
          doc := patchPost body.title body.content body.category body.image d.doc,
          updatedAt := env.now })
        s.posts := by
    unfold aggiornaPostBody aggiornaPost
    simp only [hcond, findByIdAndUpdate, Bool.false_eq_true, if_false]
  have husers : (aggiornaPostBody env s user postId userId body).store.users = s.users := by
    unfold aggiornaPostBody aggiornaPost
    simp only [hcond, Bool.false_eq_true, if_false]
  have hcoms : (aggiornaPostBody env s user postId userId body).store.comments =
      s.comments := by
    unfold aggiornaPostBody aggiornaPost
    simp only [hcond, Bool.false_eq_true, if_false]
  rw [hpo]
  refine ⟨?_, ?_, ?_, modifyFirst_length _ _ _, husers, hcoms⟩
  · intro p hp
    refine ⟨{ p with doc := patchPost body.title body.content body.category body.image p.doc,
                     updatedAt := env.now }, ?_, rfl, rfl, rfl, rfl, rfl, rfl, rfl, rfl⟩
    rw [findById_modifyFirst Post._id _ postId (fun d hd => by simpa [patchPost] using hd)]
    simp [hp]
  · intro k hk
    rw [findById_modifyFirst Post._id _ postId (fun d hd => by simpa [patchPost] using hd)]
    simp [hk]
  · intro d hd hne
    exact mem_modifyFirst_of_not _ _ _ d hd (by simpa using hne)

/-- Witness for C26: the administrator retitles the sample post with a body
that also carries a slug and a userId. -/
theorem aggiornaPost_frame_witness :
    ∃ p', findById Post._id
        (aggiornaPostBody sampleEnv sampleStore rootSession "p1" "u2"
          { title := some "Altro Titolo", content := none, category := none, image := none,
            slug := some "forged", userId := some "u1" }).store.posts "p1" = some p' ∧
      p'.doc.slug = post1.doc.slug ∧ p'.doc.userId = post1.doc.userId ∧
      p'.doc._id = post1.doc._id ∧ p'.createdAt = post1.createdAt ∧
      p'.doc.title = "Altro Titolo" ∧ p'.doc.content = post1.doc.content ∧
      p'.doc.category = post1.doc.category ∧ p'.doc.image = post1.doc.image :=
  (aggiornaPost_frame sampleEnv sampleStore rootSession "p1" "u2"
    { title := some "Altro Titolo", content := none, category := none, image := none,
      slug := some "forged", userId := some "u1" } (by decide) (by decide)).1 post1 (by decide)


/-! ## Validation on profile update -/

theorem isAlphanum_iff (c : Char) :
    c.isAlphanum = true ↔
      (65 ≤ c.toNat ∧ c.toNat ≤ 90) ∨ (97 ≤ c.toNat ∧ c.toNat ≤ 122) ∨
      (48 ≤ c.toNat ∧ c.toNat ≤ 57) := by
  simp only [Char.isAlphanum, Char.isAlpha, Bool.or_eq_true, isUpper_iff, isLower_iff,
    isDigit_iff]
  tauto

theorem lowerFrom_alnum (before l : List Char) (h : ∀ c ∈ l, c.isAlphanum = true) :
    lowerFrom before l = l.map Char.toLower := by
  induction l generalizing before with
  | nil => rfl
  | cons c cs ih =>
    have hc := (isAlphanum_iff c).mp (h c (List.mem_cons_self _ _))
    have h1 : ¬ c.toNat = 931 := by omega
    have h2 : ¬ c.toNat = 304 := by omega
    have h3 : c.toNat < 128 := by omega
    rw [lowerFrom, ih _ (fun d hd => h d (List.mem_cons_of_mem _ hd)), lowerOne, if_neg h1,
      if_neg h2, if_pos h3]
    rfl

theorem utf16Length_alnum (u : String) (h : ∀ c ∈ u.data, c.isAlphanum = true) :
    utf16Length u = u.data.length := by
  unfold utf16Length
  generalize u.data = l at h
  induction l with
  | nil => rfl
  | cons c cs ih =>
    have hc := (isAlphanum_iff c).mp (h c (List.mem_cons_self _ _))
    have h3 : c.toNat < 65536 := by omega
    simp only [List.map_cons, List.sum_cons, if_pos h3, List.length_cons,
      ih (fun d hd => h d (List.mem_cons_of_mem _ hd))]
    omega

theorem map_fixed_of_eq {l : List Char} (h : l = l.map Char.toLower) :
    ∀ c ∈ l, c.toLower = c := by
  induction l with
  | nil => intro c hc; cases hc
  | cons x xs ih =>
    simp only [List.map_cons, List.cons.injEq] at h
    intro c hc
    rcases List.mem_cons.mp hc with rfl | hmem
    · exact h.1.symm
    · exact ih h.2 c hmem

/-- A username that passes the four checks of `aggiornaUtente` conforms to the
rule of the data model. -/
theorem conforming_of_checks (u : String)
    (hlen : (decide (utf16Length u < 6) || decide (utf16Length u > 18)) = false)
    (hlow : (u != toLowerCase u) = false) (halnum : matchesAlnum u = true) :
    conformingUsername u = true := by
  unfold matchesAlnum at halnum
  simp only [Bool.and_eq_true, List.all_eq_true] at halnum
  have hl : 6 ≤ u.data.length ∧ u.data.length ≤ 18 := by
    rw [utf16Length_alnum u halnum.2] at hlen
    simp only [Bool.or_eq_false_iff, decide_eq_false_iff_not, not_lt, gt_iff_lt] at hlen
    exact ⟨hlen.1, hlen.2⟩
  have hdata : u.data = u.data.map Char.toLower := by
    have h1 : u = toLowerCase u := by simpa using hlow
    have h2 := congrArg String.data h1
    rw [toLowerCase, lowerFrom_alnum [] u.data halnum.2] at h2
    exact h2
  have hfix := map_fixed_of_eq hdata
  unfold conformingUsername
  simp only [Bool.and_eq_true, decide_eq_true_eq, List.all_eq_true]
  refine ⟨⟨hl.1, hl.2⟩, ?_⟩
  intro c hc
  have hup : c.isUpper = false := by
    have := toLower_isUpper c
    rwa [hfix c hc] at this
  have ha := halnum.2 c hc
  simpa [Char.isAlphanum, Char.isAlpha, hup] using ha

/-- The part of the rule that holds: a non-empty username that does not
conform, and a non-empty password of length under 6, are refused by
`aggiornaUtente` with a 400 error and the store is unchanged. -/
theorem aggiornaUtente_rejects_nonconforming (env : Env) (s : Store) (user : TokenUser)
    (userId : String) (email profilePicture : Option String) (hself : user.id = userId) :
    (∀ u password, u ≠ "" → conformingUsername u = false →
      ∃ msg, aggiornaUtente env s user userId (some u) email profilePicture password =
        { store := s, log := [.next (some (errorHandler 400 msg))] }) ∧
    (∀ username pw, pw ≠ "" → utf16Length pw < 6 →
      aggiornaUtente env s user userId username email profilePicture (some pw) =
        { store := s, log := [.next (some (errorHandler 400
            "...La password deve essere lunga almeno 6 caratteri..."))] }) := by
  constructor
  · intro u password hu hbad
    have htr : truthy (some u) = true := by simp [truthy, hu]
    unfold aggiornaUtente
    simp only [hself, ne_eq, not_true_eq_false, if_false, htr, Bool.true_and, Option.getD_some,
      Outcome.failed]
    split
    · exact ⟨_, rfl⟩
    · split
      · exact ⟨_, rfl⟩
      · split
        · exact ⟨_, rfl⟩
        · split
          · exact ⟨_, rfl⟩
          · split
            · exact ⟨_, rfl⟩
            · rename_i h1 _ h3 h4
              exfalso
              have := conforming_of_checks u (by simpa using h1) (by simpa using h3)
                (by simpa using h4)
              rw [hbad] at this
              cases this
  · intro username pw hpw hshort
    have htr : truthy (some pw) = true := by simp [truthy, hpw]
    unfold aggiornaUtente
    simp only [hself, ne_eq, not_true_eq_false, if_false, htr, Bool.true_and, Option.getD_some,
      hshort, decide_True, if_true, Outcome.failed]

/-- C27, failing input.  Alice updates her own profile with the username `""`
(an empty string): the checks, guarded by the truthiness of the username, are
skipped, the update is issued and the store then holds the empty username,
which is not 6 to 18 characters long.  An empty password is stored the same
way.  The username `Al` is refused with 400. -/
theorem aggiornaUtente_accepts_empty_username :
    (aggiornaUtente sampleEnv sampleStore aliceSession "u1" (some "") none none none).log =
      [.db (.userFindByIdAndUpdate "u1" (some "") none none none),
       .json 200 (.object (withoutPassword (userDoc
         { alice with updatedAt := 1000, doc := { alice.doc with username := "" } })))] ∧
    (findById User._id
      (aggiornaUtente sampleEnv sampleStore aliceSession "u1" (some "") none none none).store.users
      "u1").map (fun u => u.doc.username) = some "" ∧
    conformingUsername "" = false ∧
    (findById User._id
      (aggiornaUtente sampleEnv sampleStore aliceSession "u1" none none none
        (some "")).store.users "u1").map (fun u => u.doc.password) = some "" ∧
    nextCalls (aggiornaUtente sampleEnv sampleStore aliceSession "u1" none none none
      (some "")).log = [] ∧
    aggiornaUtente sampleEnv sampleStore aliceSession "u1" (some "Al") none none none =
      { store := sampleStore, log := [.next (some (errorHandler 400
          "...L'username deve essere lungo tra i 6 e 18 caratteri..."))] } := by
  refine ⟨by decide, by decide, by decide, by decide, by decide, by decide⟩


/-! ## The last-month cutoff -/

/-- On a day that the preceding month also has, the cutoff is that day of the
preceding month. -/
theorem oneMonthAgoOf_regular (now : CalendarDate) (hm : now.month ≤ 11) (hd : 1 ≤ now.day)
    (hfit : now.day ≤ daysInMonth (precedingMonth now).1 (precedingMonth now).2) :
    oneMonthAgoOf now =
      { year := (precedingMonth now).1, month := (precedingMonth now).2, day := now.day } := by
  obtain ⟨y, m, d⟩ := now
  simp only at hm hd hfit ⊢
  obtain ⟨k, rfl⟩ : ∃ k, d = k + 1 := ⟨d - 1, by omega⟩
  have hy : y + ((m : Int) - 1) / 12 = (precedingMonth ⟨y, m, k + 1⟩).1 ∧
      (((m : Int) - 1) % 12).toNat = (precedingMonth ⟨y, m, k + 1⟩).2 := by
    unfold precedingMonth
    interval_cases m <;> simp
    omega
  unfold oneMonthAgoOf makeDate
  simp only
  rw [hy.1, hy.2]
  unfold rollDays
  simp only [hfit, if_true]

/-- C28, failing input.  On 31 March 2024 the cutoff
`new Date(2024, 1, 31)` is 2 March 2024: February has no day 31 and the date
runs over into March, the month of `now` itself, not the preceding calendar
month.  The same happens on 31 March 2023 (3 March), 31 May (1 May) and
31 July (1 July); on 15 January 2024 the cutoff is 15 December 2023. -/
theorem oneMonthAgo_overflows :
    oneMonthAgoOf { year := 2024, month := 2, day := 31 } =
      { year := 2024, month := 2, day := 2 } ∧
    precedingMonth { year := 2024, month := 2, day := 31 } = (2024, 1) ∧
    oneMonthAgoOf { year := 2023, month := 2, day := 31 } =
      { year := 2023, month := 2, day := 3 } ∧
    oneMonthAgoOf { year := 2024, month := 4, day := 31 } =
      { year := 2024, month := 4, day := 1 } ∧
    oneMonthAgoOf { year := 2024, month := 6, day := 31 } =
      { year := 2024, month := 6, day := 1 } ∧
    oneMonthAgoOf { year := 2024, month := 0, day := 15 } =
      { year := 2023, month := 11, day := 15 } := by
  refine ⟨by decide, by decide, by decide, by decide, by decide, by decide⟩

/-! ## Post authorization and creation -/

/-- C29. The authorization outcome of `aggiornaPost` and `eliminaPost` does
not depend on the store: on any two stores the same request gets the same
calls to `next` and issues the same store calls; and an administrator whose
id is the path `userId` is authorized, the update or delete being issued
against the path `postId` whatever post, if any, is stored under it. -/
theorem post_authorization_ignores_store (env : Env) (s₁ s₂ : Store) (user : TokenUser)
    (postId userId : String) (title content category image : Option String) :
    nextCalls (aggiornaPost env s₁ user postId userId title content category image).log =
      nextCalls (aggiornaPost env s₂ user postId userId title content category image).log ∧
    dbCalls (aggiornaPost env s₁ user postId userId title content category image).log =
      dbCalls (aggiornaPost env s₂ user postId userId title content category image).log ∧
    nextCalls (eliminaPost s₁ user postId userId).log =
      nextCalls (eliminaPost s₂ user postId userId).log ∧
    dbCalls (eliminaPost s₁ user postId userId).log =
      dbCalls (eliminaPost s₂ user postId userId).log ∧
    (user.isAdmin = true → user.id = userId →
      nextCalls (aggiornaPost env s₁ user postId userId title content category image).log = [] ∧
      dbCalls (aggiornaPost env s₁ user postId userId title content category image).log =
        [.postFindByIdAndUpdate postId title content category image] ∧
      nextCalls (eliminaPost s₁ user postId userId).log = [] ∧
      dbCalls (eliminaPost s₁ user postId userId).log = [.postFindByIdAndDelete postId]) := by
  unfold aggiornaPost eliminaPost
  by_cases hcond : (!user.isAdmin || decide (user.id ≠ userId)) = true
  · simp only [hcond, if_true, Outcome.failed, true_and]
    intro ha hi
    simp [ha, hi] at hcond
  · simp only [hcond, Bool.false_eq_true, if_false, nextCalls, dbCalls, true_and]
    intro _ _
    trivial

/-- Witness for C29: the administrator updates and deletes under the own id
on the sample store, on a store where the post belongs to alice, and on a
store without posts. -/
theorem post_authorization_ignores_store_witness :
    (nextCalls (aggiornaPost sampleEnv otherOwnerStore rootSession "p1" "u2" (some "T") none
        none none).log = [] ∧
      dbCalls (aggiornaPost sampleEnv otherOwnerStore rootSession "p1" "u2" (some "T") none
        none none).log = [.postFindByIdAndUpdate "p1" (some "T") none none none] ∧
      nextCalls (eliminaPost otherOwnerStore rootSession "p1" "u2").log = [] ∧
      dbCalls (eliminaPost otherOwnerStore rootSession "p1" "u2").log =
        [.postFindByIdAndDelete "p1"]) ∧
    (nextCalls (aggiornaPost sampleEnv noPostStore rootSession "p1" "u2" (some "T") none
        none none).log = [] ∧
      dbCalls (aggiornaPost sampleEnv noPostStore rootSession "p1" "u2" (some "T") none
        none none).log = [.postFindByIdAndUpdate "p1" (some "T") none none none] ∧
      nextCalls (eliminaPost noPostStore rootSession "p1" "u2").log = [] ∧
      dbCalls (eliminaPost noPostStore rootSession "p1" "u2").log =
        [.postFindByIdAndDelete "p1"]) :=
  ⟨(post_authorization_ignores_store sampleEnv otherOwnerStore sampleStore rootSession "p1" "u2"
      (some "T") none none none).2.2.2.2 (by decide) (by decide),
   (post_authorization_ignores_store sampleEnv noPostStore sampleStore rootSession "p1" "u2"
      (some "T") none none none).2.2.2.2 (by decide) (by decide)⟩

/-- C30. Identity fields cannot be forged on post creation: for an
administrator and a body with non-empty title and content, the one post
handed to the store has the caller id as userId and the slug derived from the
title of the body, whatever slug or userId the body carries; title, content,
category and image are those of the body (the schema default standing in for
an absent category or image); and a post added to the store is that post. -/
theorem creaPost_identity_fields (env : Env) (s : Store) (user : TokenUser) (body : PostBody)
    (t c : String) (hadmin : user.isAdmin = true) (ht : body.title = some t)
    (hc : body.content = some c) (htne : t ≠ "") (hcne : c ≠ "") :
    ∃ p : Post, dbCalls (creaPost env s user body).log = [.postSave p] ∧
      p.userId = user.id ∧ p.slug = slugOf t ∧ p.title = t ∧ p.content = c ∧
      p.category = body.category.getD "uncategorized" ∧
      p.image = body.image.getD defaultPostImage ∧
      (∀ d ∈ (creaPost env s user body).store.posts, d ∈ s.posts ∨ d.doc = p) := by
  have htt : truthy body.title = true := by simp [ht, truthy, htne]
  have hct : truthy body.content = true := by simp [hc, truthy, hcne]
  refine ⟨newPostOf env user body, ?_, rfl, ?_, ?_, ?_, rfl, rfl, ?_⟩
  · unfold creaPost
    simp only [hadmin, htt, hct, Bool.not_true, Bool.false_eq_true, if_false, Bool.or_self]
    split <;> rfl
  · simp [newPostOf, ht]
  · simp [newPostOf, ht]
  · simp [newPostOf, hc]
  · intro d hd
    unfold creaPost at hd
    simp only [hadmin, htt, hct, Bool.not_true, Bool.false_eq_true, if_false,
      Bool.or_self] at hd
    split at hd
    · exact Or.inl hd
    · rename_i s' hs
      unfold saveNewPost at hs
      split at hs
      · cases hs
      · split at hs
        · cases hs
        · cases hs
          simp only [insertNew, List.mem_append, List.mem_singleton] at hd
          rcases hd with h | h
          · exact Or.inl h
          · right; rw [h]

/-- Witness for C30: the administrator creates a post with a body that carries
a slug and a userId of its own. -/
theorem creaPost_identity_fields_witness :
    ∃ p : Post, dbCalls (creaPost sampleEnv sampleStore rootSession
        { title := some "Nuovo Post", content := some "x", category := some "cucina",
          image := none, slug := some "forged", userId := some "u1" }).log = [.postSave p] ∧
      p.userId = rootSession.id ∧ p.slug = slugOf "Nuovo Post" ∧ p.title = "Nuovo Post" ∧
      p.content = "x" ∧ p.category = (some "cucina").getD "uncategorized" ∧
      p.image = (none : Option String).getD defaultPostImage ∧
      (∀ d ∈ (creaPost sampleEnv sampleStore rootSession
          { title := some "Nuovo Post", content := some "x", category := some "cucina",
            image := none, slug := some "forged", userId := some "u1" }).store.posts,
        d ∈ sampleStore.posts ∨ d.doc = p) :=
  creaPost_identity_fields sampleEnv sampleStore rootSession
    { title := some "Nuovo Post", content := some "x", category := some "cucina",
      image := none, slug := some "forged", userId := some "u1" } "Nuovo Post" "x"
    (by decide) rfl rfl (by decide) (by decide)

end Blog
